import Mathlib

/-!
# Loongson display controller (lsdc) driver: shallow embedding

The definitions below follow `drivers/gpu/drm/lsdc/*.c` function by function.
Machine integers are natural numbers (or integers for C `int`) with the
truncation written out where the C arithmetic can wrap.  Memory-mapped
registers are a map from byte addresses to 32-bit words together with the
chronological list of the `writel` calls made so far.
-/

namespace Lsdc

/-! ## Chip descriptors (`lsdc_drv.h`, `lsdc_drv.c`) -/

/-- The chip families of `enum loongson_chip_family`. -/
inductive loongson_chip_family where
  | CHIP_UNKNOWN
  | CHIP_LS7A1000
  | CHIP_LS7A2000
  | CHIP_LS2K1000
  | CHIP_LS2K2000
  | CHIP_LAST
  deriving DecidableEq, Repr

open loongson_chip_family

/-- The number of display pipes, `LSDC_NUM_CRTC`. -/
def LSDC_NUM_CRTC : Nat := 2

/-- The feature description of one display controller variant, `struct lsdc_desc`.
The `u32`/`u64` members are naturals, the `bool` members are `Bool`. -/
structure lsdc_desc where
  chip : loongson_chip_family
  num_of_crtc : Nat
  max_pixel_clk : Nat
  max_width : Nat
  max_height : Nat
  num_of_hw_cursor : Nat
  hw_cursor_w : Nat
  hw_cursor_h : Nat
  pitch_align : Nat
  mc_bits : Nat
  has_vblank_counter : Bool
  has_scan_pos : Bool
  has_builtin_i2c : Bool
  has_vram : Bool
  has_hpd_reg : Bool
  is_soc : Bool
  deriving DecidableEq, Repr

/-- The descriptor of the display controller in the LS7A1000 bridge. -/
def dc_in_ls7a1000 : lsdc_desc where
  chip := CHIP_LS7A1000
  num_of_crtc := LSDC_NUM_CRTC
  max_pixel_clk := 200000
  max_width := 2048
  max_height := 2048
  num_of_hw_cursor := 1
  hw_cursor_w := 32
  hw_cursor_h := 32
  pitch_align := 256
  mc_bits := 40
  has_vblank_counter := false
  has_scan_pos := true
  has_builtin_i2c := true
  has_vram := true
  has_hpd_reg := false
  is_soc := false

/-- The descriptor of the display controller in the LS7A2000 bridge. -/
def dc_in_ls7a2000 : lsdc_desc where
  chip := CHIP_LS7A2000
  num_of_crtc := LSDC_NUM_CRTC
  max_pixel_clk := 350000
  max_width := 4096
  max_height := 4096
  num_of_hw_cursor := 2
  hw_cursor_w := 64
  hw_cursor_h := 64
  pitch_align := 64
  mc_bits := 40
  has_vblank_counter := true
  has_scan_pos := true
  has_builtin_i2c := true
  has_vram := true
  has_hpd_reg := true
  is_soc := false

/-- The descriptor of the display controller in the LS2K1000 SoC. -/
def dc_in_ls2k1000 : lsdc_desc where
  chip := CHIP_LS2K1000
  num_of_crtc := LSDC_NUM_CRTC
  max_pixel_clk := 200000
  max_width := 2048
  max_height := 2048
  num_of_hw_cursor := 1
  hw_cursor_w := 32
  hw_cursor_h := 32
  pitch_align := 256
  mc_bits := 40
  has_vblank_counter := false
  has_scan_pos := true
  has_builtin_i2c := false
  has_vram := false
  has_hpd_reg := false
  is_soc := true

/-- The descriptor of the display controller in the LS2K2000 SoC. -/
def dc_in_ls2k2000 : lsdc_desc where
  chip := CHIP_LS2K2000
  num_of_crtc := LSDC_NUM_CRTC
  max_pixel_clk := 350000
  max_width := 4096
  max_height := 4096
  num_of_hw_cursor := 2
  hw_cursor_w := 64
  hw_cursor_h := 64
  pitch_align := 256
  mc_bits := 40
  has_vblank_counter := true
  has_scan_pos := true
  has_builtin_i2c := true
  has_vram := false
  has_hpd_reg := true
  is_soc := true

/-- The four descriptors the driver defines. -/
def lsdc_descs : List lsdc_desc :=
  [dc_in_ls7a1000, dc_in_ls7a2000, dc_in_ls2k1000, dc_in_ls2k2000]

/-! ## Display modes -/

/-- Modelled from the spec: `struct drm_display_mode` is declared in
`include/drm/drm_modes.h`, outside the driver.  These are the members the
driver reads: the timings are unsigned 16-bit members, and `clock` is the pixel
clock in kHz as the driver reads it, an unsigned quantity
(`lsdc_pixpll_atomic_check` stores it in an `unsigned int`, and the comparison
with the `u32` limit in `lsdc_crtc_mode_valid` is an unsigned one). -/
structure drm_display_mode where
  clock : Nat
  hdisplay : Nat
  vdisplay : Nat
  crtc_hdisplay : Nat
  crtc_htotal : Nat
  crtc_hsync_start : Nat
  crtc_hsync_end : Nat
  crtc_vdisplay : Nat
  crtc_vsync_start : Nat
  crtc_vsync_end : Nat
  crtc_vtotal : Nat
  deriving DecidableEq, Repr

/-- Modelled from the spec: `enum drm_mode_status` is declared in
`include/drm/drm_modes.h`, outside the driver.  These are the values the
driver returns. -/
inductive drm_mode_status where
  | MODE_OK
  | MODE_BAD
  | MODE_BAD_HVALUE
  | MODE_BAD_VVALUE
  | MODE_CLOCK_HIGH
  | MODE_MEM
  deriving DecidableEq, Repr

open drm_mode_status

/-- The mode filter of the CRTC, `lsdc_crtc_mode_valid`: the descriptor is the
one of the device the CRTC belongs to (`to_lsdc(crtc->dev)->descp`).  The
checks run in the order of the source; the last one is the C remainder
`(mode->hdisplay * 4) % descp->pitch_align`, which needs a non-zero
`pitch_align`. -/
def lsdc_crtc_mode_valid (descp : lsdc_desc) (mode : drm_display_mode) : drm_mode_status :=
  if mode.hdisplay > descp.max_width then MODE_BAD_HVALUE
  else if mode.vdisplay > descp.max_height then MODE_BAD_VVALUE
  else if mode.clock > descp.max_pixel_clk then MODE_CLOCK_HIGH
  else if (mode.hdisplay * 4) % descp.pitch_align ≠ 0 then MODE_BAD
  else MODE_OK

/-! ## Register header

`lsdc_regs.h` is not among the sources.  Its macros are the members of
`lsdc_regs_h`; every function that uses one takes the header as its first
argument, so the results hold for whatever values the header gives them. -/

/-- The macros of `lsdc_regs.h` the modelled functions use: register offsets
from `reg_base`, bit masks and field codes of the CRTC configuration register. -/
structure lsdc_regs_h where
  CRTC_PIPE_OFFSET : Nat
  LSDC_CRTC0_CFG_REG : Nat
  LSDC_CRTC0_FB0_LO_ADDR_REG : Nat
  LSDC_CRTC0_FB0_HI_ADDR_REG : Nat
  LSDC_CRTC0_FB1_LO_ADDR_REG : Nat
  LSDC_CRTC0_FB1_HI_ADDR_REG : Nat
  LSDC_CRTC0_STRIDE_REG : Nat
  LSDC_CRTC0_HDISPLAY_REG : Nat
  LSDC_CRTC0_VDISPLAY_REG : Nat
  LSDC_CRTC0_HSYNC_REG : Nat
  LSDC_CRTC0_VSYNC_REG : Nat
  LSDC_CRTC0_SCAN_POS_REG : Nat
  CFG_PIX_FMT_MASK : Nat
  LSDC_PF_XRGB8888 : Nat
  CFG_OUTPUT_EN : Nat
  CFG_FB_IN_USING : Nat
  CFG_RESET_N : Nat
  CFG_DMA_STEP_MASK : Nat
  LSDC_DMA_STEP_256_BYTES : Nat
  LSDC_DMA_STEP_128_BYTES : Nat
  LSDC_DMA_STEP_64_BYTES : Nat
  LSDC_DMA_STEP_32_BYTES : Nat
  CFG_HSYNC_EN : Nat
  CFG_VSYNC_EN : Nat
  deriving DecidableEq, Repr

/-- A sample header: pipe registers 16 bytes apart, configuration register at
0x1240, DMA step in bits 17:16 of it, pixel format in bits 2:0. -/
def lsdc_regs_sample : lsdc_regs_h where
  CRTC_PIPE_OFFSET := 0x10
  LSDC_CRTC0_CFG_REG := 0x1240
  LSDC_CRTC0_FB0_LO_ADDR_REG := 0x1260
  LSDC_CRTC0_FB0_HI_ADDR_REG := 0x15A0
  LSDC_CRTC0_FB1_LO_ADDR_REG := 0x1580
  LSDC_CRTC0_FB1_HI_ADDR_REG := 0x15C0
  LSDC_CRTC0_STRIDE_REG := 0x1280
  LSDC_CRTC0_HDISPLAY_REG := 0x1400
  LSDC_CRTC0_VDISPLAY_REG := 0x1480
  LSDC_CRTC0_HSYNC_REG := 0x1420
  LSDC_CRTC0_VSYNC_REG := 0x14A0
  LSDC_CRTC0_SCAN_POS_REG := 0x14C0
  CFG_PIX_FMT_MASK := 0x7
  LSDC_PF_XRGB8888 := 4
  CFG_OUTPUT_EN := 0x100
  CFG_FB_IN_USING := 0x800
  CFG_RESET_N := 0x100000
  CFG_DMA_STEP_MASK := 0x30000
  LSDC_DMA_STEP_256_BYTES := 0x00000
  LSDC_DMA_STEP_128_BYTES := 0x10000
  LSDC_DMA_STEP_64_BYTES := 0x20000
  LSDC_DMA_STEP_32_BYTES := 0x30000
  CFG_HSYNC_EN := 0x40000000
  CFG_VSYNC_EN := 0x40000000

/-! ## Device and register accessors (`lsdc_drv.h`) -/

/-- Truncation to an unsigned 32-bit value. -/
def u32 (x : Nat) : Nat := x % 2 ^ 32

/-- Truncation to an unsigned 64-bit value. -/
def u64 (x : Nat) : Nat := x % 2 ^ 64

/-- The complement `~x` of an unsigned 32-bit value. -/
def u32_not (x : Nat) : Nat := 0xFFFFFFFF ^^^ u32 x

/-- The members of `struct lsdc_device` the modelled functions use.  `reg_base`
is the address BAR 0 is mapped at, `mmio` the words behind the bus addresses
and `wlog` the `writel` calls made so far, oldest first, each as the pair of
address and value. -/
structure lsdc_device where
  reg_base : Nat
  mmio : Nat → Nat
  wlog : List (Nat × Nat)
  vram_base : Nat
  vram_size : Nat
  descp : lsdc_desc

/-- Modelled from the spec: `readl` is the kernel's 32-bit read of a
memory-mapped register; here it returns the word the device holds at `addr`. -/
def readl (ldev : lsdc_device) (addr : Nat) : Nat := u32 (ldev.mmio addr)

/-- Modelled from the spec: `writel` is the kernel's 32-bit write to a
memory-mapped register; here it stores the low 32 bits of `val` at `addr` and
appends the write to `wlog`. -/
def writel (val addr : Nat) (ldev : lsdc_device) : lsdc_device :=
  { ldev with
    mmio := Function.update ldev.mmio addr (u32 val)
    wlog := ldev.wlog ++ [(addr, u32 val)] }

/-- Device-wide register read, `lsdc_rreg32`. -/
def lsdc_rreg32 (ldev : lsdc_device) (offset : Nat) : Nat :=
  readl ldev (ldev.reg_base + offset)

/-- Device-wide register write, `lsdc_wreg32`. -/
def lsdc_wreg32 (ldev : lsdc_device) (offset val : Nat) : lsdc_device :=
  writel val (ldev.reg_base + offset) ldev

/-- Read the register, write it back with the bits of `bit` set, `lsdc_ureg32_set`. -/
def lsdc_ureg32_set (ldev : lsdc_device) (offset bit : Nat) : lsdc_device :=
  let addr := ldev.reg_base + offset
  let val := readl ldev addr
  writel (val ||| bit) addr ldev

/-- Read the register, write it back with the bits of `bit` cleared, `lsdc_ureg32_clr`. -/
def lsdc_ureg32_clr (ldev : lsdc_device) (offset bit : Nat) : lsdc_device :=
  let addr := ldev.reg_base + offset
  let val := readl ldev addr
  writel (val &&& u32_not bit) addr ldev

/-- Per-pipe register read, `lsdc_crtc_rreg32`: the product
`pipe * CRTC_PIPE_OFFSET` is a 32-bit one. -/
def lsdc_crtc_rreg32 (R : lsdc_regs_h) (ldev : lsdc_device) (offset pipe : Nat) : Nat :=
  readl ldev (ldev.reg_base + offset + u32 (pipe * R.CRTC_PIPE_OFFSET))

/-- Per-pipe register write, `lsdc_crtc_wreg32`. -/
def lsdc_crtc_wreg32 (R : lsdc_regs_h) (ldev : lsdc_device) (offset pipe val : Nat) :
    lsdc_device :=
  writel val (ldev.reg_base + offset + u32 (pipe * R.CRTC_PIPE_OFFSET)) ldev

/-- Per-pipe read-modify-write setting the bits of `bit`, `lsdc_crtc_ureg32_set`. -/
def lsdc_crtc_ureg32_set (R : lsdc_regs_h) (ldev : lsdc_device) (offset pipe bit : Nat) :
    lsdc_device :=
  let addr := ldev.reg_base + offset + u32 (pipe * R.CRTC_PIPE_OFFSET)
  let val := readl ldev addr
  writel (val ||| bit) addr ldev

/-- Per-pipe read-modify-write clearing the bits of `bit`, `lsdc_crtc_ureg32_clr`. -/
def lsdc_crtc_ureg32_clr (R : lsdc_regs_h) (ldev : lsdc_device) (offset pipe bit : Nat) :
    lsdc_device :=
  let addr := ldev.reg_base + offset + u32 (pipe * R.CRTC_PIPE_OFFSET)
  let val := readl ldev addr
  writel (val &&& u32_not bit) addr ldev

/-- The byte address of register `offset` of display pipe `pipe` as the
register layout describes it: `offset + pipe * CRTC_PIPE_OFFSET` bytes above
`reg_base`, computed without truncation. -/
def pipe_reg_addr (R : lsdc_regs_h) (ldev : lsdc_device) (offset pipe : Nat) : Nat :=
  ldev.reg_base + (offset + pipe * R.CRTC_PIPE_OFFSET)

/-! ## Scanout position (`lsdc_crtc.c`) -/

/-- What `lsdc_crtc_get_scanout_position` hands back: its return value and the
values stored through `vpos` and `hpos`.  The two timestamps it stores through
`stime` and `etime` are wall-clock readings and are left out. -/
structure scanout_position where
  ret : Bool
  vpos : Int
  hpos : Int
  deriving DecidableEq, Repr

/-- The scanout position of pipe `i`, `lsdc_crtc_get_scanout_position`.  The
locals `line`, `vsw`, `vbp`, `vactive_start`, `vactive_end` and `vfp_end` are C
`int`s computed from 16-bit timings, so no operation leaves the `int` range. -/
def lsdc_crtc_get_scanout_position (R : lsdc_regs_h) (ldev : lsdc_device) (i : Nat)
    (mode : drm_display_mode) : scanout_position :=
  let vsw : Int := (mode.crtc_vsync_end : Int) - mode.crtc_vsync_start
  let vbp : Int := (mode.crtc_vtotal : Int) - mode.crtc_vsync_end
  let vactive_start : Int := vsw + vbp + 1
  let vactive_end : Int := vactive_start + mode.crtc_vdisplay
  let vfp_end : Int := mode.crtc_vtotal
  let val := lsdc_crtc_rreg32 R ldev R.LSDC_CRTC0_SCAN_POS_REG i
  let line : Int := ((val &&& 0xffff : Nat) : Int)
  let line : Int :=
    if line < vactive_start then line - vactive_start
    else if line > vactive_end then line - vfp_end - vactive_start
    else line - vactive_start
  { ret := true, vpos := line, hpos := ((val >>> 16 : Nat) : Int) }

/-! ## Buffer objects and framebuffers -/

/-- Modelled from the spec: the errno `ENOENT` of `errno-base.h`, no such file
or directory. -/
def ENOENT : Nat := 2

/-- Modelled from the spec: the errno `EIO` of `errno-base.h`, I/O error. -/
def EIO : Nat := 5

/-- Modelled from the spec: the errno `ENOMEM` of `errno-base.h`, out of memory. -/
def ENOMEM : Nat := 12

/-- Modelled from the spec: the errno `ENODEV` of `errno-base.h`, no such device. -/
def ENODEV : Nat := 19

/-- Modelled from the spec: the errno `EINVAL` of `errno-base.h`, invalid
argument. -/
def EINVAL : Nat := 22

/-- Modelled from the spec: `MAX_ERRNO` of `include/linux/err.h`, the largest
errno an error pointer can carry. -/
def MAX_ERRNO : Nat := 4095

/-- A C `int` converted to an unsigned 64-bit value (`u64`, `unsigned long`,
or the bits of a pointer). -/
def int_to_u64 (x : Int) : Nat := (x % 2 ^ 64).toNat

/-- Modelled from the spec: `IS_ERR` of `include/linux/err.h` on the bits of a
pointer; the top `MAX_ERRNO` values of the 64-bit address space are error
codes. -/
def IS_ERR (ptr : Nat) : Bool := decide (2 ^ 64 - MAX_ERRNO ≤ ptr)

/-- Modelled from the spec: the memory type `TTM_PL_SYSTEM` of
`include/drm/ttm/ttm_placement.h`, system memory. -/
def TTM_PL_SYSTEM : Nat := 0

/-- Modelled from the spec: the memory type `TTM_PL_VRAM` of
`include/drm/ttm/ttm_placement.h`, video memory. -/
def TTM_PL_VRAM : Nat := 2

/-- Modelled from the spec: `struct ttm_resource` is declared in
`include/drm/ttm/ttm_resource.h`; these are the members the driver reads, the
memory type and the first page. -/
structure ttm_resource where
  mem_type : Nat
  start : Nat
  deriving DecidableEq, Repr

/-- Modelled from the spec: `struct ttm_buffer_object` is declared in
`include/drm/ttm/ttm_bo.h`; these are the members the driver reads.
`resource` is `none` for a NULL pointer. -/
structure ttm_buffer_object where
  pin_count : Nat
  resource : Option ttm_resource
  deriving DecidableEq, Repr

/-- Modelled from the spec: `DRM_FORMAT_MAX_PLANES` of `include/drm/drm_fourcc.h`,
the length of the per-plane arrays of a framebuffer. -/
def DRM_FORMAT_MAX_PLANES : Nat := 4

/-- Modelled from the spec: `struct drm_format_info` is declared in
`include/drm/drm_fourcc.h`; these are the members the driver reads, the bytes
a pixel of each plane and the number of planes. -/
structure drm_format_info where
  cpp : Fin DRM_FORMAT_MAX_PLANES → Nat
  num_planes : Nat

/-- Modelled from the spec: `struct drm_framebuffer` is declared in
`include/drm/drm_framebuffer.h`; these are the members the driver reads, the
`unsigned int` arrays `pitches` and `offsets` among them.  `obj i` is `none`
for a NULL object pointer, otherwise the buffer object the GEM object is
embedded in (`to_ttm_bo`). -/
structure drm_framebuffer where
  format : drm_format_info
  pitches : Fin DRM_FORMAT_MAX_PLANES → Nat
  offsets : Fin DRM_FORMAT_MAX_PLANES → Nat
  obj : Fin DRM_FORMAT_MAX_PLANES → Option ttm_buffer_object

/-- Modelled from the spec: `struct drm_plane_state` is declared in
`include/drm/drm_plane.h`; these are the members the driver reads, the 32-bit
source coordinates in 16.16 fixed point, the framebuffer and the index of the
CRTC. -/
structure drm_plane_state where
  src_x : Nat
  src_y : Nat
  fb : Option drm_framebuffer
  crtc : Option Nat

/-- The byte offset of the first visible pixel, `lsdc_get_fb_offset`; the
accumulator is an `unsigned int`. -/
def lsdc_get_fb_offset (fb : drm_framebuffer) (state : drm_plane_state)
    (plane : Fin DRM_FORMAT_MAX_PLANES) : Nat :=
  let offset := fb.offsets plane
  let offset := u32 (offset + u32 (fb.format.cpp plane * (state.src_x >>> 16)))
  let offset := u32 (offset + u32 (fb.pitches plane * (state.src_y >>> 16)))
  offset

/-- The offset of a pinned buffer object in video memory, `lsdc_bo_gpu_offset`;
`PAGE_SHIFT` is the page size exponent of the kernel configuration. -/
def lsdc_bo_gpu_offset (PAGE_SHIFT : Nat) (tbo : ttm_buffer_object) : Nat :=
  if tbo.pin_count = 0 then int_to_u64 (-(ENODEV : Int))
  else
    match tbo.resource with
    | none => 0
    | some resource =>
      if resource.mem_type = TTM_PL_SYSTEM then 0
      else u64 (resource.start <<< PAGE_SHIFT)

/-- Point the scanout of `pipe` at a framebuffer, `lsdc_primary_update_impl`.
The result is `none` when `fb->obj[0]` is NULL, which the function dereferences. -/
def lsdc_primary_update_impl (R : lsdc_regs_h) (PAGE_SHIFT : Nat) (ldev : lsdc_device)
    (fb : drm_framebuffer) (fb_offset pipe : Nat) : Option lsdc_device :=
  match fb.obj ⟨0, by decide⟩ with
  | none => none
  | some tbo =>
    let bo_offset := lsdc_bo_gpu_offset PAGE_SHIFT tbo
    let fb_addr := u64 (u64 (ldev.vram_base + bo_offset) + fb_offset)
    let stride := fb.pitches ⟨0, by decide⟩
    if IS_ERR bo_offset then some ldev
    else
      let lo := fb_addr &&& 0xFFFFFFFF
      let hi := (fb_addr >>> 32) &&& 0xFF
      let cfg := lsdc_crtc_rreg32 R ldev R.LSDC_CRTC0_CFG_REG pipe
      let ldev :=
        if cfg &&& R.CFG_FB_IN_USING ≠ 0 then
          let ldev := lsdc_crtc_wreg32 R ldev R.LSDC_CRTC0_FB1_LO_ADDR_REG pipe lo
          lsdc_crtc_wreg32 R ldev R.LSDC_CRTC0_FB1_HI_ADDR_REG pipe hi
        else
          let ldev := lsdc_crtc_wreg32 R ldev R.LSDC_CRTC0_FB0_LO_ADDR_REG pipe lo
          lsdc_crtc_wreg32 R ldev R.LSDC_CRTC0_FB0_HI_ADDR_REG pipe hi
      let ldev := lsdc_crtc_wreg32 R ldev R.LSDC_CRTC0_STRIDE_REG pipe stride
      let cfg := cfg &&& u32_not R.CFG_PIX_FMT_MASK
      let cfg := cfg ||| R.LSDC_PF_XRGB8888
      some (lsdc_crtc_wreg32 R ldev R.LSDC_CRTC0_CFG_REG pipe cfg)

/-- The plane update of the primary plane, `lsdc_update_primary_plane`, on the
new plane state; `none` when the state has no CRTC or no framebuffer, which
the function dereferences. -/
def lsdc_update_primary_plane (R : lsdc_regs_h) (PAGE_SHIFT : Nat) (ldev : lsdc_device)
    (new_plane_state : drm_plane_state) : Option lsdc_device :=
  match new_plane_state.crtc, new_plane_state.fb with
  | some pipe, some fb =>
    let fb_offset := lsdc_get_fb_offset fb new_plane_state ⟨0, by decide⟩
    lsdc_primary_update_impl R PAGE_SHIFT ldev fb fb_offset pipe
  | _, _ => none

/-! ## Enabling a CRTC (`lsdc_crtc.c`) -/

/-- The calls `lsdc_crtc_enable` makes into code outside the driver's register
accessors: the `update` callback of the pixel PLL and `drm_crtc_vblank_on`.
Each is an arbitrary transformer of the device. -/
structure crtc_enable_env where
  pixpll_update : lsdc_device → lsdc_device
  drm_crtc_vblank_on : lsdc_device → lsdc_device

/-- The first four register writes of `lsdc_crtc_enable`: the horizontal and
vertical display and sync timings of pipe `index`. -/
def lsdc_crtc_enable_timing (R : lsdc_regs_h) (ldev : lsdc_device) (index : Nat)
    (mode : drm_display_mode) : lsdc_device :=
  let ldev := lsdc_crtc_wreg32 R ldev R.LSDC_CRTC0_HDISPLAY_REG index
    ((mode.crtc_htotal <<< 16) ||| mode.crtc_hdisplay)
  let ldev := lsdc_crtc_wreg32 R ldev R.LSDC_CRTC0_VDISPLAY_REG index
    ((mode.crtc_vtotal <<< 16) ||| mode.crtc_vdisplay)
  let ldev := lsdc_crtc_wreg32 R ldev R.LSDC_CRTC0_HSYNC_REG index
    ((mode.crtc_hsync_end <<< 16) ||| mode.crtc_hsync_start ||| R.CFG_HSYNC_EN)
  lsdc_crtc_wreg32 R ldev R.LSDC_CRTC0_VSYNC_REG index
    ((mode.crtc_vsync_end <<< 16) ||| mode.crtc_vsync_start ||| R.CFG_VSYNC_EN)

/-- The DMA step part of `lsdc_crtc_enable`: read the configuration register
of pipe `index`, clear the old step, choose the step from the scanline width
`width_in_bytes = mode->crtc_hdisplay * 4` on LS7A2000 and LS2K2000, and write
the register back. -/
def lsdc_crtc_enable_dma_step (R : lsdc_regs_h) (ldev : lsdc_device) (index : Nat)
    (mode : drm_display_mode) : lsdc_device :=
  let descp := ldev.descp
  let width_in_bytes := u32 (mode.crtc_hdisplay * 4)
  let val := lsdc_crtc_rreg32 R ldev R.LSDC_CRTC0_CFG_REG index
  let val := val &&& u32_not R.CFG_DMA_STEP_MASK
  let val :=
    if descp.chip = CHIP_LS7A2000 ∨ descp.chip = CHIP_LS2K2000 then
      if width_in_bytes % 256 = 0 then val ||| R.LSDC_DMA_STEP_256_BYTES
      else if width_in_bytes % 128 = 0 then val ||| R.LSDC_DMA_STEP_128_BYTES
      else if width_in_bytes % 64 = 0 then val ||| R.LSDC_DMA_STEP_64_BYTES
      else val ||| R.LSDC_DMA_STEP_32_BYTES
    else val
  lsdc_crtc_wreg32 R ldev R.LSDC_CRTC0_CFG_REG index val

/-- The atomic enable of a CRTC, `lsdc_crtc_enable`: the timing writes, the DMA
step, the PLL update, `drm_crtc_vblank_on`, and the output enable bit. -/
def lsdc_crtc_enable (R : lsdc_regs_h) (env : crtc_enable_env) (ldev : lsdc_device)
    (index : Nat) (mode : drm_display_mode) : lsdc_device :=
  let ldev := lsdc_crtc_enable_timing R ldev index mode
  let ldev := lsdc_crtc_enable_dma_step R ldev index mode
  let ldev := env.pixpll_update ldev
  let ldev := env.drm_crtc_vblank_on ldev
  lsdc_crtc_ureg32_set R ldev R.LSDC_CRTC0_CFG_REG index R.CFG_OUTPUT_EN

/-- The field code of a DMA step given in bytes, after the names of the
`LSDC_DMA_STEP_*_BYTES` codes. -/
def dma_step_code (R : lsdc_regs_h) (bytes : Nat) : Nat :=
  if bytes = 256 then R.LSDC_DMA_STEP_256_BYTES
  else if bytes = 128 then R.LSDC_DMA_STEP_128_BYTES
  else if bytes = 64 then R.LSDC_DMA_STEP_64_BYTES
  else R.LSDC_DMA_STEP_32_BYTES

/-! ## Kernel pointers and error values -/

/-- A pointer as a kernel function returns it: a valid object, or raw bits that
point to no object (NULL is `bits 0`, `ERR_PTR(e)` the 64 bits of `e`). -/
inductive kptr (α : Type) where
  | valid (a : α)
  | bits (b : Nat)

/-- The NULL pointer. -/
def kptr.NULL {α : Type} : kptr α := kptr.bits 0

/-- Modelled from the spec: `ERR_PTR` of `include/linux/err.h`, the error
pointer that carries the C `int` `e`. -/
def ERR_PTR {α : Type} (e : Int) : kptr α := kptr.bits (int_to_u64 e)

/-- The test `IS_ERR` on a pointer; a valid object never lies in the top
`MAX_ERRNO` bytes of the address space. -/
def kptr.IS_ERR {α : Type} : kptr α → Bool
  | kptr.valid _ => false
  | kptr.bits b => Lsdc.IS_ERR b

/-- Modelled from the spec: `PTR_ERR` of `include/linux/err.h` in a function
returning `int`, the bits of a pointer read as a `long` and cut to an `int`. -/
def PTR_ERR (b : Nat) : Int :=
  ((b : Int) + 2 ^ 31) % 2 ^ 32 - 2 ^ 31

/-! ## Chip detection and device creation (`lsdc_probe.c`, `lsdc_drv.c`) -/

/-- The numeric value of a chip family in `enum loongson_chip_family`. -/
def loongson_chip_family.val : loongson_chip_family → Nat
  | CHIP_UNKNOWN => 0
  | CHIP_LS7A1000 => 1
  | CHIP_LS7A2000 => 2
  | CHIP_LS2K1000 => 3
  | CHIP_LS2K2000 => 4
  | CHIP_LAST => 5

/-- The instruction set the driver is compiled for, which selects the
`__loongarch__` and `__mips__` branches of `lsdc_probe.c`. -/
inductive cpu_arch where
  | loongarch
  | mips
  | other
  deriving DecidableEq, Repr

/-- Mask of the implementation field of the PRID register. -/
def LOONGSON_CPU_PRID_IMP_MASK : Nat := 0xff00

/-- PRID implementation value of the LoongArch LS2K1000. -/
def LOONGARCH_CPU_PRID_LS2K1000 : Nat := 0xa000

/-- PRID implementation value of the LS2K2000. -/
def LOONGARCH_CPU_PRID_LS2K2000 : Nat := 0xb000

/-- PRID implementation value of the MIPS Loongson 2K series. -/
def LOONGSON_CPU_PRID_IMP_LS2K : Nat := 0x6100

/-- What the functions called during probing return: every member is the
result of one call into the kernel outside the driver, or what the hardware
answers.  Return codes are C `int`s, 0 for success; `devm_drm_dev_alloc` is 0
for a fresh device and otherwise the code of the error pointer it returns;
`pcim_iomap` is the address BAR 0 is mapped at, 0 for NULL; `pci_get_device`
gives base and size of BAR 2 of the GPU with the given device id, `none` when
there is none. -/
structure probe_env where
  arch : cpu_arch
  prid_reg : Nat
  driver_data : Nat
  pcim_enable_device : Int
  dma_set_mask_and_coherent : Int
  devm_drm_dev_alloc : Int
  pcim_iomap : Nat
  mmio : Nat → Nat
  pci_get_device : Nat → Option (Nat × Nat)
  stale_gpu : Option (Nat × Nat)
  of_parse_phandle : Bool
  of_address_to_resource : Int
  of_resource : Nat × Nat
  drm_aperture_remove_conflicting_framebuffers : Int
  ttm_device_init : Int
  ttm_range_man_init : Int
  drmm_add_action_or_reset : Int
  drmm_mode_config_init : Int
  lsdc_create_output : Nat → Int
  lsdc_pixpll_init : Nat → Int
  drm_universal_plane_init_primary : Nat → Int
  drm_universal_plane_init_cursor : Nat → Int
  drm_crtc_init_with_planes : Nat → Int
  drm_vblank_init : Int
  request_threaded_irq : Int
  drm_dev_register : kptr lsdc_device → Int

/-- The processor id, `loongson_cpu_get_prid`: read by an instruction on
LoongArch and MIPS, 0 elsewhere. -/
def loongson_cpu_get_prid (env : probe_env) : Nat :=
  match env.arch with
  | cpu_arch.loongarch => u32 env.prid_reg
  | cpu_arch.mips => u32 env.prid_reg
  | cpu_arch.other => 0

/-- Whether the processor is an LS2K2000, `lsdc_is_ls2k2000`. -/
def lsdc_is_ls2k2000 (env : probe_env) : Bool :=
  let prid := loongson_cpu_get_prid env
  if prid &&& LOONGSON_CPU_PRID_IMP_MASK = LOONGARCH_CPU_PRID_LS2K2000 then true else false

/-- Whether the processor is an LS2K1000, `lsdc_is_ls2k1000`. -/
def lsdc_is_ls2k1000 (env : probe_env) : Bool :=
  let prid := loongson_cpu_get_prid env
  match env.arch with
  | cpu_arch.loongarch =>
    if prid &&& LOONGSON_CPU_PRID_IMP_MASK = LOONGARCH_CPU_PRID_LS2K1000 then true else false
  | cpu_arch.mips =>
    if prid &&& LOONGSON_CPU_PRID_IMP_MASK = LOONGSON_CPU_PRID_IMP_LS2K then true else false
  | cpu_arch.other => false

/-- The descriptor for the matched PCI id, `lsdc_detect_chip`; `none` is NULL. -/
def lsdc_detect_chip (env : probe_env) : Option lsdc_desc :=
  let chip := env.driver_data
  if chip = CHIP_LS7A1000.val then
    if lsdc_is_ls2k1000 env then some dc_in_ls2k1000 else some dc_in_ls7a1000
  else if chip = CHIP_LS7A2000.val then
    if lsdc_is_ls2k2000 env then some dc_in_ls2k2000 else some dc_in_ls7a2000
  else none

/-- The video memory of the bridge chips, `lsdc_get_dedicated_vram`: the return
code and the base and size of BAR 2 of the GPU.  For a chip other than
LS7A1000 and LS7A2000 the local `gpu` is not assigned; `stale_gpu` stands for
what it holds then. -/
def lsdc_get_dedicated_vram (env : probe_env) (descp : lsdc_desc) : Int × Nat × Nat :=
  let gpu :=
    if descp.chip = CHIP_LS7A1000 then env.pci_get_device 0x7A15
    else if descp.chip = CHIP_LS7A2000 then env.pci_get_device 0x7A25
    else env.stale_gpu
  match gpu with
  | none => (-(ENODEV : Int), 0, 0)
  | some (base, size) => (0, base, size)

/-- The reserved memory of the SoCs, `lsdc_of_get_reserved_ram`: the return code
and the base and size of the `memory-region` carveout. -/
def lsdc_of_get_reserved_ram (env : probe_env) : Int × Nat × Nat :=
  if ¬ env.of_parse_phandle then (-(ENOENT : Int), 0, 0)
  else
    let ret := env.of_address_to_resource
    if ret ≠ 0 then (ret, 0, 0)
    else
      let size := u64 (u64 (env.of_resource.2 + 2 ^ 64 - u64 env.of_resource.1) + 1)
      (0, env.of_resource.1, size)

/-- The memory manager set-up, `lsdc_ttm_init`. -/
def lsdc_ttm_init (env : probe_env) : Int :=
  let ret := env.ttm_device_init
  if ret ≠ 0 then ret
  else
    let ret := env.ttm_range_man_init
    if ret ≠ 0 then ret
    else env.drmm_add_action_or_reset

/-- The mode configuration set-up, `lsdc_mode_config_init`. -/
def lsdc_mode_config_init (env : probe_env) : Int :=
  env.drmm_mode_config_init

/-- A loop `for (i = 0; i < n; i++) { ret = body(i); if (ret) return ret; }`:
the first non-zero return code, 0 when every round succeeds. -/
def first_failure (n : Nat) (body : Nat → Int) : Int :=
  (List.range n).foldl (fun ret i => if ret ≠ 0 then ret else body i) 0

/-- One round of the second loop of `lsdc_modeset_init`: the PLL, the primary
plane (`lsdc_plane_init`), the cursor plane and the CRTC (`lsdc_crtc_init`) of
pipe `i`. -/
def lsdc_modeset_init_pipe (env : probe_env) (i : Nat) : Int :=
  let ret := env.lsdc_pixpll_init i
  if ret ≠ 0 then ret
  else
    let ret := env.drm_universal_plane_init_primary i
    if ret ≠ 0 then ret
    else
      let ret := env.drm_universal_plane_init_cursor i
      if ret ≠ 0 then ret
      else env.drm_crtc_init_with_planes i

/-- The set-up of the display pipes, `lsdc_modeset_init`. -/
def lsdc_modeset_init (env : probe_env) (descp : lsdc_desc) : Int :=
  let num_crtc := descp.num_of_crtc
  let ret := first_failure num_crtc env.lsdc_create_output
  if ret ≠ 0 then ret
  else first_failure num_crtc (lsdc_modeset_init_pipe env)

/-- The device constructor, `lsdc_create_device`. -/
def lsdc_create_device (env : probe_env) : kptr lsdc_device :=
  if env.devm_drm_dev_alloc ≠ 0 then ERR_PTR env.devm_drm_dev_alloc
  else
    match lsdc_detect_chip env with
    | none => kptr.NULL
    | some descp =>
      if env.pcim_iomap = 0 then ERR_PTR (-( EIO : Int))
      else
        let vram :=
          if descp.has_vram then lsdc_get_dedicated_vram env descp
          else lsdc_of_get_reserved_ram env
        let ret := vram.1
        if ret ≠ 0 then ERR_PTR ret
        else
          let ret := env.drm_aperture_remove_conflicting_framebuffers
          if ret ≠ 0 then ERR_PTR ret
          else
            let ret := lsdc_ttm_init env
            if ret ≠ 0 then ERR_PTR ret
            else
              let ret := lsdc_mode_config_init env
              if ret ≠ 0 then ERR_PTR ret
              else
                let ret := lsdc_modeset_init env descp
                if ret ≠ 0 then ERR_PTR ret
                else
                  let ret := env.drm_vblank_init
                  if ret ≠ 0 then ERR_PTR ret
                  else
                    let ret := env.request_threaded_irq
                    if ret ≠ 0 then ERR_PTR ret
                    else
                      kptr.valid
                        { reg_base := env.pcim_iomap
                          mmio := env.mmio
                          wlog := []
                          vram_base := vram.2.1
                          vram_size := vram.2.2
                          descp := descp }

/-- What a call of `lsdc_pci_probe` does: its return value, the pointer it
handed to `drm_dev_register` (`none` when it did not get that far; `base` is
the first member of the device, so `&ldev->base` has the bits of `ldev`), and
whether it went on to `drm_fbdev_generic_setup`. -/
structure probe_result where
  ret : Int
  registered : Option (kptr lsdc_device)
  fbdev_setup : Bool

/-- The PCI probe callback, `lsdc_pci_probe`. -/
def lsdc_pci_probe (env : probe_env) : probe_result :=
  let ret := env.pcim_enable_device
  if ret ≠ 0 then { ret := ret, registered := none, fbdev_setup := false }
  else
    let ret := env.dma_set_mask_and_coherent
    if ret ≠ 0 then { ret := ret, registered := none, fbdev_setup := false }
    else
      let ldev := lsdc_create_device env
      match ldev with
      | kptr.bits b =>
        if IS_ERR b then { ret := PTR_ERR b, registered := none, fbdev_setup := false }
        else
          let ret := env.drm_dev_register ldev
          if ret ≠ 0 then { ret := ret, registered := some ldev, fbdev_setup := false }
          else { ret := 0, registered := some ldev, fbdev_setup := true }
      | kptr.valid _ =>
        let ret := env.drm_dev_register ldev
        if ret ≠ 0 then { ret := ret, registered := some ldev, fbdev_setup := false }
        else { ret := 0, registered := some ldev, fbdev_setup := true }

/-- A probing environment in which every call succeeds: a processor that is
not an LS2K, a GPU with 256 MiB of video memory in BAR 2, and the given
`driver_data` of the matched PCI id. -/
def probe_env_ok (driver_data : Nat) : probe_env where
  arch := cpu_arch.mips
  prid_reg := 0x6305
  driver_data := driver_data
  pcim_enable_device := 0
  dma_set_mask_and_coherent := 0
  devm_drm_dev_alloc := 0
  pcim_iomap := 0x10010000
  mmio := fun _ => 0
  pci_get_device := fun _ => some (0x40000000, 0x10000000)
  stale_gpu := none
  of_parse_phandle := false
  of_address_to_resource := 0
  of_resource := (0, 0)
  drm_aperture_remove_conflicting_framebuffers := 0
  ttm_device_init := 0
  ttm_range_man_init := 0
  drmm_add_action_or_reset := 0
  drmm_mode_config_init := 0
  lsdc_create_output := fun _ => 0
  lsdc_pixpll_init := fun _ => 0
  drm_universal_plane_init_primary := fun _ => 0
  drm_universal_plane_init_cursor := fun _ => 0
  drm_crtc_init_with_planes := fun _ => 0
  drm_vblank_init := 0
  request_threaded_irq := 0
  drm_dev_register := fun _ => 0

/-- The kernel convention for an `int` return code: 0, or the negative of an
errno up to `MAX_ERRNO`. -/
def is_errno_return (ret : Int) : Prop := -(MAX_ERRNO : Int) ≤ ret ∧ ret ≤ 0

/-- Every return code of the probing environment follows the kernel convention. -/
def probe_env.errno_returns (env : probe_env) : Prop :=
  is_errno_return env.pcim_enable_device ∧
  is_errno_return env.dma_set_mask_and_coherent ∧
  is_errno_return env.devm_drm_dev_alloc ∧
  is_errno_return env.of_address_to_resource ∧
  is_errno_return env.drm_aperture_remove_conflicting_framebuffers ∧
  is_errno_return env.ttm_device_init ∧
  is_errno_return env.ttm_range_man_init ∧
  is_errno_return env.drmm_add_action_or_reset ∧
  is_errno_return env.drmm_mode_config_init ∧
  (∀ i, is_errno_return (env.lsdc_create_output i)) ∧
  (∀ i, is_errno_return (env.lsdc_pixpll_init i)) ∧
  (∀ i, is_errno_return (env.drm_universal_plane_init_primary i)) ∧
  (∀ i, is_errno_return (env.drm_universal_plane_init_cursor i)) ∧
  (∀ i, is_errno_return (env.drm_crtc_init_with_planes i)) ∧
  is_errno_return env.drm_vblank_init ∧
  is_errno_return env.request_threaded_irq

/-! ## Dumb buffers (`lsdc_ttm.c`) -/

/-- Modelled from the spec: `struct drm_mode_create_dumb` is declared in
`include/uapi/drm/drm_mode.h`, the argument of the dumb-buffer ioctl.  All
members are `__u32` but `size`, which is a `__u64`. -/
structure drm_mode_create_dumb where
  height : Nat
  width : Nat
  bpp : Nat
  flags : Nat
  handle : Nat
  pitch : Nat
  size : Nat
  deriving DecidableEq, Repr

/-- The members of `struct lsdc_bo` the modelled functions use: the embedded
TTM object, the size of its GEM object, the cached kernel mapping (`none` when
cleared) and its use count. -/
structure lsdc_bo where
  bo : ttm_buffer_object
  size : Nat
  map : Option Nat
  vmap_use_count : Nat
  deriving DecidableEq, Repr

/-- What the kernel calls made while creating a dumb buffer return. -/
structure dumb_create_env where
  kzalloc : Bool
  drm_gem_object_init : Int
  ttm_bo_init_validate : Int
  resource : Option ttm_resource
  drm_gem_handle_create : kptr lsdc_bo → Int × Nat

/-- Modelled from the spec: `PAGE_SIZE`, the page size in bytes, an
`unsigned long` that is 1 shifted by the `PAGE_SHIFT` of the kernel
configuration. -/
def PAGE_SIZE (PAGE_SHIFT : Nat) : Nat := u64 (1 <<< PAGE_SHIFT)

/-- The complement `~x` of an unsigned 64-bit value. -/
def u64_not (x : Nat) : Nat := 0xFFFFFFFFFFFFFFFF ^^^ u64 x

/-- Modelled from the spec: `DIV_ROUND_UP(n, d)` of `include/linux/math.h`,
`((n) + (d) - 1) / (d)`, on a 32-bit unsigned `n`. -/
def DIV_ROUND_UP_u32 (n d : Nat) : Nat := u32 (n + d - 1) / d

/-- Modelled from the spec: `ALIGN(x, a)` of `include/linux/align.h` on a
`size_t`, `((x) + ((size_t)(a) - 1)) & ~((size_t)(a) - 1)`: `x` rounded up to
a multiple of a power of two `a`. -/
def ALIGN (x a : Nat) : Nat :=
  let mask := u64 (a + (2 ^ 64 - 1))
  u64 (x + mask) &&& u64_not mask

/-- Modelled from the spec: `roundup(x, y)` of `include/linux/math.h` on
`unsigned long`s, `(((x) + (y - 1)) / y) * y`. -/
def roundup (x y : Nat) : Nat :=
  u64 (u64 (x + u64 (y + (2 ^ 64 - 1))) / y * y)

/-- The local `pitch` of `lsdc_dumb_create` after its two assignments: the
product is one of two `__u32` values, the alignment is done on a `size_t`. -/
def lsdc_dumb_pitch (descp : lsdc_desc) (args : drm_mode_create_dumb) : Nat :=
  let pitch := u32 (args.width * DIV_ROUND_UP_u32 args.bpp 8)
  ALIGN pitch descp.pitch_align

/-- The local `size` of `lsdc_dumb_create` after its two assignments. -/
def lsdc_dumb_size (PAGE_SHIFT : Nat) (descp : lsdc_desc) (args : drm_mode_create_dumb) : Nat :=
  let size := u64 (lsdc_dumb_pitch descp args * args.height)
  roundup size (PAGE_SIZE PAGE_SHIFT)

/-- The buffer object constructor, `lsdc_bo_create`. -/
def lsdc_bo_create (env : dumb_create_env) (size : Nat) : kptr lsdc_bo :=
  if ¬ env.kzalloc then ERR_PTR (-(ENOMEM : Int))
  else
    let ret := env.drm_gem_object_init
    if ret ≠ 0 then ERR_PTR ret
    else
      let ret := env.ttm_bo_init_validate
      if ret ≠ 0 then ERR_PTR ret
      else
        kptr.valid
          { bo := { pin_count := 0, resource := env.resource }
            size := size
            map := none
            vmap_use_count := 0 }

/-- What a call of `lsdc_dumb_create` does: its return value, the ioctl
argument afterwards, and what `lsdc_bo_create` returned (`none` when it was
not called). -/
structure dumb_create_result where
  ret : Int
  args : drm_mode_create_dumb
  created : Option (kptr lsdc_bo)

/-- The part of `lsdc_dumb_create` after a buffer object was obtained: create
the handle, drop the reference, fill in `args`. -/
def lsdc_dumb_create_handle (env : dumb_create_env) (args : drm_mode_create_dumb)
    (pitch size : Nat) (lbo : kptr lsdc_bo) : dumb_create_result :=
  let r := env.drm_gem_handle_create lbo
  if r.1 ≠ 0 then { ret := r.1, args := args, created := some lbo }
  else
    { ret := 0
      args := { args with pitch := u32 pitch, size := u64 size, handle := u32 r.2 }
      created := some lbo }

/-- The dumb-buffer constructor, `lsdc_dumb_create`. -/
def lsdc_dumb_create (PAGE_SHIFT : Nat) (env : dumb_create_env) (descp : lsdc_desc)
    (args : drm_mode_create_dumb) : dumb_create_result :=
  let pitch := lsdc_dumb_pitch descp args
  let size := lsdc_dumb_size PAGE_SHIFT descp args
  if size = 0 then { ret := -(EINVAL : Int), args := args, created := none }
  else
    let lbo := lsdc_bo_create env size
    match lbo with
    | kptr.bits b =>
      if IS_ERR b then { ret := PTR_ERR b, args := args, created := some lbo }
      else lsdc_dumb_create_handle env args pitch size lbo
    | kptr.valid _ => lsdc_dumb_create_handle env args pitch size lbo

/-- The least multiple of `a` that is not below `x`: `x` rounded up to a
multiple of `a`, as the description of `lsdc_dumb_create` words it. -/
def round_up_to_multiple (x a : Nat) : Nat := (x + a - 1) / a * a

/-- An environment in which creating a dumb buffer succeeds with handle 1. -/
def dumb_create_env_ok : dumb_create_env where
  kzalloc := true
  drm_gem_object_init := 0
  ttm_bo_init_validate := 0
  resource := some { mem_type := TTM_PL_SYSTEM, start := 0 }
  drm_gem_handle_create := fun _ => (0, 1)

/-! ## Sample inputs -/

/-- The CEA mode 1920x1080 at 60 Hz. -/
def sample_mode : drm_display_mode where
  clock := 148500
  hdisplay := 1920
  vdisplay := 1080
  crtc_hdisplay := 1920
  crtc_htotal := 2200
  crtc_hsync_start := 2008
  crtc_hsync_end := 2052
  crtc_vdisplay := 1080
  crtc_vsync_start := 1084
  crtc_vsync_end := 1089
  crtc_vtotal := 1125

/-- An LS7A2000 display controller mapped at 0x10010000 with 256 MiB of video
memory at 0x40000000.  Pipe 0 scans line 5 at pixel 32, pipe 1 line 100 at
pixel 256; the configuration register of pipe 1 holds `CFG_RESET_N`,
`CFG_FB_IN_USING`, `CFG_OUTPUT_EN` and the XRGB8888 format, every other
register is 0. -/
def sample_ldev : lsdc_device where
  reg_base := 0x10010000
  mmio := fun addr =>
    if addr = 0x100114C0 then 0x00200005
    else if addr = 0x100114D0 then 0x01000064
    else if addr = 0x10011250 then 0x100904
    else 0
  wlog := []
  vram_base := 0x40000000
  vram_size := 0x10000000
  descp := dc_in_ls7a2000

/-- A buffer object pinned once, at page 256 of video memory. -/
def sample_tbo : ttm_buffer_object where
  pin_count := 1
  resource := some { mem_type := TTM_PL_VRAM, start := 256 }

/-- An XRGB8888 framebuffer of 1920 pixels a line on `sample_tbo`. -/
def sample_fb : drm_framebuffer where
  format := { cpp := fun _ => 4, num_planes := 1 }
  pitches := fun _ => 7680
  offsets := fun _ => 0
  obj := fun i => if i.val = 0 then some sample_tbo else none

/-- A plane state showing `sample_fb` from its pixel (16, 2) on, on CRTC 1. -/
def sample_plane_state : drm_plane_state where
  src_x := 0x100000
  src_y := 0x20000
  fb := some sample_fb
  crtc := some 1

/-- A plane state showing `sample_fb` from its origin, with fractional source
coordinates. -/
def sample_plane_state_origin : drm_plane_state where
  src_x := 0x8000
  src_y := 0xffff
  fb := some sample_fb
  crtc := some 0

/-- The callbacks of `lsdc_crtc_enable` doing nothing to the registers. -/
def sample_enable_env : crtc_enable_env where
  pixpll_update := id
  drm_crtc_vblank_on := id

/-- A request for a 1920x1080 dumb buffer of 32 bits a pixel. -/
def sample_dumb_args : drm_mode_create_dumb where
  height := 1080
  width := 1920
  bpp := 32
  flags := 0
  handle := 0
  pitch := 0
  size := 0

/-- A request whose width times 4 bytes exceeds 32 bits: 2^30 + 1 pixels of 32
bits, one line. -/
def wide_dumb_args : drm_mode_create_dumb where
  height := 1
  width := 0x40000001
  bpp := 32
  flags := 0
  handle := 0
  pitch := 0
  size := 0

/-! ## PCI ids (`lsdc_drv.c`) -/

/-- Modelled from the spec: `struct pci_device_id` is declared in
`include/linux/mod_devicetable.h`; the members are those the initialisers of
`lsdc_pciid_list` give, in their order (`class_` is the member `class`). -/
structure pci_device_id where
  vendor : Nat
  device : Nat
  subvendor : Nat
  subdevice : Nat
  class_ : Nat
  class_mask : Nat
  driver_data : Nat
  deriving DecidableEq, Repr

/-- Modelled from the spec: `PCI_VENDOR_ID_LOONGSON` of `include/linux/pci_ids.h`;
the header comment of `lsdc_drv.h` gives the vendor id 0x0014. -/
def PCI_VENDOR_ID_LOONGSON : Nat := 0x0014

/-- Modelled from the spec: `PCI_ANY_ID` of `include/linux/mod_devicetable.h`,
the wildcard `~0` of a 32-bit member. -/
def PCI_ANY_ID : Nat := 0xffffffff

/-- The PCI id table of the driver, `lsdc_pciid_list`, with its all-zero last
entry. -/
def lsdc_pciid_list : List pci_device_id :=
  [ { vendor := PCI_VENDOR_ID_LOONGSON, device := 0x7a06, subvendor := PCI_ANY_ID,
      subdevice := PCI_ANY_ID, class_ := 0, class_mask := 0,
      driver_data := CHIP_LS7A1000.val },
    { vendor := PCI_VENDOR_ID_LOONGSON, device := 0x7a36, subvendor := PCI_ANY_ID,
      subdevice := PCI_ANY_ID, class_ := 0, class_mask := 0,
      driver_data := CHIP_LS7A2000.val },
    { vendor := 0, device := 0, subvendor := 0, subdevice := 0, class_ := 0, class_mask := 0,
      driver_data := 0 } ]

/-- Modelled from the spec: the entry that ends a PCI id table, the one the PCI
core stops at: vendor, subvendor and class mask are all 0. -/
def pci_device_id.is_terminator (ent : pci_device_id) : Bool :=
  decide (ent.vendor = 0 ∧ ent.subvendor = 0 ∧ ent.class_mask = 0)

/-- The entries of a PCI id table a device can match: those before the
terminator. -/
def pci_id_entries (table : List pci_device_id) : List pci_device_id :=
  table.takeWhile (fun ent => !ent.is_terminator)

/-- A buffer object that is not pinned. -/
def sample_tbo_unpinned : ttm_buffer_object where
  pin_count := 0
  resource := some { mem_type := TTM_PL_VRAM, start := 256 }

/-- An XRGB8888 framebuffer of 1920 pixels a line on `sample_tbo_unpinned`. -/
def sample_fb_unpinned : drm_framebuffer where
  format := { cpp := fun _ => 4, num_planes := 1 }
  pitches := fun _ => 7680
  offsets := fun _ => 0
  obj := fun i => if i.val = 0 then some sample_tbo_unpinned else none

/-! ## Cursor planes (`lsdc_plane.c`) -/

/-- The cursor macros of `lsdc_regs.h`, which is not among the sources: the
registers of the two hardware cursors and the bit of the configuration register
that places cursor 0 on CRTC-1.  Like `lsdc_regs_h` the header is an argument
of every function that uses one of them. -/
structure lsdc_cursor_regs_h where
  LSDC_CURSOR0_CFG_REG : Nat
  LSDC_CURSOR0_ADDR_LO_REG : Nat
  LSDC_CURSOR0_ADDR_HI_REG : Nat
  LSDC_CURSOR0_POSITION_REG : Nat
  LSDC_CURSOR1_CFG_REG : Nat
  LSDC_CURSOR1_ADDR_LO_REG : Nat
  LSDC_CURSOR1_ADDR_HI_REG : Nat
  LSDC_CURSOR1_POSITION_REG : Nat
  CURSOR_LOCATION : Nat
  CURSOR_FORMAT_ARGB8888 : Nat
  CURSOR_SIZE_64X64 : Nat
  deriving DecidableEq, Repr

/-- A sample cursor header: `CURSOR_LOCATION` is bit 4, as the comment in
`lsdc_update_cursor0_config_quirk` has it. -/
def lsdc_cursor_regs_sample : lsdc_cursor_regs_h where
  LSDC_CURSOR0_CFG_REG := 0x1520
  LSDC_CURSOR0_ADDR_LO_REG := 0x1530
  LSDC_CURSOR0_ADDR_HI_REG := 0x15e0
  LSDC_CURSOR0_POSITION_REG := 0x1540
  LSDC_CURSOR1_CFG_REG := 0x1670
  LSDC_CURSOR1_ADDR_LO_REG := 0x1680
  LSDC_CURSOR1_ADDR_HI_REG := 0x16e0
  LSDC_CURSOR1_POSITION_REG := 0x1690
  CURSOR_LOCATION := 0x10
  CURSOR_FORMAT_ARGB8888 := 0x2
  CURSOR_SIZE_64X64 := 0x4

/-- The functions a table of cursor helpers can name as `update_position`. -/
inductive cursor_position_fn where
  | cursor0_position
  | cursor1_position
  deriving DecidableEq, Repr

/-- The functions a table of cursor helpers can name as `update_config`. -/
inductive cursor_config_fn where
  | cursor0_config
  | cursor1_config
  | cursor0_config_quirk
  deriving DecidableEq, Repr

/-- The functions a table of cursor helpers can name as `update_offset`. -/
inductive cursor_offset_fn where
  | cursor0_offset
  | cursor1_offset
  deriving DecidableEq, Repr

/-- A table of cursor helpers, `struct lsdc_cursor_lowing_funcs`: each member
names the function it points to. -/
structure lsdc_cursor_lowing_funcs where
  update_position : cursor_position_fn
  update_config : cursor_config_fn
  update_offset : cursor_offset_fn
  deriving DecidableEq, Repr

/-- The helpers of the cursor of pipe 0, `cursor_lowing_funcs_pipe0`. -/
def cursor_lowing_funcs_pipe0 : lsdc_cursor_lowing_funcs where
  update_position := cursor_position_fn.cursor0_position
  update_config := cursor_config_fn.cursor0_config
  update_offset := cursor_offset_fn.cursor0_offset

/-- The helpers of the cursor of pipe 1 on chips with two hardware cursors,
`cursor_lowing_funcs_pipe1`. -/
def cursor_lowing_funcs_pipe1 : lsdc_cursor_lowing_funcs where
  update_position := cursor_position_fn.cursor1_position
  update_config := cursor_config_fn.cursor1_config
  update_offset := cursor_offset_fn.cursor1_offset

/-- The helpers of the cursor of pipe 1 on chips with one hardware cursor,
`cursor_lowing_funcs_pipe1_quirk`. -/
def cursor_lowing_funcs_pipe1_quirk : lsdc_cursor_lowing_funcs where
  update_position := cursor_position_fn.cursor0_position
  update_config := cursor_config_fn.cursor0_config_quirk
  update_offset := cursor_offset_fn.cursor0_offset

/-- The members of `struct lsdc_cursor` the helpers use: the table (`none`
before `lsdc_cursor_plane_preinit`) and the cached `offset` and `cfg`, both
`u32`.  The device `ldev` the structure points to is passed beside it. -/
structure lsdc_cursor where
  funcs : Option lsdc_cursor_lowing_funcs
  offset : Nat
  cfg : Nat
  deriving DecidableEq, Repr

/-- The position of cursor 0, `lsdc_update_cursor0_position`; `x` and `y` are
C `int`s. -/
def lsdc_update_cursor0_position (C : lsdc_cursor_regs_h) (ldev : lsdc_device)
    (x y : Int) : lsdc_device :=
  let x := if x < 0 then 0 else x
  let y := if y < 0 then 0 else y
  lsdc_wreg32 ldev C.LSDC_CURSOR0_POSITION_REG ((y.toNat <<< 16) ||| x.toNat)

/-- The position of cursor 1, `lsdc_update_cursor1_position`. -/
def lsdc_update_cursor1_position (C : lsdc_cursor_regs_h) (ldev : lsdc_device)
    (x y : Int) : lsdc_device :=
  let x := if x < 0 then 0 else x
  let y := if y < 0 then 0 else y
  lsdc_wreg32 ldev C.LSDC_CURSOR1_POSITION_REG ((y.toNat <<< 16) ||| x.toNat)

/-- The configuration of cursor 0 on behalf of pipe 0,
`lsdc_update_cursor0_config`: the register is written only when `cfg` differs
from the value cached in the cursor. -/
def lsdc_update_cursor0_config (C : lsdc_cursor_regs_h) (ldev : lsdc_device)
    (this : lsdc_cursor) (cfg : Nat) : lsdc_device × lsdc_cursor :=
  if this.cfg ≠ cfg then
    let this := { this with cfg := cfg }
    (lsdc_wreg32 ldev C.LSDC_CURSOR0_CFG_REG (cfg &&& u32_not C.CURSOR_LOCATION), this)
  else (ldev, this)

/-- The configuration of cursor 1, `lsdc_update_cursor1_config`. -/
def lsdc_update_cursor1_config (C : lsdc_cursor_regs_h) (ldev : lsdc_device)
    (this : lsdc_cursor) (cfg : Nat) : lsdc_device × lsdc_cursor :=
  if this.cfg ≠ cfg then
    let this := { this with cfg := cfg }
    (lsdc_wreg32 ldev C.LSDC_CURSOR1_CFG_REG (cfg ||| C.CURSOR_LOCATION), this)
  else (ldev, this)

/-- The buffer address of cursor 0, `lsdc_update_cursor0_offset`; `offset` is a
`u64`, the cached `this->offset` a `u32`. -/
def lsdc_update_cursor0_offset (C : lsdc_cursor_regs_h) (ldev : lsdc_device)
    (this : lsdc_cursor) (offset : Nat) : lsdc_device × lsdc_cursor :=
  if this.offset ≠ offset then
    let this := { this with offset := u32 offset }
    let addr := u64 (ldev.vram_base + offset)
    let ldev := lsdc_wreg32 ldev C.LSDC_CURSOR0_ADDR_HI_REG ((addr >>> 32) &&& 0xFF)
    (lsdc_wreg32 ldev C.LSDC_CURSOR0_ADDR_LO_REG addr, this)
  else (ldev, this)

/-- The buffer address of cursor 1, `lsdc_update_cursor1_offset`. -/
def lsdc_update_cursor1_offset (C : lsdc_cursor_regs_h) (ldev : lsdc_device)
    (this : lsdc_cursor) (offset : Nat) : lsdc_device × lsdc_cursor :=
  if this.offset ≠ offset then
    let this := { this with offset := u32 offset }
    let addr := u64 (ldev.vram_base + offset)
    let ldev := lsdc_wreg32 ldev C.LSDC_CURSOR1_ADDR_HI_REG ((addr >>> 32) &&& 0xFF)
    (lsdc_wreg32 ldev C.LSDC_CURSOR1_ADDR_LO_REG addr, this)
  else (ldev, this)

/-- The configuration of cursor 0 on behalf of pipe 1,
`lsdc_update_cursor0_config_quirk`: the register is always written, with
`CURSOR_LOCATION` set, and nothing is cached. -/
def lsdc_update_cursor0_config_quirk (C : lsdc_cursor_regs_h) (ldev : lsdc_device)
    (this : lsdc_cursor) (cfg : Nat) : lsdc_device × lsdc_cursor :=
  (lsdc_wreg32 ldev C.LSDC_CURSOR0_CFG_REG (cfg ||| C.CURSOR_LOCATION), this)

/-- The function an `update_config` member points to. -/
def cursor_config_fn.call (fn : cursor_config_fn) (C : lsdc_cursor_regs_h)
    (ldev : lsdc_device) (this : lsdc_cursor) (cfg : Nat) : lsdc_device × lsdc_cursor :=
  match fn with
  | cursor_config_fn.cursor0_config => lsdc_update_cursor0_config C ldev this cfg
  | cursor_config_fn.cursor1_config => lsdc_update_cursor1_config C ldev this cfg
  | cursor_config_fn.cursor0_config_quirk => lsdc_update_cursor0_config_quirk C ldev this cfg

/-- The choice of helpers for the cursor plane of pipe `index`,
`lsdc_cursor_plane_preinit`: the table stored in `cursor->funcs`. -/
def lsdc_cursor_plane_preinit (descp : lsdc_desc) (index : Nat) : lsdc_cursor_lowing_funcs :=
  if index = 0 then cursor_lowing_funcs_pipe0
  else if descp.chip = CHIP_LS7A2000 ∨ descp.chip = CHIP_LS2K2000 then cursor_lowing_funcs_pipe1
  else cursor_lowing_funcs_pipe1_quirk

/-- The call `cfuncs->update_config(cursor, cfg)` of `lsdc_cursor_atomic_update`
and `lsdc_cursor_atomic_disable`, through the table in `cursor->funcs`; `none`
when that pointer is NULL. -/
def lsdc_cursor_update_config (C : lsdc_cursor_regs_h) (ldev : lsdc_device)
    (cursor : lsdc_cursor) (cfg : Nat) : Option (lsdc_device × lsdc_cursor) :=
  match cursor.funcs with
  | none => none
  | some cfuncs => some (cfuncs.update_config.call C ldev cursor cfg)

/-- The two cursor planes and the device they share. -/
structure cursor_state where
  ldev : lsdc_device
  cursor0 : lsdc_cursor
  cursor1 : lsdc_cursor

/-- One `update_config` call on the cursor of pipe 0 (`pipe = 0`) or of pipe 1
(any other `pipe`). -/
def cursor_update_config (C : lsdc_cursor_regs_h) (st : cursor_state) (pipe cfg : Nat) :
    Option cursor_state :=
  if pipe = 0 then
    (lsdc_cursor_update_config C st.ldev st.cursor0 cfg).map
      (fun r => { st with ldev := r.1, cursor0 := r.2 })
  else
    (lsdc_cursor_update_config C st.ldev st.cursor1 cfg).map
      (fun r => { st with ldev := r.1, cursor1 := r.2 })

/-- A sequence of `update_config` calls, each given as the pipe and the `cfg`,
oldest first. -/
def cursor_update_configs (C : lsdc_cursor_regs_h) (st : cursor_state) :
    List (Nat × Nat) → Option cursor_state
  | [] => some st
  | call :: calls =>
    match cursor_update_config C st call.1 call.2 with
    | none => none
    | some st => cursor_update_configs C st calls

/-- An LS7A1000 display controller, which has one hardware cursor, with all
registers 0 and both cursor planes as `lsdc_plane_init` leaves them. -/
def sample_cursor_state : cursor_state where
  ldev :=
    { reg_base := 0x10010000
      mmio := fun _ => 0
      wlog := []
      vram_base := 0x40000000
      vram_size := 0x10000000
      descp := dc_in_ls7a1000 }
  cursor0 := { funcs := some (lsdc_cursor_plane_preinit dc_in_ls7a1000 0), offset := 0, cfg := 0 }
  cursor1 := { funcs := some (lsdc_cursor_plane_preinit dc_in_ls7a1000 1), offset := 0, cfg := 0 }

/-! ## I/O memory of a resource (`lsdc_ttm.c`) -/

/-- Modelled from the spec: `enum ttm_caching` of
`include/drm/ttm/ttm_caching.h`. -/
inductive ttm_caching where
  | ttm_uncached
  | ttm_write_combined
  | ttm_cached
  deriving DecidableEq, Repr

/-- Modelled from the spec: `struct ttm_bus_placement` is declared in
`include/drm/ttm/ttm_resource.h`; these are the members the driver writes, the
bus address `offset` (a 64-bit `phys_addr_t`), `is_iomem` and `caching`. -/
structure ttm_bus_placement where
  offset : Nat
  is_iomem : Bool
  caching : ttm_caching
  deriving DecidableEq, Repr

/-- Modelled from the spec: a `struct ttm_resource` together with its member
`bus`. -/
structure ttm_io_resource extends ttm_resource where
  bus : ttm_bus_placement
  deriving DecidableEq, Repr

/-- The `io_mem_reserve` callback, `lsdc_bo_reserve_io_mem`: the return value
and the resource afterwards.  `mem->start` is an `unsigned long` and
`vram_base` a 64-bit `resource_size_t`, so the sum is taken on 64 bits. -/
def lsdc_bo_reserve_io_mem (PAGE_SHIFT : Nat) (ldev : lsdc_device) (mem : ttm_io_resource) :
    Int × ttm_io_resource :=
  let descp := ldev.descp
  if mem.mem_type = TTM_PL_SYSTEM then (0, mem)
  else if mem.mem_type = TTM_PL_VRAM then
    let bus := { mem.bus with offset := u64 (u64 (mem.start <<< PAGE_SHIFT) + ldev.vram_base) }
    let bus := { bus with is_iomem := true }
    let bus :=
      if descp.is_soc then { bus with caching := ttm_caching.ttm_cached }
      else { bus with caching := ttm_caching.ttm_write_combined }
    (0, { mem with bus := bus })
  else (-(EINVAL : Int), mem)

/-- A resource in video memory whose bus placement was not filled in yet. -/
def sample_io_resource : ttm_io_resource where
  mem_type := TTM_PL_VRAM
  start := 0x100
  bus := { offset := 0, is_iomem := false, caching := ttm_caching.ttm_uncached }

/-! ## Framebuffer size check (`lsdc_drv.c`) -/

/-- The value of a C `int` expression whose mathematical value is `x`: the
kernel is built with `-fno-strict-overflow`, so a signed result wraps to 32
bits in two's complement. -/
def int_wrap (x : Int) : Int := (x + 2 ^ 31) % 2 ^ 32 - 2 ^ 31

/-- Modelled from the spec: `DIV_ROUND_UP(n, d)` of `include/linux/math.h`,
`((n) + (d) - 1) / (d)`, on `unsigned long`s. -/
def DIV_ROUND_UP_ulong (n d : Nat) : Nat := u64 (u64 (n + d) + (2 ^ 64 - 1)) / d

/-- The `mode_valid` hook of the mode configuration, `lsdc_bo_size_valid`.
`hdisplay` and `vdisplay` are `u16`s, so their product is an `int`, which is
converted to `unsigned long` for the product with `max_bpp`. -/
def lsdc_bo_size_valid (PAGE_SHIFT : Nat) (ldev : lsdc_device) (mode : drm_display_mode) :
    drm_mode_status :=
  let max_bpp := 4
  let max_fbpages := (ldev.vram_size / 2) >>> PAGE_SHIFT
  let fbsize :=
    u64 (int_to_u64 (int_wrap ((mode.hdisplay : Int) * (mode.vdisplay : Int))) * max_bpp)
  let fbpages := DIV_ROUND_UP_ulong fbsize (PAGE_SIZE PAGE_SHIFT)
  if fbpages > max_fbpages then drm_mode_status.MODE_MEM
  else drm_mode_status.MODE_OK

/-- A 65535x65535 mode; only the visible size matters to `lsdc_bo_size_valid`. -/
def huge_mode : drm_display_mode :=
  { sample_mode with hdisplay := 65535, vdisplay := 65535 }

/-- A device with 1 TiB of video memory. -/
def huge_vram_ldev : lsdc_device :=
  { sample_ldev with vram_size := 2 ^ 40 }

/-! ## The etnaviv PCI glue (`etnaviv_pci_drv.c`) -/

/-- What the functions called by `etnaviv_pci_probe` return.  Return codes are
C `int`s, 0 for success.  `pcim_iomap` is the bits of the pointer it returns:
the address BAR 0 is mapped at, and 0 (NULL) when the mapping failed, which is
how `lsdc_create_device` tests it.  `etnaviv_gpu_driver_create` is given the
pointer it is passed as `mmio`. -/
structure etnaviv_probe_env where
  pcim_enable_device : Int
  dma_set_mask_and_coherent : Int
  pcim_iomap : Nat
  etnaviv_gpu_driver_create : Nat → Int
  etnaviv_drm_bind : Int

/-- The calls `etnaviv_pci_probe` makes; `etnaviv_gpu_driver_create` with the
`mmio` pointer it is passed. -/
inductive etnaviv_probe_call where
  | pcim_enable_device
  | pci_set_master
  | dma_set_mask_and_coherent
  | pcim_iomap
  | etnaviv_gpu_driver_create (mmio : Nat)
  | etnaviv_drm_bind
  deriving DecidableEq, Repr

/-- What a call of `etnaviv_pci_probe` does: its return value and the calls it
made, oldest first. -/
structure etnaviv_probe_result where
  ret : Int
  calls : List etnaviv_probe_call
  deriving DecidableEq, Repr

/-- The PCI probe callback of etnaviv, `etnaviv_pci_probe`. -/
def etnaviv_pci_probe (env : etnaviv_probe_env) : etnaviv_probe_result :=
  let ret := env.pcim_enable_device
  if ret ≠ 0 then { ret := ret, calls := [etnaviv_probe_call.pcim_enable_device] }
  else
    let ret := env.dma_set_mask_and_coherent
    if ret ≠ 0 then
      { ret := ret
        calls := [etnaviv_probe_call.pcim_enable_device, etnaviv_probe_call.pci_set_master,
          etnaviv_probe_call.dma_set_mask_and_coherent] }
    else
      let mmio := env.pcim_iomap
      if IS_ERR mmio then
        { ret := PTR_ERR mmio
          calls := [etnaviv_probe_call.pcim_enable_device, etnaviv_probe_call.pci_set_master,
            etnaviv_probe_call.dma_set_mask_and_coherent, etnaviv_probe_call.pcim_iomap] }
      else
        let ret := env.etnaviv_gpu_driver_create mmio
        if ret ≠ 0 then
          { ret := ret
            calls := [etnaviv_probe_call.pcim_enable_device, etnaviv_probe_call.pci_set_master,
              etnaviv_probe_call.dma_set_mask_and_coherent, etnaviv_probe_call.pcim_iomap,
              etnaviv_probe_call.etnaviv_gpu_driver_create mmio] }
        else
          { ret := env.etnaviv_drm_bind
            calls := [etnaviv_probe_call.pcim_enable_device, etnaviv_probe_call.pci_set_master,
              etnaviv_probe_call.dma_set_mask_and_coherent, etnaviv_probe_call.pcim_iomap,
              etnaviv_probe_call.etnaviv_gpu_driver_create mmio,
              etnaviv_probe_call.etnaviv_drm_bind] }

/-- An environment in which mapping BAR 0 fails, `pcim_iomap` returning NULL,
and every other call returns 0. -/
def etnaviv_env_iomap_fails : etnaviv_probe_env where
  pcim_enable_device := 0
  dma_set_mask_and_coherent := 0
  pcim_iomap := 0
  etnaviv_gpu_driver_create := fun _ => 0
  etnaviv_drm_bind := 0

/-! ## Pinning and mapping buffer objects (`lsdc_ttm.c`) -/

/-- The TTM calls the buffer-object functions of the driver make. -/
inductive ttm_call where
  | ttm_bo_reserve
  | ttm_bo_unreserve
  | ttm_bo_validate
  | ttm_bo_pin
  | ttm_bo_unpin
  | ttm_bo_vmap
  | ttm_bo_vunmap
  | iosys_map_clear
  | ttm_bo_move_memcpy
  deriving DecidableEq, Repr

/-- What the TTM calls made by `lsdc_bo_pin` return: the return codes of
`ttm_bo_reserve` and `ttm_bo_validate`, and the resource the object has after
a validation that succeeded. -/
structure bo_pin_env where
  ttm_bo_reserve : Int
  ttm_bo_validate : Int
  validated_resource : Option ttm_resource

/-- Modelled from the spec: `ttm_bo_pin` of `drivers/gpu/drm/ttm/ttm_bo.c`
increments the `unsigned int` `pin_count` of a reserved object. -/
def ttm_bo_pin (tbo : ttm_buffer_object) : ttm_buffer_object :=
  { tbo with pin_count := u32 (tbo.pin_count + 1) }

/-- Modelled from the spec: `ttm_bo_unpin` of `drivers/gpu/drm/ttm/ttm_bo.c`
decrements `pin_count`, and warns and does nothing when it is 0. -/
def ttm_bo_unpin (tbo : ttm_buffer_object) : ttm_buffer_object :=
  if tbo.pin_count = 0 then tbo else { tbo with pin_count := tbo.pin_count - 1 }

/-- What a call of `lsdc_bo_pin` does: its return value, the object afterwards
and the TTM calls it made, oldest first. -/
structure bo_pin_result where
  ret : Int
  tbo : ttm_buffer_object
  calls : List ttm_call
  deriving DecidableEq, Repr

/-- Pin a buffer object, `lsdc_bo_pin`. -/
def lsdc_bo_pin (env : bo_pin_env) (tbo : ttm_buffer_object) : bo_pin_result :=
  let ret := env.ttm_bo_reserve
  if ret ≠ 0 then { ret := ret, tbo := tbo, calls := [ttm_call.ttm_bo_reserve] }
  else if tbo.pin_count = 0 then
    let ret := env.ttm_bo_validate
    if ret < 0 then
      { ret := ret
        tbo := tbo
        calls := [ttm_call.ttm_bo_reserve, ttm_call.ttm_bo_validate,
          ttm_call.ttm_bo_unreserve] }
    else
      { ret := ret
        tbo := ttm_bo_pin { tbo with resource := env.validated_resource }
        calls := [ttm_call.ttm_bo_reserve, ttm_call.ttm_bo_validate, ttm_call.ttm_bo_pin,
          ttm_call.ttm_bo_unreserve] }
  else
    { ret := ret
      tbo := ttm_bo_pin tbo
      calls := [ttm_call.ttm_bo_reserve, ttm_call.ttm_bo_pin, ttm_call.ttm_bo_unreserve] }

/-- Unpin a buffer object, `lsdc_bo_unpin`; `reserve` is what its
`ttm_bo_reserve` returns. -/
def lsdc_bo_unpin (reserve : Int) (tbo : ttm_buffer_object) : ttm_buffer_object :=
  let ret := reserve
  if ret ≠ 0 then tbo
  else ttm_bo_unpin tbo

/-- What the TTM calls made by `lsdc_bo_vmap` return: the return code of
`ttm_bo_validate` with the resource after a validation that succeeded, and the
return code of `ttm_bo_vmap` with the address it mapped the object at. -/
structure bo_vmap_env where
  ttm_bo_validate : Int
  validated_resource : Option ttm_resource
  ttm_bo_vmap : Int
  vaddr : Nat

/-- What a call of one of the mapping functions does: its return value (0 for
the `void` ones), the object afterwards, what was stored through the `map`
argument (`none` when nothing was) and the TTM calls made, oldest first. -/
structure bo_map_result where
  ret : Int
  lbo : lsdc_bo
  map_out : Option (Option Nat)
  calls : List ttm_call
  deriving DecidableEq, Repr

/-- The part of `lsdc_bo_vmap` from the label `finish` on. -/
def lsdc_bo_vmap_finish (lbo : lsdc_bo) (calls : List ttm_call) : bo_map_result :=
  let lbo := { lbo with vmap_use_count := u32 (lbo.vmap_use_count + 1) }
  { ret := 0, lbo := lbo, map_out := some lbo.map, calls := calls }

/-- The part of `lsdc_bo_vmap` after the object was pinned. -/
def lsdc_bo_vmap_pinned (env : bo_vmap_env) (lbo : lsdc_bo) (calls : List ttm_call) :
    bo_map_result :=
  if lbo.vmap_use_count > 0 then lsdc_bo_vmap_finish lbo calls
  else if lbo.map = none then
    let ret := env.ttm_bo_vmap
    if ret ≠ 0 then
      { ret := ret
        lbo := { lbo with bo := ttm_bo_unpin lbo.bo }
        map_out := none
        calls := calls ++ [ttm_call.ttm_bo_vmap, ttm_call.ttm_bo_unpin] }
    else
      lsdc_bo_vmap_finish { lbo with map := some env.vaddr } (calls ++ [ttm_call.ttm_bo_vmap])
  else lsdc_bo_vmap_finish lbo calls

/-- Map a buffer object into the kernel, `lsdc_bo_vmap`. -/
def lsdc_bo_vmap (env : bo_vmap_env) (lbo : lsdc_bo) : bo_map_result :=
  if lbo.bo.pin_count = 0 then
    let ret := env.ttm_bo_validate
    if ret < 0 then { ret := ret, lbo := lbo, map_out := none, calls := [ttm_call.ttm_bo_validate] }
    else
      lsdc_bo_vmap_pinned env
        { lbo with bo := ttm_bo_pin { lbo.bo with resource := env.validated_resource } }
        [ttm_call.ttm_bo_validate, ttm_call.ttm_bo_pin]
  else
    lsdc_bo_vmap_pinned env { lbo with bo := ttm_bo_pin lbo.bo } [ttm_call.ttm_bo_pin]

/-- Drop a kernel mapping, `lsdc_bo_vunmap`; `map` is the mapping the caller
hands back. -/
def lsdc_bo_vunmap (lbo : lsdc_bo) (map : Option Nat) : bo_map_result :=
  if lbo.vmap_use_count = 0 then { ret := 0, lbo := lbo, map_out := none, calls := [] }
  else if ¬ (lbo.map = map) then { ret := 0, lbo := lbo, map_out := none, calls := [] }
  else
    let lbo := { lbo with vmap_use_count := lbo.vmap_use_count - 1 }
    if lbo.vmap_use_count > 0 then { ret := 0, lbo := lbo, map_out := none, calls := [] }
    else
      { ret := 0
        lbo := { lbo with bo := ttm_bo_unpin lbo.bo }
        map_out := none
        calls := [ttm_call.ttm_bo_unpin] }

/-- The `move` callback, `lsdc_bo_move`; `move_memcpy` is what
`ttm_bo_move_memcpy` returns, which puts the object into `new_mem` when it
succeeds. -/
def lsdc_bo_move (move_memcpy : Int) (lbo : lsdc_bo) (new_mem : ttm_resource) :
    bo_map_result :=
  let moved (lbo : lsdc_bo) : lsdc_bo :=
    if move_memcpy = 0 then { lbo with bo := { lbo.bo with resource := some new_mem } }
    else lbo
  if lbo.vmap_use_count ≠ 0 then
    { ret := move_memcpy, lbo := moved lbo, map_out := none,
      calls := [ttm_call.ttm_bo_move_memcpy] }
  else
    { ret := move_memcpy
      lbo := moved { lbo with map := none }
      map_out := none
      calls := [ttm_call.ttm_bo_vunmap, ttm_call.iosys_map_clear,
        ttm_call.ttm_bo_move_memcpy] }

/-- The `delete_mem_notify` callback, `lsdc_bo_delete_mem_notify`. -/
def lsdc_bo_delete_mem_notify (lbo : lsdc_bo) : bo_map_result :=
  if lbo.vmap_use_count ≠ 0 then { ret := 0, lbo := lbo, map_out := none, calls := [] }
  else
    { ret := 0
      lbo := { lbo with map := none }
      map_out := none
      calls := [ttm_call.ttm_bo_vunmap, ttm_call.iosys_map_clear] }

/-- An environment in which reserving and validating succeed. -/
def bo_pin_env_ok : bo_pin_env where
  ttm_bo_reserve := 0
  ttm_bo_validate := 0
  validated_resource := some { mem_type := TTM_PL_VRAM, start := 0x100 }

/-- An environment in which validating and mapping succeed. -/
def bo_vmap_env_ok : bo_vmap_env where
  ttm_bo_validate := 0
  validated_resource := some { mem_type := TTM_PL_VRAM, start := 0x100 }
  ttm_bo_vmap := 0
  vaddr := 0x9000000040100000

/-- A buffer object that is neither pinned nor mapped. -/
def sample_lbo : lsdc_bo where
  bo := { pin_count := 0, resource := some { mem_type := TTM_PL_SYSTEM, start := 0 } }
  size := 0x4000
  map := none
  vmap_use_count := 0

/-- A buffer object mapped once, pinned by that mapping. -/
def sample_lbo_mapped : lsdc_bo where
  bo := { pin_count := 1, resource := some { mem_type := TTM_PL_VRAM, start := 0x100 } }
  size := 0x4000
  map := some 0x9000000040100000
  vmap_use_count := 1

/-! ## Preparing a framebuffer for scanout (`lsdc_plane.c`) -/

/-- Modelled from the spec: the errno `ERESTARTSYS` of `include/linux/errno.h`,
which an interruptible `ttm_bo_reserve` returns when a signal is pending. -/
def ERESTARTSYS : Nat := 512

/-- The members of `struct drm_framebuffer` that `lsdc_plane_prepare_fb` reads,
with the GEM objects given by address so that two colour planes can share one:
`num_planes` is `fb->format->num_planes` and `obj i` is `fb->obj[i]`, `none`
for NULL. -/
structure drm_framebuffer_objs where
  num_planes : Nat
  obj : Nat → Option Nat

/-- What the calls made while preparing a framebuffer return: `pin i` for the
TTM calls of the `lsdc_bo_pin` of plane `i`, `unpin_reserve np` for the
`ttm_bo_reserve` of the `lsdc_bo_unpin` of plane `np`, and the return code of
`drm_gem_plane_helper_prepare_fb`. -/
structure prepare_fb_env where
  pin : Nat → bo_pin_env
  unpin_reserve : Nat → Int
  drm_gem_plane_helper_prepare_fb : Int

/-- Unpin the objects of the planes below `np`, `lsdc_ttm_cleanup_fb`; `heap`
gives the buffer object at each address. -/
def lsdc_ttm_cleanup_fb (env : prepare_fb_env) (fb : drm_framebuffer_objs) :
    Nat → (Nat → ttm_buffer_object) → (Nat → ttm_buffer_object)
  | 0, heap => heap
  | np + 1, heap =>
    match fb.obj np with
    | none => lsdc_ttm_cleanup_fb env fb np heap
    | some a =>
      lsdc_ttm_cleanup_fb env fb np
        (Function.update heap a (lsdc_bo_unpin (env.unpin_reserve np) (heap a)))

/-- How the pinning loop of `lsdc_plane_prepare_fb` ends: `ret` is the error
it jumps to `err_ret` with, `none` when it ran to its end; `i` is the loop
counter then. -/
structure prepare_fb_loop_result where
  ret : Option Int
  i : Nat
  heap : Nat → ttm_buffer_object

/-- The loop `for (i = 0; i < fb->format->num_planes; ++i)` of
`lsdc_plane_prepare_fb`, from counter `i` with `n` planes to go.
`lsdc_bo_set_placement` changes the placement list only, which the model
keeps in what `ttm_bo_validate` answers. -/
def lsdc_plane_prepare_fb_loop (env : prepare_fb_env) (fb : drm_framebuffer_objs) :
    Nat → Nat → (Nat → ttm_buffer_object) → prepare_fb_loop_result
  | 0, i, heap => { ret := none, i := i, heap := heap }
  | n + 1, i, heap =>
    match fb.obj i with
    | none => { ret := some (-(EINVAL : Int)), i := i, heap := heap }
    | some a =>
      let r := lsdc_bo_pin (env.pin i) (heap a)
      let heap := Function.update heap a r.tbo
      if r.ret ≠ 0 then { ret := some r.ret, i := i, heap := heap }
      else lsdc_plane_prepare_fb_loop env fb n (i + 1) heap

/-- What a call of `lsdc_plane_prepare_fb` does: its return value and the
buffer objects afterwards. -/
structure prepare_fb_result where
  ret : Int
  heap : Nat → ttm_buffer_object

/-- The `prepare_fb` hook of the planes, `lsdc_plane_prepare_fb`; `fb` is
`new_state->fb`, `none` for NULL. -/
def lsdc_plane_prepare_fb (env : prepare_fb_env) (fb : Option drm_framebuffer_objs)
    (heap : Nat → ttm_buffer_object) : prepare_fb_result :=
  match fb with
  | none => { ret := 0, heap := heap }
  | some fb =>
    let l := lsdc_plane_prepare_fb_loop env fb fb.num_planes 0 heap
    match l.ret with
    | some ret => { ret := ret, heap := lsdc_ttm_cleanup_fb env fb l.i l.heap }
    | none =>
      let ret := env.drm_gem_plane_helper_prepare_fb
      if ret ≠ 0 then { ret := ret, heap := lsdc_ttm_cleanup_fb env fb l.i l.heap }
      else { ret := 0, heap := l.heap }

/-- The number of planes below `k` whose object is the one at address `a`. -/
def plane_refs (fb : drm_framebuffer_objs) : Nat → Nat → Nat
  | 0, _ => 0
  | k + 1, a => plane_refs fb k a + (if fb.obj k = some a then 1 else 0)

/-- A framebuffer of two colour planes with the objects at addresses 1 and 2. -/
def two_plane_fb : drm_framebuffer_objs where
  num_planes := 2
  obj := fun i => if i = 0 then some 1 else if i = 1 then some 2 else none

/-- Buffer objects that are not pinned, in system memory. -/
def unpinned_heap : Nat → ttm_buffer_object :=
  fun _ => { pin_count := 0, resource := some { mem_type := TTM_PL_SYSTEM, start := 0 } }

/-- A signal arrives after plane 0 was pinned: every later interruptible
`ttm_bo_reserve` returns `-ERESTARTSYS`. -/
def prepare_fb_env_signal : prepare_fb_env where
  pin := fun i =>
    if i = 0 then bo_pin_env_ok
    else { bo_pin_env_ok with ttm_bo_reserve := -(ERESTARTSYS : Int) }
  unpin_reserve := fun _ => -(ERESTARTSYS : Int)
  drm_gem_plane_helper_prepare_fb := 0

/-- The pin of plane 1 is interrupted as in `prepare_fb_env_signal`, but the
clean-up can reserve the objects. -/
def prepare_fb_env_pin_interrupted : prepare_fb_env :=
  { prepare_fb_env_signal with unpin_reserve := fun _ => 0 }

/-- Pinning plane 1 fails with `-ENOMEM` in `ttm_bo_validate`; the clean-up
can reserve the objects. -/
def prepare_fb_env_nomem : prepare_fb_env where
  pin := fun i =>
    if i = 0 then bo_pin_env_ok
    else { bo_pin_env_ok with ttm_bo_validate := -(ENOMEM : Int) }
  unpin_reserve := fun _ => 0
  drm_gem_plane_helper_prepare_fb := 0

/-! ## CRTC callback tables (`lsdc_crtc.c`) -/

/-- The vertical-blank macros of `lsdc_regs.h`, which is not among the sources:
the interrupt register with the vsync enable bits of the two pipes, and the
vsync counter register of pipe 0. -/
structure lsdc_vblank_regs_h where
  LSDC_INT_REG : Nat
  INT_CRTC0_VSYNC_EN : Nat
  INT_CRTC1_VSYNC_EN : Nat
  LSDC_CRTC0_VSYNC_COUNTER_REG : Nat
  deriving DecidableEq, Repr

/-- A sample of the vertical-blank macros. -/
def lsdc_vblank_regs_sample : lsdc_vblank_regs_h where
  LSDC_INT_REG := 0x1570
  INT_CRTC0_VSYNC_EN := 0x40000
  INT_CRTC1_VSYNC_EN := 0x10000
  LSDC_CRTC0_VSYNC_COUNTER_REG := 0x1A00

/-- The hardware vsync counter of a pipe, `lsdc_crtc_get_vblank_counter`;
`index` is `drm_crtc_index(crtc)`. -/
def lsdc_crtc_get_vblank_counter (R : lsdc_regs_h) (V : lsdc_vblank_regs_h)
    (ldev : lsdc_device) (index : Nat) : Nat :=
  lsdc_crtc_rreg32 R ldev V.LSDC_CRTC0_VSYNC_COUNTER_REG index

/-- Enable the vsync interrupt of pipe 0, `lsdc_enable_vblank_pipe_0`. -/
def lsdc_enable_vblank_pipe_0 (V : lsdc_vblank_regs_h) (ldev : lsdc_device) :
    Int × lsdc_device :=
  (0, lsdc_ureg32_set ldev V.LSDC_INT_REG V.INT_CRTC0_VSYNC_EN)

/-- Disable the vsync interrupt of pipe 0, `lsdc_disable_vblank_pipe_0`. -/
def lsdc_disable_vblank_pipe_0 (V : lsdc_vblank_regs_h) (ldev : lsdc_device) : lsdc_device :=
  lsdc_ureg32_clr ldev V.LSDC_INT_REG V.INT_CRTC0_VSYNC_EN

/-- Enable the vsync interrupt of pipe 1, `lsdc_enable_vblank_pipe_1`. -/
def lsdc_enable_vblank_pipe_1 (V : lsdc_vblank_regs_h) (ldev : lsdc_device) :
    Int × lsdc_device :=
  (0, lsdc_ureg32_set ldev V.LSDC_INT_REG V.INT_CRTC1_VSYNC_EN)

/-- Disable the vsync interrupt of pipe 1, `lsdc_disable_vblank_pipe_1`. -/
def lsdc_disable_vblank_pipe_1 (V : lsdc_vblank_regs_h) (ldev : lsdc_device) : lsdc_device :=
  lsdc_ureg32_clr ldev V.LSDC_INT_REG V.INT_CRTC1_VSYNC_EN

/-- The functions the CRTC callback tables point to, by name. -/
inductive crtc_callback where
  | lsdc_crtc_reset
  | drm_crtc_cleanup
  | drm_atomic_helper_set_config
  | drm_atomic_helper_page_flip
  | lsdc_crtc_atomic_duplicate_state
  | lsdc_crtc_atomic_destroy_state
  | drm_crtc_vblank_helper_get_vblank_timestamp
  | lsdc_enable_vblank_pipe_0
  | lsdc_disable_vblank_pipe_0
  | lsdc_enable_vblank_pipe_1
  | lsdc_disable_vblank_pipe_1
  | lsdc_crtc_get_vblank_counter
  deriving DecidableEq, Repr

/-- Modelled from the spec: `struct drm_crtc_funcs` is declared in
`include/drm/drm_crtc.h`; these are the members the driver's tables set, each
the function it points to and `none` for a member left NULL. -/
structure drm_crtc_funcs where
  reset : Option crtc_callback
  destroy : Option crtc_callback
  set_config : Option crtc_callback
  page_flip : Option crtc_callback
  atomic_duplicate_state : Option crtc_callback
  atomic_destroy_state : Option crtc_callback
  get_vblank_timestamp : Option crtc_callback
  enable_vblank : Option crtc_callback
  disable_vblank : Option crtc_callback
  get_vblank_counter : Option crtc_callback
  deriving DecidableEq, Repr

/-- The members every table sets, the macro `lsdc_crtc_funcs_common`. -/
def lsdc_crtc_funcs_common : drm_crtc_funcs where
  reset := some crtc_callback.lsdc_crtc_reset
  destroy := some crtc_callback.drm_crtc_cleanup
  set_config := some crtc_callback.drm_atomic_helper_set_config
  page_flip := some crtc_callback.drm_atomic_helper_page_flip
  atomic_duplicate_state := some crtc_callback.lsdc_crtc_atomic_duplicate_state
  atomic_destroy_state := some crtc_callback.lsdc_crtc_atomic_destroy_state
  get_vblank_timestamp := some crtc_callback.drm_crtc_vblank_helper_get_vblank_timestamp
  enable_vblank := none
  disable_vblank := none
  get_vblank_counter := none

/-- The callback tables, `lsdc_crtc_funcs_array[2][LSDC_NUM_CRTC]`: the first
index says whether the chip has a vsync counter, the second is the pipe. -/
def lsdc_crtc_funcs_array : List (List drm_crtc_funcs) :=
  [ [ { lsdc_crtc_funcs_common with
        enable_vblank := some crtc_callback.lsdc_enable_vblank_pipe_0
        disable_vblank := some crtc_callback.lsdc_disable_vblank_pipe_0 },
      { lsdc_crtc_funcs_common with
        enable_vblank := some crtc_callback.lsdc_enable_vblank_pipe_1
        disable_vblank := some crtc_callback.lsdc_disable_vblank_pipe_1 } ],
    [ { lsdc_crtc_funcs_common with
        enable_vblank := some crtc_callback.lsdc_enable_vblank_pipe_0
        disable_vblank := some crtc_callback.lsdc_disable_vblank_pipe_0
        get_vblank_counter := some crtc_callback.lsdc_crtc_get_vblank_counter },
      { lsdc_crtc_funcs_common with
        enable_vblank := some crtc_callback.lsdc_enable_vblank_pipe_1
        disable_vblank := some crtc_callback.lsdc_disable_vblank_pipe_1
        get_vblank_counter := some crtc_callback.lsdc_crtc_get_vblank_counter } ] ]

/-- What calling an `enable_vblank` member does to the device, with the value
returned; `none` when the function is not one of the vblank enables. -/
def crtc_enable_vblank_call (V : lsdc_vblank_regs_h) (ldev : lsdc_device) :
    crtc_callback → Option (Int × lsdc_device)
  | crtc_callback.lsdc_enable_vblank_pipe_0 => some (lsdc_enable_vblank_pipe_0 V ldev)
  | crtc_callback.lsdc_enable_vblank_pipe_1 => some (lsdc_enable_vblank_pipe_1 V ldev)
  | _ => none

/-- What calling a `disable_vblank` member does to the device; `none` when the
function is not one of the vblank disables. -/
def crtc_disable_vblank_call (V : lsdc_vblank_regs_h) (ldev : lsdc_device) :
    crtc_callback → Option lsdc_device
  | crtc_callback.lsdc_disable_vblank_pipe_0 => some (lsdc_disable_vblank_pipe_0 V ldev)
  | crtc_callback.lsdc_disable_vblank_pipe_1 => some (lsdc_disable_vblank_pipe_1 V ldev)
  | _ => none

/-- What a call of `lsdc_crtc_init` does: its return value and the table it
hands to `drm_crtc_init_with_planes`. -/
structure crtc_init_result where
  ret : Int
  funcs : drm_crtc_funcs
  deriving DecidableEq, Repr

/-- The CRTC set-up of pipe `index`, `lsdc_crtc_init`; the argument
`drm_crtc_init_with_planes` is what that call returns.  The result is `none`
when `lsdc_crtc_funcs_array[h][index]` lies outside the array. -/
def lsdc_crtc_init (descp : lsdc_desc) (index : Nat) (drm_crtc_init_with_planes : Int) :
    Option crtc_init_result :=
  let h := if descp.has_vblank_counter then 1 else 0
  match lsdc_crtc_funcs_array[h]? with
  | none => none
  | some row =>
    match row[index]? with
    | none => none
    | some funcs =>
      let ret := drm_crtc_init_with_planes
      if ret ≠ 0 then some { ret := ret, funcs := funcs }
      else some { ret := 0, funcs := funcs }

/-- The pipes the second loop of `lsdc_modeset_init` takes from
`ldev->dispipe[i]`, an array of `LSDC_NUM_CRTC` members. -/
def lsdc_modeset_init_dispipe (descp : lsdc_desc) : List Nat :=
  List.range descp.num_of_crtc

/-! ## The fbdev framebuffer of mwv207 (`mwv207_fb.c`) -/

/-- Modelled from the spec: `struct drm_fb_helper_surface_size` is declared in
`include/drm/drm_fb_helper.h`; these are the `u32` members `mwv207_fb_create`
reads. -/
structure drm_fb_helper_surface_size where
  surface_width : Nat
  surface_height : Nat
  surface_bpp : Nat
  surface_depth : Nat
  deriving DecidableEq, Repr

/-- What the functions called by `mwv207_fb_create` return.  None of them is
among the sources.  `drm_fb_helper_alloc_fbi` is the bits of the pointer it
returns, an error pointer on failure; `kzalloc` is false for NULL; the others
are C `int`s, 0 for success. -/
structure mwv207_fb_env where
  drm_fb_helper_alloc_fbi : Nat
  mwv207_bo_create : Int
  kzalloc : Bool
  mwv207_framebuffer_init : Int
  mwv207_bo_reserve : Int
  mwv207_bo_pin_reserved : Int
  mwv207_bo_kmap_reserved : Int

/-- The calls `mwv207_fb_create` makes; `mwv207_bo_create` and `memset` with
the size in bytes they are passed. -/
inductive mwv207_call where
  | drm_fb_helper_alloc_fbi
  | mwv207_bo_create (bytes : Nat)
  | kzalloc
  | mwv207_framebuffer_init
  | mwv207_bo_reserve
  | mwv207_bo_pin_reserved
  | mwv207_bo_kmap_reserved
  | memset (bytes : Nat)
  | drm_fb_helper_fill_info
  | mwv207_bo_unreserve
  | mwv207_bo_unpin
  | kfree
  | mwv207_bo_unref
  deriving DecidableEq, Repr

/-- Modelled from the spec: `ALIGN(x, a)` of `include/linux/align.h` on a
`u32` `x`, `((x) + ((u32)(a) - 1)) & ~((u32)(a) - 1)`. -/
def ALIGN_u32 (x a : Nat) : Nat :=
  let mask := u32 (u32 a + (2 ^ 32 - 1))
  u32 (x + mask) &&& u32_not mask

/-- The local `bytes` of `mwv207_fb_create`: the size of the surface, all in
`u32` arithmetic, rounded up to pages. -/
def mwv207_fb_bytes (PAGE_SHIFT : Nat) (sizes : drm_fb_helper_surface_size) : Nat :=
  let width := sizes.surface_width
  let height := sizes.surface_height
  let pitch := u32 (width * (u32 (sizes.surface_bpp + 7) / 8))
  let bytes := u32 (pitch * height)
  ALIGN_u32 bytes (PAGE_SIZE PAGE_SHIFT)

/-- What a call of `mwv207_fb_create` does: its return value, the surface
sizes afterwards and the calls it made, oldest first. -/
structure mwv207_fb_result where
  ret : Int
  sizes : drm_fb_helper_surface_size
  calls : List mwv207_call
  deriving DecidableEq, Repr

/-- The calls from the label `free_bo` of `mwv207_fb_create` on. -/
def mwv207_fb_create_free_bo : List mwv207_call := [mwv207_call.mwv207_bo_unref]

/-- The calls from the label `free_fb` of `mwv207_fb_create` on. -/
def mwv207_fb_create_free_fb : List mwv207_call :=
  mwv207_call.kfree :: mwv207_fb_create_free_bo

/-- The calls from the label `unreserve_bo` of `mwv207_fb_create` on. -/
def mwv207_fb_create_unreserve_bo : List mwv207_call :=
  mwv207_call.mwv207_bo_unreserve :: mwv207_fb_create_free_fb

/-- The calls from the label `unpin_bo` of `mwv207_fb_create` on. -/
def mwv207_fb_create_unpin_bo : List mwv207_call :=
  mwv207_call.mwv207_bo_unpin :: mwv207_fb_create_unreserve_bo

/-- The `fb_probe` hook of the fbdev emulation, `mwv207_fb_create`. -/
def mwv207_fb_create (PAGE_SHIFT : Nat) (env : mwv207_fb_env)
    (sizes : drm_fb_helper_surface_size) : mwv207_fb_result :=
  let sizes := if sizes.surface_bpp = 24 then { sizes with surface_bpp := 32 } else sizes
  let info := env.drm_fb_helper_alloc_fbi
  if IS_ERR info then
    { ret := PTR_ERR info, sizes := sizes, calls := [mwv207_call.drm_fb_helper_alloc_fbi] }
  else
    let bytes := mwv207_fb_bytes PAGE_SHIFT sizes
    let calls := [mwv207_call.drm_fb_helper_alloc_fbi, mwv207_call.mwv207_bo_create bytes]
    let ret := env.mwv207_bo_create
    if ret ≠ 0 then { ret := ret, sizes := sizes, calls := calls }
    else
      let calls := calls ++ [mwv207_call.kzalloc]
      if ¬ env.kzalloc then
        { ret := -(ENOMEM : Int), sizes := sizes, calls := calls ++ mwv207_fb_create_free_bo }
      else
        let calls := calls ++ [mwv207_call.mwv207_framebuffer_init]
        let ret := env.mwv207_framebuffer_init
        if ret ≠ 0 then
          { ret := ret, sizes := sizes, calls := calls ++ mwv207_fb_create_free_fb }
        else
          let calls := calls ++ [mwv207_call.mwv207_bo_reserve]
          let ret := env.mwv207_bo_reserve
          if ret ≠ 0 then
            { ret := ret, sizes := sizes, calls := calls ++ mwv207_fb_create_free_fb }
          else
            let calls := calls ++ [mwv207_call.mwv207_bo_pin_reserved]
            let ret := env.mwv207_bo_pin_reserved
            if ret ≠ 0 then
              { ret := ret, sizes := sizes, calls := calls ++ mwv207_fb_create_unreserve_bo }
            else
              let calls := calls ++ [mwv207_call.mwv207_bo_kmap_reserved]
              let ret := env.mwv207_bo_kmap_reserved
              if ret ≠ 0 then
                { ret := ret, sizes := sizes, calls := calls ++ mwv207_fb_create_unpin_bo }
              else
                { ret := 0
                  sizes := sizes
                  calls := calls ++ [mwv207_call.memset bytes,
                    mwv207_call.drm_fb_helper_fill_info, mwv207_call.mwv207_bo_unreserve] }

/-- Whether every step of `mwv207_fb_create` succeeds in `env`. -/
def mwv207_fb_env.all_succeed (env : mwv207_fb_env) : Prop :=
  IS_ERR env.drm_fb_helper_alloc_fbi = false ∧ env.mwv207_bo_create = 0 ∧
  env.kzalloc = true ∧ env.mwv207_framebuffer_init = 0 ∧ env.mwv207_bo_reserve = 0 ∧
  env.mwv207_bo_pin_reserved = 0 ∧ env.mwv207_bo_kmap_reserved = 0

/-- The return code of the first failing step after the buffer object was
created, in the order `mwv207_fb_create` takes the steps. -/
def mwv207_fb_env.failing_errno (env : mwv207_fb_env) : Int :=
  if env.kzalloc = false then -(ENOMEM : Int)
  else if env.mwv207_framebuffer_init ≠ 0 then env.mwv207_framebuffer_init
  else if env.mwv207_bo_reserve ≠ 0 then env.mwv207_bo_reserve
  else if env.mwv207_bo_pin_reserved ≠ 0 then env.mwv207_bo_pin_reserved
  else env.mwv207_bo_kmap_reserved

/-- Whether `mwv207_fb_create` gets the buffer object reserved in `env`. -/
def mwv207_fb_env.reserved (env : mwv207_fb_env) : Prop :=
  env.kzalloc = true ∧ env.mwv207_framebuffer_init = 0 ∧ env.mwv207_bo_reserve = 0

/-- Whether `mwv207_fb_create` gets the buffer object pinned in `env`. -/
def mwv207_fb_env.pinned (env : mwv207_fb_env) : Prop :=
  env.reserved ∧ env.mwv207_bo_pin_reserved = 0

/-- An environment in which every step succeeds. -/
def mwv207_fb_env_ok : mwv207_fb_env where
  drm_fb_helper_alloc_fbi := 0xffff800012340000
  mwv207_bo_create := 0
  kzalloc := true
  mwv207_framebuffer_init := 0
  mwv207_bo_reserve := 0
  mwv207_bo_pin_reserved := 0
  mwv207_bo_kmap_reserved := 0

/-- An environment in which mapping the pinned buffer object fails with
`-ENOMEM`. -/
def mwv207_fb_env_kmap_fails : mwv207_fb_env :=
  { mwv207_fb_env_ok with mwv207_bo_kmap_reserved := -(ENOMEM : Int) }

/-- A 1920x1080 surface of 32 bits a pixel. -/
def sample_surface : drm_fb_helper_surface_size where
  surface_width := 1920
  surface_height := 1080
  surface_bpp := 32
  surface_depth := 24

/-! ## Theorems -/

/-- C1: for every mode and every descriptor with a non-zero `pitch_align` (all
four chip descriptors), `lsdc_crtc_mode_valid` returns `MODE_OK` exactly when
hdisplay <= max_width, vdisplay <= max_height, clock <= max_pixel_clk and
hdisplay * 4 is a multiple of pitch_align; otherwise it returns the status of
the first check that fails, in the order `MODE_BAD_HVALUE`, `MODE_BAD_VVALUE`,
`MODE_CLOCK_HIGH`, `MODE_BAD`. -/
theorem lsdc_crtc_mode_valid_first_failing_check (descp : lsdc_desc) (mode : drm_display_mode)
    (halign : descp.pitch_align ≠ 0) :
    (lsdc_crtc_mode_valid descp mode = MODE_OK ↔
        (mode.hdisplay ≤ descp.max_width ∧ mode.vdisplay ≤ descp.max_height ∧
          mode.clock ≤ descp.max_pixel_clk ∧ descp.pitch_align ∣ mode.hdisplay * 4)) ∧
    (¬ mode.hdisplay ≤ descp.max_width →
        lsdc_crtc_mode_valid descp mode = MODE_BAD_HVALUE) ∧
    (mode.hdisplay ≤ descp.max_width → ¬ mode.vdisplay ≤ descp.max_height →
        lsdc_crtc_mode_valid descp mode = MODE_BAD_VVALUE) ∧
    (mode.hdisplay ≤ descp.max_width → mode.vdisplay ≤ descp.max_height →
        ¬ mode.clock ≤ descp.max_pixel_clk →
        lsdc_crtc_mode_valid descp mode = MODE_CLOCK_HIGH) ∧
    (mode.hdisplay ≤ descp.max_width → mode.vdisplay ≤ descp.max_height →
        mode.clock ≤ descp.max_pixel_clk → ¬ descp.pitch_align ∣ mode.hdisplay * 4 →
        lsdc_crtc_mode_valid descp mode = MODE_BAD) := by
  have _ := halign
  unfold lsdc_crtc_mode_valid
  simp only [Nat.dvd_iff_mod_eq_zero, gt_iff_lt, ne_eq]
  refine ⟨?_, ?_, ?_, ?_, ?_⟩
  · split_ifs <;> simp_all
  · intro h; simp [Nat.lt_of_not_le h]
  · intro h1 h2; simp [Nat.not_lt.mpr h1, Nat.lt_of_not_le h2]
  · intro h1 h2 h3; simp [Nat.not_lt.mpr h1, Nat.not_lt.mpr h2, Nat.lt_of_not_le h3]
  · intro h1 h2 h3 h4
    simp [Nat.not_lt.mpr h1, Nat.not_lt.mpr h2, Nat.not_lt.mpr h3, h4]

/-- Every chip descriptor of the driver has a non-zero `pitch_align` that is a
power of two: 2^8 on LS7A1000, LS2K1000 and LS2K2000, 2^6 on LS7A2000. -/
theorem lsdc_descs_pitch_align :
    ∀ descp ∈ lsdc_descs,
      descp.pitch_align ≠ 0 ∧ (descp.pitch_align = 2 ^ 8 ∨ descp.pitch_align = 2 ^ 6) := by
  decide

/-- The low 16 bits of a word are its remainder modulo 65536. -/
theorem and_0xffff (v : Nat) : v &&& 0xffff = v % 65536 :=
  Nat.and_pow_two_sub_one_eq_mod v 16

/-- C2: when the sampled scan line (the low 16 bits of the scan-position
register of pipe `i`) lies in the active region, vactive_start <= line <=
vactive_end with vactive_start = (crtc_vsync_end - crtc_vsync_start) +
(crtc_vtotal - crtc_vsync_end) + 1 and vactive_end = vactive_start +
crtc_vdisplay, `lsdc_crtc_get_scanout_position` returns true, stores
vpos = line - vactive_start with 0 <= vpos <= crtc_vdisplay, and stores in hpos
the upper 16 bits of the register. -/
theorem lsdc_crtc_get_scanout_position_active (R : lsdc_regs_h) (ldev : lsdc_device) (i : Nat)
    (mode : drm_display_mode) (val : Nat) (line vactive_start vactive_end : Int)
    (hval : val = lsdc_crtc_rreg32 R ldev R.LSDC_CRTC0_SCAN_POS_REG i)
    (hline : line = ((val % 65536 : Nat) : Int))
    (hstart : vactive_start = ((mode.crtc_vsync_end : Int) - mode.crtc_vsync_start) +
        ((mode.crtc_vtotal : Int) - mode.crtc_vsync_end) + 1)
    (hend : vactive_end = vactive_start + mode.crtc_vdisplay)
    (hlo : vactive_start ≤ line) (hhi : line ≤ vactive_end) :
    (lsdc_crtc_get_scanout_position R ldev i mode).ret = true ∧
    (lsdc_crtc_get_scanout_position R ldev i mode).vpos = line - vactive_start ∧
    0 ≤ (lsdc_crtc_get_scanout_position R ldev i mode).vpos ∧
    (lsdc_crtc_get_scanout_position R ldev i mode).vpos ≤ mode.crtc_vdisplay ∧
    (lsdc_crtc_get_scanout_position R ldev i mode).hpos = ((val / 65536 : Nat) : Int) ∧
    (lsdc_crtc_get_scanout_position R ldev i mode).hpos < 65536 := by
  have hv32 : val < 2 ^ 32 := by
    rw [hval]; exact Nat.mod_lt _ (by norm_num)
  simp only [lsdc_crtc_get_scanout_position, ← hval, and_0xffff, Nat.shiftRight_eq_div_pow]
  rw [← hline]
  subst hstart hend
  refine ⟨trivial, ?_, ?_, ?_, by norm_num, ?_⟩
  · split_ifs <;> omega
  · split_ifs <;> omega
  · split_ifs <;> omega
  · norm_num; omega

/-- C3: for a mode with crtc_vsync_start <= crtc_vsync_end <= crtc_vtotal and a
sampled scan line <= crtc_vtotal outside the active region, the vpos stored by
`lsdc_crtc_get_scanout_position` is negative, and its magnitude is
vactive_start - line before the active region and (crtc_vtotal - line) +
vactive_start after it. -/
theorem lsdc_crtc_get_scanout_position_blank (R : lsdc_regs_h) (ldev : lsdc_device) (i : Nat)
    (mode : drm_display_mode) (val : Nat) (line vactive_start vactive_end : Int)
    (hval : val = lsdc_crtc_rreg32 R ldev R.LSDC_CRTC0_SCAN_POS_REG i)
    (hline : line = ((val % 65536 : Nat) : Int))
    (hstart : vactive_start = ((mode.crtc_vsync_end : Int) - mode.crtc_vsync_start) +
        ((mode.crtc_vtotal : Int) - mode.crtc_vsync_end) + 1)
    (hend : vactive_end = vactive_start + mode.crtc_vdisplay)
    (hsync : mode.crtc_vsync_start ≤ mode.crtc_vsync_end)
    (htotal : mode.crtc_vsync_end ≤ mode.crtc_vtotal)
    (hwrap : line ≤ mode.crtc_vtotal)
    (hout : line < vactive_start ∨ vactive_end < line) :
    (lsdc_crtc_get_scanout_position R ldev i mode).vpos < 0 ∧
    (line < vactive_start →
      -(lsdc_crtc_get_scanout_position R ldev i mode).vpos = vactive_start - line) ∧
    (vactive_end < line →
      -(lsdc_crtc_get_scanout_position R ldev i mode).vpos =
        ((mode.crtc_vtotal : Int) - line) + vactive_start) := by
  simp only [lsdc_crtc_get_scanout_position, ← hval, and_0xffff]
  rw [← hline]
  subst hstart hend
  refine ⟨?_, ?_, ?_⟩
  · split_ifs <;> omega
  · intro h; split_ifs; omega
  · intro h; split_ifs <;> omega

/-- C5: `lsdc_get_fb_offset` returns offsets[plane] + cpp[plane] * (src_x >> 16)
+ pitches[plane] * (src_y >> 16) modulo 2^32, and returns offsets[plane] (an
`unsigned int`) when the integer parts of src_x and src_y are 0. -/
theorem lsdc_get_fb_offset_formula (fb : drm_framebuffer) (state : drm_plane_state)
    (plane : Fin DRM_FORMAT_MAX_PLANES) :
    lsdc_get_fb_offset fb state plane =
        (fb.offsets plane + fb.format.cpp plane * (state.src_x >>> 16) +
          fb.pitches plane * (state.src_y >>> 16)) % 2 ^ 32 ∧
    (fb.offsets plane < 2 ^ 32 → state.src_x < 2 ^ 16 → state.src_y < 2 ^ 16 →
      lsdc_get_fb_offset fb state plane = fb.offsets plane) := by
  have hmain : lsdc_get_fb_offset fb state plane =
      (fb.offsets plane + fb.format.cpp plane * (state.src_x >>> 16) +
        fb.pitches plane * (state.src_y >>> 16)) % 2 ^ 32 := by
    simp only [lsdc_get_fb_offset, u32]
    omega
  refine ⟨hmain, ?_⟩
  intro ho hx hy
  rw [hmain, Nat.shiftRight_eq_div_pow, Nat.shiftRight_eq_div_pow,
    Nat.div_eq_of_lt hx, Nat.div_eq_of_lt hy]
  simpa using Nat.mod_eq_of_lt ho

/-- The low 32 bits of a word are its remainder modulo 2^32. -/
theorem and_0xFFFFFFFF (v : Nat) : v &&& 0xFFFFFFFF = v % 2 ^ 32 :=
  Nat.and_pow_two_sub_one_eq_mod v 32

/-- The low 8 bits of a word are its remainder modulo 256. -/
theorem and_0xFF (v : Nat) : v &&& 0xFF = v % 256 :=
  Nat.and_pow_two_sub_one_eq_mod v 8

/-- With pages of at least 4 KiB the offset of a pinned buffer object is never
an error value. -/
theorem lsdc_bo_gpu_offset_pinned_not_err (PAGE_SHIFT : Nat) (tbo : ttm_buffer_object)
    (hpin : tbo.pin_count ≠ 0) (hps : 12 ≤ PAGE_SHIFT) :
    IS_ERR (lsdc_bo_gpu_offset PAGE_SHIFT tbo) = false := by
  unfold lsdc_bo_gpu_offset IS_ERR
  rw [if_neg hpin]
  cases tbo.resource with
  | none => simp [MAX_ERRNO]
  | some r =>
    by_cases hm : r.mem_type = TTM_PL_SYSTEM
    · simp [hm, MAX_ERRNO]
    · simp only [hm, if_false, u64, Nat.shiftLeft_eq]
      have h1 : 4096 ∣ r.start * 2 ^ PAGE_SHIFT := by
        obtain ⟨k, rfl⟩ := Nat.exists_eq_add_of_le hps
        rw [pow_add]
        exact Dvd.dvd.mul_left (Dvd.dvd.mul_right (by norm_num) _) _
      have h2 : 4096 ∣ (r.start * 2 ^ PAGE_SHIFT) % 2 ^ 64 :=
        (Nat.dvd_mod_iff (by norm_num : 4096 ∣ 2 ^ 64)).2 h1
      have h3 := Nat.mod_lt (r.start * 2 ^ PAGE_SHIFT) (by norm_num : 0 < 2 ^ 64)
      simp only [MAX_ERRNO, decide_eq_false_iff_not, not_le]
      omega

/-- The per-pipe register address of the accessors is `pipe_reg_addr` as long
as the 32-bit product `pipe * CRTC_PIPE_OFFSET` does not wrap. -/
theorem crtc_reg_addr_eq (R : lsdc_regs_h) (ldev : lsdc_device) (offset pipe : Nat)
    (hpipe : pipe * R.CRTC_PIPE_OFFSET < 2 ^ 32) :
    ldev.reg_base + offset + u32 (pipe * R.CRTC_PIPE_OFFSET) =
      pipe_reg_addr R ldev offset pipe := by
  unfold pipe_reg_addr u32
  rw [Nat.mod_eq_of_lt hpipe]
  omega

/-- The writes of `lsdc_primary_update_impl` for a pinned framebuffer: the two
address words, the stride and the configuration word, in this order. -/
theorem lsdc_primary_update_impl_wlog (R : lsdc_regs_h) (PAGE_SHIFT : Nat) (ldev : lsdc_device)
    (fb : drm_framebuffer) (tbo : ttm_buffer_object) (fb_offset pipe : Nat)
    (hobj : fb.obj ⟨0, by decide⟩ = some tbo) (hpin : tbo.pin_count ≠ 0)
    (hps : 12 ≤ PAGE_SHIFT) :
    ∃ ldev', lsdc_primary_update_impl R PAGE_SHIFT ldev fb fb_offset pipe = some ldev' ∧
      ldev'.wlog = ldev.wlog ++
        [(ldev.reg_base +
            (if lsdc_crtc_rreg32 R ldev R.LSDC_CRTC0_CFG_REG pipe &&& R.CFG_FB_IN_USING ≠ 0
              then R.LSDC_CRTC0_FB1_LO_ADDR_REG else R.LSDC_CRTC0_FB0_LO_ADDR_REG) +
            u32 (pipe * R.CRTC_PIPE_OFFSET),
          (ldev.vram_base + lsdc_bo_gpu_offset PAGE_SHIFT tbo + fb_offset) % 2 ^ 64 % 2 ^ 32),
         (ldev.reg_base +
            (if lsdc_crtc_rreg32 R ldev R.LSDC_CRTC0_CFG_REG pipe &&& R.CFG_FB_IN_USING ≠ 0
              then R.LSDC_CRTC0_FB1_HI_ADDR_REG else R.LSDC_CRTC0_FB0_HI_ADDR_REG) +
            u32 (pipe * R.CRTC_PIPE_OFFSET),
          (ldev.vram_base + lsdc_bo_gpu_offset PAGE_SHIFT tbo + fb_offset) % 2 ^ 64
            / 2 ^ 32 % 256),
         (ldev.reg_base + R.LSDC_CRTC0_STRIDE_REG + u32 (pipe * R.CRTC_PIPE_OFFSET),
          u32 (fb.pitches ⟨0, by decide⟩)),
         (ldev.reg_base + R.LSDC_CRTC0_CFG_REG + u32 (pipe * R.CRTC_PIPE_OFFSET),
          u32 (lsdc_crtc_rreg32 R ldev R.LSDC_CRTC0_CFG_REG pipe
            &&& u32_not R.CFG_PIX_FMT_MASK ||| R.LSDC_PF_XRGB8888))] := by
  have herr := lsdc_bo_gpu_offset_pinned_not_err PAGE_SHIFT tbo hpin hps
  have haddr : u64 (u64 (ldev.vram_base + lsdc_bo_gpu_offset PAGE_SHIFT tbo) + fb_offset) =
      (ldev.vram_base + lsdc_bo_gpu_offset PAGE_SHIFT tbo + fb_offset) % 2 ^ 64 := by
    simp only [u64]; omega
  have hlo : ∀ v : Nat, u32 (v &&& 0xFFFFFFFF) = v % 2 ^ 32 := by
    intro v; rw [and_0xFFFFFFFF]; simp [u32]
  have hhi : ∀ v : Nat, u32 ((v >>> 32) &&& 0xFF) = v / 2 ^ 32 % 256 := by
    intro v; rw [and_0xFF, Nat.shiftRight_eq_div_pow]; simp only [u32]; omega
  simp only [lsdc_primary_update_impl, hobj, herr, haddr]
  by_cases hbit : lsdc_crtc_rreg32 R ldev R.LSDC_CRTC0_CFG_REG pipe &&& R.CFG_FB_IN_USING ≠ 0
  · simp [hbit, lsdc_crtc_wreg32, writel, hlo, hhi]
  · simp [hbit, lsdc_crtc_wreg32, writel, hlo, hhi]

/-- Two registers of one pipe with different offsets have different addresses. -/
theorem pipe_reg_addr_ne (R : lsdc_regs_h) (ldev : lsdc_device) (pipe : Nat) {a b : Nat}
    (h : a ≠ b) : pipe_reg_addr R ldev a pipe ≠ pipe_reg_addr R ldev b pipe := by
  unfold pipe_reg_addr
  omega

/-- Four writes to addresses other than `b1` and `b2` leave both alone, and no
pair with one of these addresses is among them. -/
theorem four_writes_avoid {a1 a2 a3 a4 b1 b2 : Nat} (v1 v2 v3 v4 : Nat)
    (h11 : a1 ≠ b1) (h12 : a1 ≠ b2) (h21 : a2 ≠ b1) (h22 : a2 ≠ b2)
    (h31 : a3 ≠ b1) (h32 : a3 ≠ b2) (h41 : a4 ≠ b1) (h42 : a4 ≠ b2) :
    ∀ w ∈ [(a1, v1), (a2, v2), (a3, v3), (a4, v4)], w.1 ≠ b1 ∧ w.1 ≠ b2 := by
  intro w hw
  simp only [List.mem_cons, List.mem_singleton, List.not_mem_nil, or_false] at hw
  rcases hw with rfl | rfl | rfl | rfl
  · exact ⟨h11, h12⟩
  · exact ⟨h21, h22⟩
  · exact ⟨h31, h32⟩
  · exact ⟨h41, h42⟩

/-- C4: for a pinned framebuffer (its object 0 has a non-zero pin count) and a
pipe, `lsdc_primary_update_impl` writes the low and high address words to the
FB1 address registers of the pipe exactly when `CFG_FB_IN_USING` is set in the
configuration register of the pipe read at the call, and to its FB0 address
registers exactly when the bit is clear; none of its writes goes to the address
registers of the other buffer.  `new` is the list of writes the call makes. -/
theorem lsdc_primary_update_impl_selects_buffer (R : lsdc_regs_h) (PAGE_SHIFT : Nat)
    (ldev : lsdc_device) (fb : drm_framebuffer) (tbo : ttm_buffer_object)
    (fb_offset pipe : Nat)
    (hobj : fb.obj ⟨0, by decide⟩ = some tbo) (hpin : tbo.pin_count ≠ 0)
    (hps : 12 ≤ PAGE_SHIFT) (hpipe : pipe * R.CRTC_PIPE_OFFSET < 2 ^ 32)
    (hregs : [R.LSDC_CRTC0_FB0_LO_ADDR_REG, R.LSDC_CRTC0_FB0_HI_ADDR_REG,
      R.LSDC_CRTC0_FB1_LO_ADDR_REG, R.LSDC_CRTC0_FB1_HI_ADDR_REG,
      R.LSDC_CRTC0_STRIDE_REG, R.LSDC_CRTC0_CFG_REG].Nodup) :
    ∃ ldev' new,
      lsdc_primary_update_impl R PAGE_SHIFT ldev fb fb_offset pipe = some ldev' ∧
      ldev'.wlog = ldev.wlog ++ new ∧
      (((pipe_reg_addr R ldev R.LSDC_CRTC0_FB1_LO_ADDR_REG pipe,
            (ldev.vram_base + lsdc_bo_gpu_offset PAGE_SHIFT tbo + fb_offset) % 2 ^ 64
              % 2 ^ 32) ∈ new ∧
          (pipe_reg_addr R ldev R.LSDC_CRTC0_FB1_HI_ADDR_REG pipe,
            (ldev.vram_base + lsdc_bo_gpu_offset PAGE_SHIFT tbo + fb_offset) % 2 ^ 64
              / 2 ^ 32 % 256) ∈ new) ↔
        lsdc_crtc_rreg32 R ldev R.LSDC_CRTC0_CFG_REG pipe &&& R.CFG_FB_IN_USING ≠ 0) ∧
      (((pipe_reg_addr R ldev R.LSDC_CRTC0_FB0_LO_ADDR_REG pipe,
            (ldev.vram_base + lsdc_bo_gpu_offset PAGE_SHIFT tbo + fb_offset) % 2 ^ 64
              % 2 ^ 32) ∈ new ∧
          (pipe_reg_addr R ldev R.LSDC_CRTC0_FB0_HI_ADDR_REG pipe,
            (ldev.vram_base + lsdc_bo_gpu_offset PAGE_SHIFT tbo + fb_offset) % 2 ^ 64
              / 2 ^ 32 % 256) ∈ new) ↔
        lsdc_crtc_rreg32 R ldev R.LSDC_CRTC0_CFG_REG pipe &&& R.CFG_FB_IN_USING = 0) ∧
      (lsdc_crtc_rreg32 R ldev R.LSDC_CRTC0_CFG_REG pipe &&& R.CFG_FB_IN_USING ≠ 0 →
        ∀ w ∈ new, w.1 ≠ pipe_reg_addr R ldev R.LSDC_CRTC0_FB0_LO_ADDR_REG pipe ∧
          w.1 ≠ pipe_reg_addr R ldev R.LSDC_CRTC0_FB0_HI_ADDR_REG pipe) ∧
      (lsdc_crtc_rreg32 R ldev R.LSDC_CRTC0_CFG_REG pipe &&& R.CFG_FB_IN_USING = 0 →
        ∀ w ∈ new, w.1 ≠ pipe_reg_addr R ldev R.LSDC_CRTC0_FB1_LO_ADDR_REG pipe ∧
          w.1 ≠ pipe_reg_addr R ldev R.LSDC_CRTC0_FB1_HI_ADDR_REG pipe) := by
  obtain ⟨ldev', hret, hlog⟩ :=
    lsdc_primary_update_impl_wlog R PAGE_SHIFT ldev fb tbo fb_offset pipe hobj hpin hps
  simp only [List.nodup_cons, List.mem_cons, List.mem_singleton, List.not_mem_nil, not_or,
    List.nodup_nil, and_true, not_false_eq_true] at hregs
  obtain ⟨⟨h01, h02, h03, h04, h05⟩, ⟨h12, h13, h14, h15⟩, ⟨h23, h24, h25⟩, ⟨h34, h35⟩, h45⟩ :=
    hregs
  simp only [crtc_reg_addr_eq R ldev _ pipe hpipe] at hlog
  have hne := @pipe_reg_addr_ne R ldev pipe
  by_cases hbit : lsdc_crtc_rreg32 R ldev R.LSDC_CRTC0_CFG_REG pipe &&& R.CFG_FB_IN_USING ≠ 0
  · rw [if_pos hbit, if_pos hbit] at hlog
    have hav := four_writes_avoid
      ((ldev.vram_base + lsdc_bo_gpu_offset PAGE_SHIFT tbo + fb_offset) % 2 ^ 64 % 2 ^ 32)
      ((ldev.vram_base + lsdc_bo_gpu_offset PAGE_SHIFT tbo + fb_offset) % 2 ^ 64 / 2 ^ 32 % 256)
      (u32 (fb.pitches ⟨0, by decide⟩))
      (u32 (lsdc_crtc_rreg32 R ldev R.LSDC_CRTC0_CFG_REG pipe
        &&& u32_not R.CFG_PIX_FMT_MASK ||| R.LSDC_PF_XRGB8888))
      (hne (Ne.symm h02)) (hne (Ne.symm h12)) (hne (Ne.symm h03)) (hne (Ne.symm h13))
      (hne (Ne.symm h04)) (hne (Ne.symm h14)) (hne (Ne.symm h05)) (hne (Ne.symm h15))
    refine ⟨ldev', _, hret, hlog, ?_, ?_, fun _ => hav, fun h => absurd h hbit⟩
    · simp [hbit]
    · have hbit' : ¬ (lsdc_crtc_rreg32 R ldev R.LSDC_CRTC0_CFG_REG pipe
          &&& R.CFG_FB_IN_USING = 0) := hbit
      simp only [hbit', iff_false, not_and]
      intro hmem
      exact absurd rfl (hav _ hmem).1
  · have hbit0 : lsdc_crtc_rreg32 R ldev R.LSDC_CRTC0_CFG_REG pipe &&& R.CFG_FB_IN_USING = 0 :=
      not_not.mp hbit
    rw [if_neg hbit, if_neg hbit] at hlog
    have hav := four_writes_avoid
      ((ldev.vram_base + lsdc_bo_gpu_offset PAGE_SHIFT tbo + fb_offset) % 2 ^ 64 % 2 ^ 32)
      ((ldev.vram_base + lsdc_bo_gpu_offset PAGE_SHIFT tbo + fb_offset) % 2 ^ 64 / 2 ^ 32 % 256)
      (u32 (fb.pitches ⟨0, by decide⟩))
      (u32 (lsdc_crtc_rreg32 R ldev R.LSDC_CRTC0_CFG_REG pipe
        &&& u32_not R.CFG_PIX_FMT_MASK ||| R.LSDC_PF_XRGB8888))
      (hne h02) (hne h03) (hne h12) (hne h13)
      (hne (Ne.symm h24)) (hne (Ne.symm h34)) (hne (Ne.symm h25)) (hne (Ne.symm h35))
    refine ⟨ldev', _, hret, hlog, ?_, ?_, fun h => absurd hbit0 h, fun _ => hav⟩
    · simp only [hbit, iff_false, not_and]
      intro hmem
      exact absurd rfl (hav _ hmem).1
    · simp [hbit0]

/-- C6: in `lsdc_primary_update_impl` the scanout address fb_addr = vram_base +
bo_offset + fb_offset (a `u64`) is written as the two words lo = fb_addr mod
2^32 and hi = (fb_addr >> 32) & 0xFF, the first two writes of the call; hi is
below 256, and hi * 2^32 + lo = fb_addr whenever fb_addr < 2^40.  The bus
width `mc_bits` of all four chip descriptors is 40. -/
theorem lsdc_primary_update_impl_addr_split (R : lsdc_regs_h) (PAGE_SHIFT : Nat)
    (ldev : lsdc_device) (fb : drm_framebuffer) (tbo : ttm_buffer_object)
    (fb_offset pipe : Nat)
    (hobj : fb.obj ⟨0, by decide⟩ = some tbo) (hpin : tbo.pin_count ≠ 0)
    (hps : 12 ≤ PAGE_SHIFT) :
    (∀ descp ∈ lsdc_descs, descp.mc_bits = 40) ∧
    ∃ ldev' fb_addr a_lo lo a_hi hi rest,
      lsdc_primary_update_impl R PAGE_SHIFT ldev fb fb_offset pipe = some ldev' ∧
      ldev'.wlog = ldev.wlog ++ (a_lo, lo) :: (a_hi, hi) :: rest ∧
      fb_addr = (ldev.vram_base + lsdc_bo_gpu_offset PAGE_SHIFT tbo + fb_offset) % 2 ^ 64 ∧
      lo = fb_addr % 2 ^ 32 ∧
      hi = (fb_addr >>> 32) &&& 0xFF ∧
      hi < 256 ∧
      (fb_addr < 2 ^ 40 → hi * 2 ^ 32 + lo = fb_addr) := by
  obtain ⟨ldev', hret, hlog⟩ :=
    lsdc_primary_update_impl_wlog R PAGE_SHIFT ldev fb tbo fb_offset pipe hobj hpin hps
  refine ⟨by decide, ldev', _, _, _, _, _, _, hret, hlog, rfl, rfl, ?_, ?_, ?_⟩
  · rw [and_0xFF, Nat.shiftRight_eq_div_pow]
  · omega
  · intro h; omega

/-- Bit `i` of a value truncated to 32 bits. -/
theorem testBit_u32 (x i : Nat) : (u32 x).testBit i = (decide (i < 32) && x.testBit i) :=
  Nat.testBit_mod_two_pow x 32 i

/-- Bit `i` of the 32-bit complement. -/
theorem testBit_u32_not (x i : Nat) :
    (u32_not x).testBit i = (decide (i < 32) && !x.testBit i) := by
  have h : (0xFFFFFFFF : Nat) = 2 ^ 32 - 1 := by norm_num
  unfold u32_not
  rw [Nat.testBit_xor, h, Nat.testBit_two_pow_sub_one, testBit_u32]
  cases decide (i < 32) <;> cases x.testBit i <;> rfl

/-- A register read is a 32-bit value: its bits from 32 on are clear. -/
theorem testBit_readl (ldev : lsdc_device) (addr i : Nat) :
    (readl ldev addr).testBit i = (decide (i < 32) && (ldev.mmio addr).testBit i) :=
  testBit_u32 _ i

/-- What a write stores is what a read of the same address returns. -/
theorem readl_writel (ldev : lsdc_device) (val addr : Nat) :
    readl (writel val addr ldev) addr = u32 val := by
  simp [readl, writel, u32]

/-- Setting bits: the bits outside `bit` of the 32-bit result are those of `val`. -/
theorem testBit_set_outside (val bit i : Nat) (hval : val < 2 ^ 32)
    (hi : bit.testBit i = false) : (u32 (val ||| bit)).testBit i = val.testBit i := by
  rw [testBit_u32, Nat.testBit_or, hi]
  by_cases h : i < 32
  · simp [h]
  · have : val.testBit i = false :=
      Nat.testBit_lt_two_pow (lt_of_lt_of_le hval (Nat.pow_le_pow_right (by norm_num) (by omega)))
    simp [h, this]

/-- Clearing bits: the bits outside `bit` of the 32-bit result are those of `val`. -/
theorem testBit_clr_outside (val bit i : Nat) (hval : val < 2 ^ 32)
    (hi : bit.testBit i = false) :
    (u32 (val &&& u32_not bit)).testBit i = val.testBit i := by
  rw [testBit_u32, Nat.testBit_and, testBit_u32_not, hi]
  by_cases h : i < 32
  · simp [h]
  · have : val.testBit i = false :=
      Nat.testBit_lt_two_pow (lt_of_lt_of_le hval (Nat.pow_le_pow_right (by norm_num) (by omega)))
    simp [h, this]

/-- A register read is below 2^32. -/
theorem readl_lt (ldev : lsdc_device) (addr : Nat) : readl ldev addr < 2 ^ 32 :=
  Nat.mod_lt _ (by norm_num)

/-- Replacing a field: with `code` inside `mask` and `mask` a 32-bit mask, the
word `(val & ~mask) | code` has `code` in the field and the bits of `val`
outside it. -/
theorem field_replace (val mask code : Nat) (hval : val < 2 ^ 32) (hmask : mask < 2 ^ 32)
    (hcode : code &&& mask = code) :
    u32 (val &&& u32_not mask ||| code) &&& mask = code ∧
    ∀ i, mask.testBit i = false →
      (u32 (val &&& u32_not mask ||| code)).testBit i = val.testBit i := by
  have hcbit : ∀ i, code.testBit i = (code.testBit i && mask.testBit i) := by
    intro i
    have := congrArg (fun x => x.testBit i) hcode
    simpa [Nat.testBit_and] using this.symm
  have hm32 : ∀ i, ¬ i < 32 → mask.testBit i = false := by
    intro i h
    exact Nat.testBit_lt_two_pow
      (lt_of_lt_of_le hmask (Nat.pow_le_pow_right (by norm_num) (by omega)))
  have hv32 : ∀ i, ¬ i < 32 → val.testBit i = false := by
    intro i h
    exact Nat.testBit_lt_two_pow
      (lt_of_lt_of_le hval (Nat.pow_le_pow_right (by norm_num) (by omega)))
  constructor
  · apply Nat.eq_of_testBit_eq
    intro i
    rw [Nat.testBit_and, testBit_u32, Nat.testBit_or, Nat.testBit_and, testBit_u32_not]
    have hc := hcbit i
    by_cases h : i < 32
    · simp only [h, decide_True, Bool.true_and]
      revert hc
      cases val.testBit i <;> cases mask.testBit i <;> cases code.testBit i <;> simp
    · rw [hm32 i h] at hc ⊢
      simp at hc
      simp [hc]
  · intro i hi
    rw [testBit_u32, Nat.testBit_or, Nat.testBit_and, testBit_u32_not, hi]
    have hc := hcbit i
    rw [hi] at hc
    simp only [Bool.and_false] at hc
    by_cases h : i < 32
    · simp [h, hc]
    · simp [h, hv32 i h]

/-- C7: on LS7A2000 and LS2K2000, for a mode whose scanline width in bytes
(crtc_hdisplay * 4) is a multiple of 32, the configuration write of
`lsdc_crtc_enable` (the one write `lsdc_crtc_enable_dma_step` makes after the
timing writes) carries in the `CFG_DMA_STEP_MASK` field the code of the largest
step among 256, 128, 64 and 32 bytes that divides the width, and every bit
outside `CFG_DMA_STEP_MASK` has the value read from the register just before.
The header is assumed to keep the step codes inside the 32-bit mask. -/
theorem lsdc_crtc_enable_dma_step_largest (R : lsdc_regs_h) (env : crtc_enable_env)
    (ldev0 ldev : lsdc_device) (index : Nat) (mode : drm_display_mode)
    (hldev : ldev = lsdc_crtc_enable_timing R ldev0 index mode)
    (hchip : ldev.descp.chip = CHIP_LS7A2000 ∨ ldev.descp.chip = CHIP_LS2K2000)
    (hwidth : 32 ∣ mode.crtc_hdisplay * 4)
    (hmask : R.CFG_DMA_STEP_MASK < 2 ^ 32)
    (hcodes : ∀ bytes ∈ [256, 128, 64, 32],
      dma_step_code R bytes &&& R.CFG_DMA_STEP_MASK = dma_step_code R bytes) :
    lsdc_crtc_enable R env ldev0 index mode =
        lsdc_crtc_ureg32_set R
          (env.drm_crtc_vblank_on (env.pixpll_update
            (lsdc_crtc_enable_dma_step R ldev index mode)))
          R.LSDC_CRTC0_CFG_REG index R.CFG_OUTPUT_EN ∧
    ∃ step val,
      (lsdc_crtc_enable_dma_step R ldev index mode).wlog =
        ldev.wlog ++ [(ldev.reg_base + R.LSDC_CRTC0_CFG_REG + u32 (index * R.CRTC_PIPE_OFFSET),
          val)] ∧
      step ∈ [256, 128, 64, 32] ∧ step ∣ mode.crtc_hdisplay * 4 ∧
      (∀ bytes ∈ [256, 128, 64, 32], bytes ∣ mode.crtc_hdisplay * 4 → bytes ≤ step) ∧
      val &&& R.CFG_DMA_STEP_MASK = dma_step_code R step ∧
      ∀ i, R.CFG_DMA_STEP_MASK.testBit i = false →
        val.testBit i = (lsdc_crtc_rreg32 R ldev R.LSDC_CRTC0_CFG_REG index).testBit i := by
  refine ⟨by rw [hldev]; rfl, ?_⟩
  have hrd : lsdc_crtc_rreg32 R ldev R.LSDC_CRTC0_CFG_REG index < 2 ^ 32 := readl_lt _ _
  have hw : ∀ k, (k = 256 ∨ k = 128 ∨ k = 64 ∨ k = 32) →
      (u32 (mode.crtc_hdisplay * 4) % k = 0 ↔ k ∣ mode.crtc_hdisplay * 4) := by
    intro k hk
    rw [Nat.dvd_iff_mod_eq_zero]
    rcases hk with rfl | rfl | rfl | rfl <;> simp only [u32] <;> omega
  have h256 := hw 256 (by simp)
  have h128 := hw 128 (by simp)
  have h64 := hw 64 (by simp)
  have c256 := hcodes 256 (by simp)
  have c128 := hcodes 128 (by simp)
  have c64 := hcodes 64 (by simp)
  have c32 := hcodes 32 (by simp)
  simp only [dma_step_code] at c256 c128 c64 c32
  norm_num at c256 c128 c64 c32
  simp only [lsdc_crtc_enable_dma_step, hchip, if_true, lsdc_crtc_wreg32, writel]
  by_cases d256 : 256 ∣ mode.crtc_hdisplay * 4
  · obtain ⟨f1, f2⟩ := field_replace _ _ _ hrd hmask c256
    refine ⟨256, _, by rw [if_pos (h256.mpr d256)], by simp, d256, ?_, ?_, f2⟩
    · intro b hb _
      simp only [List.mem_cons, List.mem_singleton, List.not_mem_nil, or_false] at hb
      omega
    · simpa [dma_step_code] using f1
  · by_cases d128 : 128 ∣ mode.crtc_hdisplay * 4
    · obtain ⟨f1, f2⟩ := field_replace _ _ _ hrd hmask c128
      refine ⟨128, _, by rw [if_neg (mt h256.mp d256), if_pos (h128.mpr d128)], by simp,
        d128, ?_, ?_, f2⟩
      · intro b hb hd
        simp only [List.mem_cons, List.mem_singleton, List.not_mem_nil, or_false] at hb
        rcases hb with rfl | rfl | rfl | rfl
        · exact absurd hd d256
        all_goals norm_num
      · simpa [dma_step_code] using f1
    · by_cases d64 : 64 ∣ mode.crtc_hdisplay * 4
      · obtain ⟨f1, f2⟩ := field_replace _ _ _ hrd hmask c64
        refine ⟨64, _, by rw [if_neg (mt h256.mp d256), if_neg (mt h128.mp d128),
          if_pos (h64.mpr d64)], by simp, d64, ?_, ?_, f2⟩
        · intro b hb hd
          simp only [List.mem_cons, List.mem_singleton, List.not_mem_nil, or_false] at hb
          rcases hb with rfl | rfl | rfl | rfl
          · exact absurd hd d256
          · exact absurd hd d128
          all_goals norm_num
        · simpa [dma_step_code] using f1
      · obtain ⟨f1, f2⟩ := field_replace _ _ _ hrd hmask c32
        refine ⟨32, _, by rw [if_neg (mt h256.mp d256), if_neg (mt h128.mp d128),
          if_neg (mt h64.mp d64)], by simp, hwidth, ?_, ?_, f2⟩
        · intro b hb hd
          simp only [List.mem_cons, List.mem_singleton, List.not_mem_nil, or_false] at hb
          rcases hb with rfl | rfl | rfl | rfl
          · exact absurd hd d256
          · exact absurd hd d128
          · exact absurd hd d64
          · norm_num
        · simpa [dma_step_code] using f1

/-- C8: the per-pipe accessors `lsdc_crtc_rreg32`, `lsdc_crtc_wreg32`,
`lsdc_crtc_ureg32_set` and `lsdc_crtc_ureg32_clr` access the register at byte
offset `offset + pipe * CRTC_PIPE_OFFSET` from `reg_base` (for a pipe whose
32-bit product `pipe * CRTC_PIPE_OFFSET` does not wrap); for pipe 0 each is
the device-wide accessor at the same offset; and after the set and clr
variants every bit of the register outside the mask `bit` has the value read. -/
theorem lsdc_crtc_accessors_pipe_offset (R : lsdc_regs_h) (ldev : lsdc_device)
    (offset pipe val bit : Nat) (hpipe : pipe * R.CRTC_PIPE_OFFSET < 2 ^ 32) :
    (lsdc_crtc_rreg32 R ldev offset pipe = readl ldev (pipe_reg_addr R ldev offset pipe) ∧
      lsdc_crtc_wreg32 R ldev offset pipe val =
        writel val (pipe_reg_addr R ldev offset pipe) ldev ∧
      lsdc_crtc_ureg32_set R ldev offset pipe bit =
        writel (readl ldev (pipe_reg_addr R ldev offset pipe) ||| bit)
          (pipe_reg_addr R ldev offset pipe) ldev ∧
      lsdc_crtc_ureg32_clr R ldev offset pipe bit =
        writel (readl ldev (pipe_reg_addr R ldev offset pipe) &&& u32_not bit)
          (pipe_reg_addr R ldev offset pipe) ldev) ∧
    (lsdc_crtc_rreg32 R ldev offset 0 = lsdc_rreg32 ldev offset ∧
      lsdc_crtc_wreg32 R ldev offset 0 val = lsdc_wreg32 ldev offset val ∧
      lsdc_crtc_ureg32_set R ldev offset 0 bit = lsdc_ureg32_set ldev offset bit ∧
      lsdc_crtc_ureg32_clr R ldev offset 0 bit = lsdc_ureg32_clr ldev offset bit) ∧
    (∀ i, bit.testBit i = false →
      (readl (lsdc_crtc_ureg32_set R ldev offset pipe bit)
          (pipe_reg_addr R ldev offset pipe)).testBit i =
        (lsdc_crtc_rreg32 R ldev offset pipe).testBit i ∧
      (readl (lsdc_crtc_ureg32_clr R ldev offset pipe bit)
          (pipe_reg_addr R ldev offset pipe)).testBit i =
        (lsdc_crtc_rreg32 R ldev offset pipe).testBit i) := by
  have haddr := crtc_reg_addr_eq R ldev offset pipe hpipe
  have hzero : ldev.reg_base + offset + u32 (0 * R.CRTC_PIPE_OFFSET) = ldev.reg_base + offset := by
    simp [u32]
  refine ⟨⟨?_, ?_, ?_, ?_⟩, ⟨?_, ?_, ?_, ?_⟩, ?_⟩
  · simp only [lsdc_crtc_rreg32, haddr]
  · simp only [lsdc_crtc_wreg32, haddr]
  · simp only [lsdc_crtc_ureg32_set, haddr]
  · simp only [lsdc_crtc_ureg32_clr, haddr]
  · simp only [lsdc_crtc_rreg32, lsdc_rreg32, hzero]
  · simp only [lsdc_crtc_wreg32, lsdc_wreg32, hzero]
  · simp only [lsdc_crtc_ureg32_set, lsdc_ureg32_set, hzero]
  · simp only [lsdc_crtc_ureg32_clr, lsdc_ureg32_clr, hzero]
  · intro i hi
    simp only [lsdc_crtc_ureg32_set, lsdc_crtc_ureg32_clr, lsdc_crtc_rreg32, haddr, readl_writel]
    exact ⟨testBit_set_outside _ _ _ (readl_lt _ _) hi,
      testBit_clr_outside _ _ _ (readl_lt _ _) hi⟩

/-- C9 (the code at the failing input): with a `driver_data` that names no
known chip (`CHIP_UNKNOWN`) and every kernel call succeeding,
`lsdc_detect_chip` returns NULL, `lsdc_create_device` returns NULL rather than
an error pointer, `IS_ERR` does not catch it, and `lsdc_pci_probe` hands the
NULL-based device to `drm_dev_register`, goes on to the fbdev set-up and
returns 0. -/
theorem lsdc_create_device_unknown_chip_null :
    lsdc_detect_chip (probe_env_ok CHIP_UNKNOWN.val) = none ∧
    lsdc_create_device (probe_env_ok CHIP_UNKNOWN.val) = kptr.bits 0 ∧
    (lsdc_create_device (probe_env_ok CHIP_UNKNOWN.val)).IS_ERR = false ∧
    (lsdc_pci_probe (probe_env_ok CHIP_UNKNOWN.val)).registered = some (kptr.bits 0) ∧
    (lsdc_pci_probe (probe_env_ok CHIP_UNKNOWN.val)).fbdev_setup = true ∧
    (lsdc_pci_probe (probe_env_ok CHIP_UNKNOWN.val)).ret = 0 := by
  have hdet : lsdc_detect_chip (probe_env_ok CHIP_UNKNOWN.val) = none := by
    simp [lsdc_detect_chip, probe_env_ok, loongson_chip_family.val]
  have hdev : lsdc_create_device (probe_env_ok CHIP_UNKNOWN.val) = kptr.bits 0 := by
    simp only [lsdc_create_device, hdet, kptr.NULL]
    simp [probe_env_ok]
  have herr : IS_ERR 0 = false := by simp [IS_ERR, MAX_ERRNO]
  refine ⟨hdet, hdev, ?_, ?_, ?_, ?_⟩
  · rw [hdev]; simpa [kptr.IS_ERR] using herr
  · simp only [lsdc_pci_probe, hdev, herr]; simp [probe_env_ok]
  · simp only [lsdc_pci_probe, hdev, herr]; simp [probe_env_ok]
  · simp only [lsdc_pci_probe, hdev, herr]; simp [probe_env_ok]

/-- A failing return code that follows the kernel convention makes an error
pointer, from which `PTR_ERR` reads the code back. -/
theorem ERR_PTR_is_err (ret : Int) (hconv : is_errno_return ret) (hne : ret ≠ 0) :
    IS_ERR (int_to_u64 ret) = true ∧ PTR_ERR (int_to_u64 ret) = ret := by
  obtain ⟨h1, h2⟩ := hconv
  simp only [MAX_ERRNO] at h1
  simp only [IS_ERR, MAX_ERRNO, decide_eq_true_eq, int_to_u64, PTR_ERR]
  push_cast
  omega

/-- A loop that stops at the first failure returns a code that follows the
kernel convention when every round does. -/
theorem first_failure_errno (n : Nat) (body : Nat → Int)
    (h : ∀ i, is_errno_return (body i)) : is_errno_return (first_failure n body) := by
  unfold first_failure
  have hgen : ∀ (l : List Nat) (acc : Int), is_errno_return acc →
      is_errno_return (l.foldl (fun ret i => if ret ≠ 0 then ret else body i) acc) := by
    intro l
    induction l with
    | nil => intro acc hacc; exact hacc
    | cons i l ih =>
      intro acc hacc
      simp only [List.foldl_cons]
      apply ih
      split_ifs
      · exact hacc
      · exact h i
  exact hgen _ 0 ⟨by simp [MAX_ERRNO], le_refl 0⟩

/-- The helpers of `lsdc_create_device` return codes that follow the kernel
convention when the calls they make do. -/
theorem lsdc_create_device_helpers_errno (env : probe_env) (descp : lsdc_desc)
    (hconv : env.errno_returns) :
    is_errno_return (lsdc_get_dedicated_vram env descp).1 ∧
    is_errno_return (lsdc_of_get_reserved_ram env).1 ∧
    is_errno_return (lsdc_ttm_init env) ∧
    is_errno_return (lsdc_mode_config_init env) ∧
    is_errno_return (lsdc_modeset_init env descp) := by
  obtain ⟨_, _, _, hof, _, ht1, ht2, ht3, hmc, hco, hpll, hpp, hpc, hcr, _, _⟩ := hconv
  refine ⟨?_, ?_, ?_, hmc, ?_⟩
  · simp only [lsdc_get_dedicated_vram]
    split <;> exact ⟨by simp [MAX_ERRNO, ENODEV], by simp [ENODEV]⟩
  · simp only [lsdc_of_get_reserved_ram]
    split_ifs <;> first
      | exact hof
      | exact ⟨by simp [MAX_ERRNO, ENOENT], by simp [ENOENT]⟩
  · simp only [lsdc_ttm_init]
    split_ifs
    · exact ht1
    · exact ht2
    · exact ht3
  · have hpipe : ∀ i, is_errno_return (lsdc_modeset_init_pipe env i) := by
      intro i
      simp only [lsdc_modeset_init_pipe]
      split_ifs
      · exact hpll i
      · exact hpp i
      · exact hpc i
      · exact hcr i
    simp only [lsdc_modeset_init]
    split_ifs
    · exact first_failure_errno _ _ hco
    · exact first_failure_errno _ _ hpipe

/-- For a recognised chip and return codes that follow the kernel convention,
`lsdc_create_device` returns either a device or an error pointer carrying a
negative errno, and in the second case `lsdc_pci_probe` returns that errno
without calling `drm_dev_register`. -/
theorem lsdc_create_device_known_chip (env : probe_env) (descp : lsdc_desc)
    (hconv : env.errno_returns) (hdet : lsdc_detect_chip env = some descp)
    (hen : env.pcim_enable_device = 0) (hdma : env.dma_set_mask_and_coherent = 0) :
    (∃ ldev, lsdc_create_device env = kptr.valid ldev ∧ ldev.descp = descp) ∨
    (∃ ret : Int, ret < 0 ∧ lsdc_create_device env = ERR_PTR ret ∧
      (lsdc_create_device env).IS_ERR = true ∧
      (lsdc_pci_probe env).ret = ret ∧ (lsdc_pci_probe env).registered = none) := by
  obtain ⟨h1, h2, h3, h4, h5⟩ := lsdc_create_device_helpers_errno env descp hconv
  have hvram : is_errno_return
      (if descp.has_vram = true then lsdc_get_dedicated_vram env descp
        else lsdc_of_get_reserved_ram env).1 := by
    split_ifs
    · exact h1
    · exact h2
  have hio : is_errno_return (-( EIO : Int)) := ⟨by simp [MAX_ERRNO, EIO], by simp [ EIO]⟩
  obtain ⟨_, _, halloc, _, hap, _, _, _, _, _, _, _, _, _, hvb, hirq⟩ := hconv
  have hfail : ∀ ret : Int, is_errno_return ret → ret ≠ 0 →
      lsdc_create_device env = ERR_PTR ret →
      ∃ ret : Int, ret < 0 ∧ lsdc_create_device env = ERR_PTR ret ∧
        (lsdc_create_device env).IS_ERR = true ∧
        (lsdc_pci_probe env).ret = ret ∧ (lsdc_pci_probe env).registered = none := by
    intro ret hr hne heq
    obtain ⟨he, hp⟩ := ERR_PTR_is_err ret hr hne
    refine ⟨ret, lt_of_le_of_ne hr.2 hne, heq, ?_, ?_, ?_⟩
    · rw [heq]; exact he
    · simp only [lsdc_pci_probe, hen, hdma, heq, ERR_PTR, he]
      simpa using hp
    · simp only [lsdc_pci_probe, hen, hdma, heq, ERR_PTR, he]
      simp
  by_cases c1 : env.devm_drm_dev_alloc = 0
  swap
  · exact Or.inr (hfail _ halloc c1 (by simp only [lsdc_create_device]; rw [if_pos c1]))
  by_cases c2 : env.pcim_iomap = 0
  · exact Or.inr (hfail _ hio (by simp [ EIO])
      (by simp only [lsdc_create_device, hdet]; simp [c1, c2]))
  by_cases c3 : (if descp.has_vram = true then lsdc_get_dedicated_vram env descp
      else lsdc_of_get_reserved_ram env).1 = 0
  swap
  · exact Or.inr (hfail _ hvram c3
      (by simp only [lsdc_create_device, hdet]; simp [c1, c2, c3]))
  by_cases c4 : env.drm_aperture_remove_conflicting_framebuffers = 0
  swap
  · exact Or.inr (hfail _ hap c4
      (by simp only [lsdc_create_device, hdet]; simp [c1, c2, c3, c4]))
  by_cases c5 : lsdc_ttm_init env = 0
  swap
  · exact Or.inr (hfail _ h3 c5
      (by simp only [lsdc_create_device, hdet]; simp [c1, c2, c3, c4, c5]))
  by_cases c6 : lsdc_mode_config_init env = 0
  swap
  · exact Or.inr (hfail _ h4 c6
      (by simp only [lsdc_create_device, hdet]; simp [c1, c2, c3, c4, c5, c6]))
  by_cases c7 : lsdc_modeset_init env descp = 0
  swap
  · exact Or.inr (hfail _ h5 c7
      (by simp only [lsdc_create_device, hdet]; simp [c1, c2, c3, c4, c5, c6, c7]))
  by_cases c8 : env.drm_vblank_init = 0
  swap
  · exact Or.inr (hfail _ hvb c8
      (by simp only [lsdc_create_device, hdet]; simp [c1, c2, c3, c4, c5, c6, c7, c8]))
  by_cases c9 : env.request_threaded_irq = 0
  swap
  · exact Or.inr (hfail _ hirq c9
      (by simp only [lsdc_create_device, hdet]; simp [c1, c2, c3, c4, c5, c6, c7, c8, c9]))
  left
  refine ⟨{ reg_base := env.pcim_iomap
            mmio := env.mmio
            wlog := []
            vram_base := (if descp.has_vram = true then lsdc_get_dedicated_vram env descp
              else lsdc_of_get_reserved_ram env).2.1
            vram_size := (if descp.has_vram = true then lsdc_get_dedicated_vram env descp
              else lsdc_of_get_reserved_ram env).2.2
            descp := descp }, ?_, rfl⟩
  simp only [lsdc_create_device, hdet]
  simp [c1, c2, c3, c4, c5, c6, c7, c8, c9]

/-- Masking off the low `k` bits of a 64-bit value rounds it down to a multiple
of `2^k`. -/
theorem and_not_low (y k : Nat) (hy : y < 2 ^ 64) :
    y &&& (0xFFFFFFFFFFFFFFFF ^^^ (2 ^ k - 1)) = y / 2 ^ k * 2 ^ k := by
  have h : (0xFFFFFFFFFFFFFFFF : Nat) = 2 ^ 64 - 1 := by norm_num
  rw [h, ← Nat.shiftRight_eq_div_pow, ← Nat.shiftLeft_eq]
  apply Nat.eq_of_testBit_eq
  intro j
  rw [Nat.testBit_and, Nat.testBit_xor, Nat.testBit_two_pow_sub_one, Nat.testBit_two_pow_sub_one,
    Nat.testBit_shiftLeft, Nat.testBit_shiftRight]
  by_cases hj : j < 64
  · by_cases hjk : j < k
    · simp [hj, hjk]
    · have : k + (j - k) = j := by omega
      simp [hj, hjk, this, Nat.le_of_not_lt hjk]
  · have hyj : y.testBit j = false :=
      Nat.testBit_lt_two_pow (lt_of_lt_of_le hy (Nat.pow_le_pow_right (by norm_num) (by omega)))
    by_cases hjk : j < k
    · simp [hj, hjk, hyj]
    · have : k + (j - k) = j := by omega
      simp [hj, hjk, hyj, this]

/-- `round_up_to_multiple x a` is the least multiple of `a` not below `x`. -/
theorem round_up_to_multiple_least (x a : Nat) (ha : 0 < a) :
    a ∣ round_up_to_multiple x a ∧ x ≤ round_up_to_multiple x a ∧
    ∀ m, a ∣ m → x ≤ m → round_up_to_multiple x a ≤ m := by
  unfold round_up_to_multiple
  refine ⟨Dvd.intro_left _ rfl, ?_, ?_⟩
  · have h1 := Nat.div_add_mod (x + a - 1) a
    have h2 := Nat.mod_lt (x + a - 1) ha
    rw [Nat.mul_comm] at h1
    omega
  · rintro m ⟨c, rfl⟩ hx
    rw [Nat.mul_comm a c] at hx ⊢
    apply Nat.mul_le_mul_right
    apply Nat.lt_succ_iff.mp
    rw [Nat.div_lt_iff_lt_mul ha, Nat.succ_mul]
    omega

/-- On a 32-bit value and a power of two up to 2^32 the kernel's `ALIGN` rounds
up to a multiple. -/
theorem ALIGN_pow_two (x k : Nat) (hx : x < 2 ^ 32) (hk : k ≤ 32) :
    ALIGN x (2 ^ k) = round_up_to_multiple x (2 ^ k) := by
  have hP1 : 1 ≤ 2 ^ k := Nat.one_le_two_pow
  have hP2 : 2 ^ k ≤ 2 ^ 32 := Nat.pow_le_pow_right (by norm_num) hk
  have hmask : u64 (2 ^ k + (2 ^ 64 - 1)) = 2 ^ k - 1 := by
    simp only [u64]; omega
  have hsum : u64 (x + (2 ^ k - 1)) = x + 2 ^ k - 1 := by
    simp only [u64]; omega
  have hm64 : u64 (2 ^ k - 1) = 2 ^ k - 1 := by
    simp only [u64]; omega
  unfold ALIGN round_up_to_multiple u64_not
  simp only [hmask, hsum, hm64]
  exact and_not_low _ k (by omega)

/-- An error pointer made by `ERR_PTR` has 64 bits. -/
theorem int_to_u64_lt (e : Int) : int_to_u64 e < 2 ^ 64 := by
  unfold int_to_u64
  have h := Int.emod_lt_of_pos e (by norm_num : (0 : Int) < 2 ^ 64)
  have h0 := Int.emod_nonneg e (by norm_num : (2 ^ 64 : Int) ≠ 0)
  omega

/-- The `int` read back from a 64-bit error value is not 0. -/
theorem PTR_ERR_ne_zero (b : Nat) (hb : b < 2 ^ 64) (herr : IS_ERR b = true) :
    PTR_ERR b ≠ 0 := by
  simp only [IS_ERR, MAX_ERRNO, decide_eq_true_eq] at herr
  unfold PTR_ERR
  omega

/-- The pointers `lsdc_bo_create` returns have 64 bits. -/
theorem lsdc_bo_create_bits_lt (env : dumb_create_env) (size b : Nat)
    (h : lsdc_bo_create env size = kptr.bits b) : b < 2 ^ 64 := by
  simp only [lsdc_bo_create, ERR_PTR] at h
  by_cases h1 : env.kzalloc = true
  · by_cases h2 : env.drm_gem_object_init = 0
    · by_cases h3 : env.ttm_bo_init_validate = 0
      · simp [h1, h2, h3] at h
      · simp only [h1, h2, h3, not_true_eq_false, ne_eq, not_false_eq_true, if_true, if_false,
          kptr.bits.injEq] at h
        rw [← h]; exact int_to_u64_lt _
    · simp only [h1, h2, not_true_eq_false, ne_eq, not_false_eq_true, if_true, if_false,
        kptr.bits.injEq] at h
      rw [← h]; exact int_to_u64_lt _
  · rw [if_pos h1] at h
    simp only [kptr.bits.injEq] at h
    rw [← h]; exact int_to_u64_lt _

/-- The local `pitch` of `lsdc_dumb_create` for a power-of-two alignment: the
32-bit product rounded up to a multiple of the alignment. -/
theorem lsdc_dumb_pitch_eq (descp : lsdc_desc) (args : drm_mode_create_dumb) (k : Nat)
    (hk : k ≤ 32) (hpa : descp.pitch_align = 2 ^ k) :
    lsdc_dumb_pitch descp args =
      round_up_to_multiple ((args.width * ((args.bpp + 7) % 2 ^ 32 / 8)) % 2 ^ 32)
        descp.pitch_align := by
  have hx : (args.width * ((args.bpp + 7) % 2 ^ 32 / 8)) % 2 ^ 32 < 2 ^ 32 :=
    Nat.mod_lt _ (by norm_num)
  have h := ALIGN_pow_two _ k hx hk
  simp only [lsdc_dumb_pitch, DIV_ROUND_UP_u32, u32, hpa]
  exact h

/-- The local `pitch` of `lsdc_dumb_create` is a multiple of the alignment and
at most 2^32. -/
theorem lsdc_dumb_pitch_bound (descp : lsdc_desc) (args : drm_mode_create_dumb) (k : Nat)
    (hk : k ≤ 32) (hpa : descp.pitch_align = 2 ^ k) :
    descp.pitch_align ∣ lsdc_dumb_pitch descp args ∧ lsdc_dumb_pitch descp args ≤ 2 ^ 32 := by
  have hpos : 0 < descp.pitch_align := by rw [hpa]; exact Nat.two_pow_pos k
  have hx : (args.width * ((args.bpp + 7) % 2 ^ 32 / 8)) % 2 ^ 32 < 2 ^ 32 :=
    Nat.mod_lt _ (by norm_num)
  obtain ⟨h1, _, h3⟩ := round_up_to_multiple_least
    ((args.width * ((args.bpp + 7) % 2 ^ 32 / 8)) % 2 ^ 32) descp.pitch_align hpos
  rw [lsdc_dumb_pitch_eq descp args k hk hpa]
  refine ⟨h1, h3 _ ?_ (le_of_lt hx)⟩
  rw [hpa]
  exact Nat.pow_dvd_pow 2 hk

/-- The local `size` of `lsdc_dumb_create` is a 64-bit multiple of the page size. -/
theorem lsdc_dumb_size_dvd (PAGE_SHIFT : Nat) (descp : lsdc_desc)
    (args : drm_mode_create_dumb) (hps : PAGE_SHIFT < 64) :
    2 ^ PAGE_SHIFT ∣ lsdc_dumb_size PAGE_SHIFT descp args ∧
    lsdc_dumb_size PAGE_SHIFT descp args < 2 ^ 64 := by
  have hY : PAGE_SIZE PAGE_SHIFT = 2 ^ PAGE_SHIFT := by
    simp only [PAGE_SIZE, u64, Nat.shiftLeft_eq, Nat.one_mul]
    exact Nat.mod_eq_of_lt (Nat.pow_lt_pow_right (by norm_num) hps)
  simp only [lsdc_dumb_size, roundup, hY]
  generalize u64 (u64 (lsdc_dumb_pitch descp args * args.height) +
    u64 (2 ^ PAGE_SHIFT + (2 ^ 64 - 1))) = X
  have hX : X / 2 ^ PAGE_SHIFT * 2 ^ PAGE_SHIFT ≤ X := Nat.div_mul_le_self X _
  by_cases hlt : X / 2 ^ PAGE_SHIFT * 2 ^ PAGE_SHIFT < 2 ^ 64
  · simp only [u64, Nat.mod_eq_of_lt hlt]
    exact ⟨Dvd.intro_left _ rfl, hlt⟩
  · refine ⟨?_, Nat.mod_lt _ (by norm_num)⟩
    simp only [u64]
    exact (Nat.dvd_mod_iff (Nat.pow_dvd_pow 2 (le_of_lt hps))).2 (Dvd.intro_left _ rfl)

/-- The local `size` of `lsdc_dumb_create` when the height is a 32-bit value
and pages are at most 4 GiB: the product rounded up to a multiple of the page
size, with no wrap. -/
theorem lsdc_dumb_size_eq (PAGE_SHIFT : Nat) (descp : lsdc_desc) (args : drm_mode_create_dumb)
    (k : Nat) (hk : k ≤ 32) (hpa : descp.pitch_align = 2 ^ k) (hps : PAGE_SHIFT ≤ 32)
    (hh : args.height < 2 ^ 32) :
    lsdc_dumb_size PAGE_SHIFT descp args =
      round_up_to_multiple (lsdc_dumb_pitch descp args * args.height) (2 ^ PAGE_SHIFT) := by
  have hY : PAGE_SIZE PAGE_SHIFT = 2 ^ PAGE_SHIFT := by
    simp only [PAGE_SIZE, u64, Nat.shiftLeft_eq, Nat.one_mul]
    exact Nat.mod_eq_of_lt (Nat.pow_lt_pow_right (by norm_num) (by omega))
  have hP1 : 1 ≤ 2 ^ PAGE_SHIFT := Nat.one_le_two_pow
  have hP2 : 2 ^ PAGE_SHIFT ≤ 2 ^ 32 := Nat.pow_le_pow_right (by norm_num) hps
  have hp := (lsdc_dumb_pitch_bound descp args k hk hpa).2
  have hprod : lsdc_dumb_pitch descp args * args.height ≤ 2 ^ 32 * (2 ^ 32 - 1) :=
    Nat.mul_le_mul hp (by omega)
  simp only [lsdc_dumb_size, roundup, hY, round_up_to_multiple]
  generalize lsdc_dumb_pitch descp args * args.height = X at hprod ⊢
  generalize 2 ^ PAGE_SHIFT = Y at hP1 hP2 ⊢
  have h1 : u64 X = X := by simp only [u64]; omega
  have h2 : u64 (Y + (2 ^ 64 - 1)) = Y - 1 := by simp only [u64]; omega
  have h3 : u64 (X + (Y - 1)) = X + Y - 1 := by simp only [u64]; omega
  rw [h1, h2, h3]
  have h4 : (X + Y - 1) / Y * Y ≤ X + Y - 1 := Nat.div_mul_le_self _ _
  simp only [u64]
  omega

/-- C10 (as amended): in `lsdc_dumb_create`, for a power-of-two `pitch_align`
up to 2^32 (all four chips), pages of at most 4 GiB and a 32-bit height, the
pitch is the 32-bit product width * ceil(bpp / 8) rounded up to a multiple of
`pitch_align`, which is width * ceil(bpp / 8) rounded up whenever bpp + 7 and
that product fit in 32 bits; the size is pitch * height rounded up to a
multiple of `PAGE_SIZE`; when the size is zero it returns -EINVAL, creates no
buffer object and leaves `args` alone; and when it returns 0 the pitch written
to `args` is a multiple of `pitch_align` and the size written a non-zero
multiple of `PAGE_SIZE`. -/
theorem lsdc_dumb_create_contract (PAGE_SHIFT : Nat) (env : dumb_create_env)
    (descp : lsdc_desc) (args : drm_mode_create_dumb) (k : Nat)
    (hk : k ≤ 32) (hpa : descp.pitch_align = 2 ^ k) (hps : PAGE_SHIFT ≤ 32)
    (hh : args.height < 2 ^ 32) :
    lsdc_dumb_pitch descp args =
        round_up_to_multiple ((args.width * ((args.bpp + 7) % 2 ^ 32 / 8)) % 2 ^ 32)
          descp.pitch_align ∧
    (args.bpp + 7 < 2 ^ 32 → args.width * ((args.bpp + 7) / 8) < 2 ^ 32 →
      lsdc_dumb_pitch descp args =
        round_up_to_multiple (args.width * ((args.bpp + 7) / 8)) descp.pitch_align) ∧
    lsdc_dumb_size PAGE_SHIFT descp args =
        round_up_to_multiple (lsdc_dumb_pitch descp args * args.height) (2 ^ PAGE_SHIFT) ∧
    (lsdc_dumb_size PAGE_SHIFT descp args = 0 →
      (lsdc_dumb_create PAGE_SHIFT env descp args).ret = -(EINVAL : Int) ∧
      (lsdc_dumb_create PAGE_SHIFT env descp args).created = none ∧
      (lsdc_dumb_create PAGE_SHIFT env descp args).args = args) ∧
    ((lsdc_dumb_create PAGE_SHIFT env descp args).ret = 0 →
      (lsdc_dumb_create PAGE_SHIFT env descp args).args.pitch =
        lsdc_dumb_pitch descp args % 2 ^ 32 ∧
      (lsdc_dumb_create PAGE_SHIFT env descp args).args.size =
        lsdc_dumb_size PAGE_SHIFT descp args ∧
      descp.pitch_align ∣ (lsdc_dumb_create PAGE_SHIFT env descp args).args.pitch ∧
      (lsdc_dumb_create PAGE_SHIFT env descp args).args.size ≠ 0 ∧
      2 ^ PAGE_SHIFT ∣ (lsdc_dumb_create PAGE_SHIFT env descp args).args.size) := by
  have hpitch := lsdc_dumb_pitch_eq descp args k hk hpa
  have hsize := lsdc_dumb_size_eq PAGE_SHIFT descp args k hk hpa hps hh
  obtain ⟨hpd, _⟩ := lsdc_dumb_pitch_bound descp args k hk hpa
  obtain ⟨hsd, hs64⟩ := lsdc_dumb_size_dvd PAGE_SHIFT descp args (by omega)
  refine ⟨hpitch, ?_, hsize, ?_, ?_⟩
  · intro hb hw
    rw [hpitch, Nat.mod_eq_of_lt hb, Nat.mod_eq_of_lt hw]
  · intro h0
    simp [lsdc_dumb_create, h0]
  · intro hret
    have hfin : ∀ lbo, (lsdc_dumb_create_handle env args (lsdc_dumb_pitch descp args)
        (lsdc_dumb_size PAGE_SHIFT descp args) lbo).ret = 0 →
        (lsdc_dumb_create_handle env args (lsdc_dumb_pitch descp args)
          (lsdc_dumb_size PAGE_SHIFT descp args) lbo).args =
          { args with
            pitch := lsdc_dumb_pitch descp args % 2 ^ 32
            size := lsdc_dumb_size PAGE_SHIFT descp args
            handle := u32 (env.drm_gem_handle_create lbo).2 } := by
      intro lbo h
      simp only [lsdc_dumb_create_handle] at h ⊢
      by_cases hr : (env.drm_gem_handle_create lbo).1 = 0
      · simp only [hr, ne_eq, not_true_eq_false, if_false, u32, u64, Nat.mod_eq_of_lt hs64]
      · simp [hr] at h
    have hargs : (lsdc_dumb_create PAGE_SHIFT env descp args).args.pitch =
          lsdc_dumb_pitch descp args % 2 ^ 32 ∧
        (lsdc_dumb_create PAGE_SHIFT env descp args).args.size =
          lsdc_dumb_size PAGE_SHIFT descp args ∧
        lsdc_dumb_size PAGE_SHIFT descp args ≠ 0 := by
      simp only [lsdc_dumb_create] at hret ⊢
      by_cases h0 : lsdc_dumb_size PAGE_SHIFT descp args = 0
      · simp [h0, EINVAL] at hret
      · simp only [h0, if_false] at hret ⊢
        cases hbo : lsdc_bo_create env (lsdc_dumb_size PAGE_SHIFT descp args) with
        | valid lbo =>
          simp only [hbo] at hret ⊢
          rw [hfin _ hret]
          exact ⟨rfl, rfl, h0⟩
        | bits b =>
          simp only [hbo] at hret ⊢
          by_cases he : IS_ERR b = true
          · simp only [he, if_true] at hret
            exact absurd hret (PTR_ERR_ne_zero b (lsdc_bo_create_bits_lt env _ b hbo) he)
          · rw [if_neg he] at hret ⊢
            rw [hfin _ hret]
            exact ⟨rfl, rfl, h0⟩
    obtain ⟨ha1, ha2, ha3⟩ := hargs
    refine ⟨ha1, ha2, ?_, ?_, ?_⟩
    · rw [ha1]
      exact (Nat.dvd_mod_iff (by rw [hpa]; exact Nat.pow_dvd_pow 2 hk)).2 hpd
    · rw [ha2]; exact ha3
    · rw [ha2]; exact hsd

/-- C1 at a concrete input: the LS7A2000 descriptor and the 1920x1080 mode. -/
theorem lsdc_crtc_mode_valid_first_failing_check_witness :
    dc_in_ls7a2000.pitch_align ≠ 0 ∧
    ((lsdc_crtc_mode_valid dc_in_ls7a2000 sample_mode = MODE_OK ↔
        (sample_mode.hdisplay ≤ dc_in_ls7a2000.max_width ∧
          sample_mode.vdisplay ≤ dc_in_ls7a2000.max_height ∧
          sample_mode.clock ≤ dc_in_ls7a2000.max_pixel_clk ∧
          dc_in_ls7a2000.pitch_align ∣ sample_mode.hdisplay * 4)) ∧
    (¬ sample_mode.hdisplay ≤ dc_in_ls7a2000.max_width →
        lsdc_crtc_mode_valid dc_in_ls7a2000 sample_mode = MODE_BAD_HVALUE) ∧
    (sample_mode.hdisplay ≤ dc_in_ls7a2000.max_width →
        ¬ sample_mode.vdisplay ≤ dc_in_ls7a2000.max_height →
        lsdc_crtc_mode_valid dc_in_ls7a2000 sample_mode = MODE_BAD_VVALUE) ∧
    (sample_mode.hdisplay ≤ dc_in_ls7a2000.max_width →
        sample_mode.vdisplay ≤ dc_in_ls7a2000.max_height →
        ¬ sample_mode.clock ≤ dc_in_ls7a2000.max_pixel_clk →
        lsdc_crtc_mode_valid dc_in_ls7a2000 sample_mode = MODE_CLOCK_HIGH) ∧
    (sample_mode.hdisplay ≤ dc_in_ls7a2000.max_width →
        sample_mode.vdisplay ≤ dc_in_ls7a2000.max_height →
        sample_mode.clock ≤ dc_in_ls7a2000.max_pixel_clk →
        ¬ dc_in_ls7a2000.pitch_align ∣ sample_mode.hdisplay * 4 →
        lsdc_crtc_mode_valid dc_in_ls7a2000 sample_mode = MODE_BAD)) :=
  ⟨by decide, lsdc_crtc_mode_valid_first_failing_check dc_in_ls7a2000 sample_mode (by decide)⟩

/-- C2 at a concrete input: pipe 1 of the sample device scans line 100 of the
1920x1080 mode, whose active region is lines 42 to 1122. -/
theorem lsdc_crtc_get_scanout_position_active_witness :
    (0x01000064 = lsdc_crtc_rreg32 lsdc_regs_sample sample_ldev
        lsdc_regs_sample.LSDC_CRTC0_SCAN_POS_REG 1 ∧
      (100 : Int) = ((0x01000064 % 65536 : Nat) : Int) ∧
      (42 : Int) = ((sample_mode.crtc_vsync_end : Int) - sample_mode.crtc_vsync_start) +
        ((sample_mode.crtc_vtotal : Int) - sample_mode.crtc_vsync_end) + 1 ∧
      (1122 : Int) = 42 + sample_mode.crtc_vdisplay ∧
      (42 : Int) ≤ 100 ∧ (100 : Int) ≤ 1122) ∧
    ((lsdc_crtc_get_scanout_position lsdc_regs_sample sample_ldev 1 sample_mode).ret = true ∧
    (lsdc_crtc_get_scanout_position lsdc_regs_sample sample_ldev 1 sample_mode).vpos =
      100 - 42 ∧
    0 ≤ (lsdc_crtc_get_scanout_position lsdc_regs_sample sample_ldev 1 sample_mode).vpos ∧
    (lsdc_crtc_get_scanout_position lsdc_regs_sample sample_ldev 1 sample_mode).vpos ≤
      sample_mode.crtc_vdisplay ∧
    (lsdc_crtc_get_scanout_position lsdc_regs_sample sample_ldev 1 sample_mode).hpos =
      ((0x01000064 / 65536 : Nat) : Int) ∧
    (lsdc_crtc_get_scanout_position lsdc_regs_sample sample_ldev 1 sample_mode).hpos < 65536) :=
  ⟨⟨by decide, by decide, by decide, by decide, by decide, by decide⟩,
    lsdc_crtc_get_scanout_position_active lsdc_regs_sample sample_ldev 1 sample_mode
      0x01000064 100 42 1122 (by decide) (by decide) (by decide) (by decide) (by decide)
      (by decide)⟩

/-- C3 at a concrete input: pipe 0 of the sample device scans line 5 of the
1920x1080 mode, 37 lines before the active region starts at line 42. -/
theorem lsdc_crtc_get_scanout_position_blank_witness :
    (0x00200005 = lsdc_crtc_rreg32 lsdc_regs_sample sample_ldev
        lsdc_regs_sample.LSDC_CRTC0_SCAN_POS_REG 0 ∧
      (5 : Int) = ((0x00200005 % 65536 : Nat) : Int) ∧
      (42 : Int) = ((sample_mode.crtc_vsync_end : Int) - sample_mode.crtc_vsync_start) +
        ((sample_mode.crtc_vtotal : Int) - sample_mode.crtc_vsync_end) + 1 ∧
      (1122 : Int) = 42 + sample_mode.crtc_vdisplay ∧
      sample_mode.crtc_vsync_start ≤ sample_mode.crtc_vsync_end ∧
      sample_mode.crtc_vsync_end ≤ sample_mode.crtc_vtotal ∧
      (5 : Int) ≤ sample_mode.crtc_vtotal ∧
      ((5 : Int) < 42 ∨ (1122 : Int) < 5)) ∧
    ((lsdc_crtc_get_scanout_position lsdc_regs_sample sample_ldev 0 sample_mode).vpos < 0 ∧
    ((5 : Int) < 42 →
      -(lsdc_crtc_get_scanout_position lsdc_regs_sample sample_ldev 0 sample_mode).vpos =
        42 - 5) ∧
    ((1122 : Int) < 5 →
      -(lsdc_crtc_get_scanout_position lsdc_regs_sample sample_ldev 0 sample_mode).vpos =
        ((sample_mode.crtc_vtotal : Int) - 5) + 42)) :=
  ⟨⟨by decide, by decide, by decide, by decide, by decide, by decide, by decide, by decide⟩,
    lsdc_crtc_get_scanout_position_blank lsdc_regs_sample sample_ldev 0 sample_mode
      0x00200005 5 42 1122 (by decide) (by decide) (by decide) (by decide) (by decide)
      (by decide) (by decide) (by decide)⟩

/-- C4 at a concrete input: pipe 1 of the sample device, whose configuration
register has `CFG_FB_IN_USING` set, and the pinned sample framebuffer. -/
theorem lsdc_primary_update_impl_selects_buffer_witness :
    (sample_fb.obj ⟨0, by decide⟩ = some sample_tbo ∧ sample_tbo.pin_count ≠ 0 ∧
      12 ≤ 14 ∧ 1 * lsdc_regs_sample.CRTC_PIPE_OFFSET < 2 ^ 32 ∧
      [lsdc_regs_sample.LSDC_CRTC0_FB0_LO_ADDR_REG, lsdc_regs_sample.LSDC_CRTC0_FB0_HI_ADDR_REG,
        lsdc_regs_sample.LSDC_CRTC0_FB1_LO_ADDR_REG, lsdc_regs_sample.LSDC_CRTC0_FB1_HI_ADDR_REG,
        lsdc_regs_sample.LSDC_CRTC0_STRIDE_REG, lsdc_regs_sample.LSDC_CRTC0_CFG_REG].Nodup) ∧
    ∃ ldev' new,
      lsdc_primary_update_impl lsdc_regs_sample 14 sample_ldev sample_fb 0 1 = some ldev' ∧
      ldev'.wlog = sample_ldev.wlog ++ new ∧
      (((pipe_reg_addr lsdc_regs_sample sample_ldev
              lsdc_regs_sample.LSDC_CRTC0_FB1_LO_ADDR_REG 1,
            (sample_ldev.vram_base + lsdc_bo_gpu_offset 14 sample_tbo + 0) % 2 ^ 64
              % 2 ^ 32) ∈ new ∧
          (pipe_reg_addr lsdc_regs_sample sample_ldev
              lsdc_regs_sample.LSDC_CRTC0_FB1_HI_ADDR_REG 1,
            (sample_ldev.vram_base + lsdc_bo_gpu_offset 14 sample_tbo + 0) % 2 ^ 64
              / 2 ^ 32 % 256) ∈ new) ↔
        lsdc_crtc_rreg32 lsdc_regs_sample sample_ldev lsdc_regs_sample.LSDC_CRTC0_CFG_REG 1
          &&& lsdc_regs_sample.CFG_FB_IN_USING ≠ 0) ∧
      (((pipe_reg_addr lsdc_regs_sample sample_ldev
              lsdc_regs_sample.LSDC_CRTC0_FB0_LO_ADDR_REG 1,
            (sample_ldev.vram_base + lsdc_bo_gpu_offset 14 sample_tbo + 0) % 2 ^ 64
              % 2 ^ 32) ∈ new ∧
          (pipe_reg_addr lsdc_regs_sample sample_ldev
              lsdc_regs_sample.LSDC_CRTC0_FB0_HI_ADDR_REG 1,
            (sample_ldev.vram_base + lsdc_bo_gpu_offset 14 sample_tbo + 0) % 2 ^ 64
              / 2 ^ 32 % 256) ∈ new) ↔
        lsdc_crtc_rreg32 lsdc_regs_sample sample_ldev lsdc_regs_sample.LSDC_CRTC0_CFG_REG 1
          &&& lsdc_regs_sample.CFG_FB_IN_USING = 0) ∧
      (lsdc_crtc_rreg32 lsdc_regs_sample sample_ldev lsdc_regs_sample.LSDC_CRTC0_CFG_REG 1
          &&& lsdc_regs_sample.CFG_FB_IN_USING ≠ 0 →
        ∀ w ∈ new,
          w.1 ≠ pipe_reg_addr lsdc_regs_sample sample_ldev
            lsdc_regs_sample.LSDC_CRTC0_FB0_LO_ADDR_REG 1 ∧
          w.1 ≠ pipe_reg_addr lsdc_regs_sample sample_ldev
            lsdc_regs_sample.LSDC_CRTC0_FB0_HI_ADDR_REG 1) ∧
      (lsdc_crtc_rreg32 lsdc_regs_sample sample_ldev lsdc_regs_sample.LSDC_CRTC0_CFG_REG 1
          &&& lsdc_regs_sample.CFG_FB_IN_USING = 0 →
        ∀ w ∈ new,
          w.1 ≠ pipe_reg_addr lsdc_regs_sample sample_ldev
            lsdc_regs_sample.LSDC_CRTC0_FB1_LO_ADDR_REG 1 ∧
          w.1 ≠ pipe_reg_addr lsdc_regs_sample sample_ldev
            lsdc_regs_sample.LSDC_CRTC0_FB1_HI_ADDR_REG 1) :=
  ⟨⟨rfl, by decide, by decide, by decide, by decide⟩,
    lsdc_primary_update_impl_selects_buffer lsdc_regs_sample 14 sample_ldev sample_fb
      sample_tbo 0 1 rfl (by decide) (by decide) (by decide) (by decide)⟩

/-- C5 at a concrete input: plane 0 of the sample framebuffer shown from pixel
(16, 2) gives the offset 4 * 16 + 7680 * 2, and shown from fractional source
coordinates below 1.0 gives offset 0. -/
theorem lsdc_get_fb_offset_formula_witness :
    lsdc_get_fb_offset sample_fb sample_plane_state ⟨0, by decide⟩ = 15424 ∧
    (sample_fb.offsets ⟨0, by decide⟩ < 2 ^ 32 ∧ sample_plane_state_origin.src_x < 2 ^ 16 ∧
      sample_plane_state_origin.src_y < 2 ^ 16) ∧
    lsdc_get_fb_offset sample_fb sample_plane_state_origin ⟨0, by decide⟩ =
      sample_fb.offsets ⟨0, by decide⟩ :=
  ⟨(lsdc_get_fb_offset_formula sample_fb sample_plane_state ⟨0, by decide⟩).1.trans
      (by decide),
    ⟨by decide, by decide, by decide⟩,
    (lsdc_get_fb_offset_formula sample_fb sample_plane_state_origin ⟨0, by decide⟩).2
      (by decide) (by decide) (by decide)⟩

/-- C6 at a concrete input: the pinned sample framebuffer on pipe 0 of the
sample device. -/
theorem lsdc_primary_update_impl_addr_split_witness :
    (sample_fb.obj ⟨0, by decide⟩ = some sample_tbo ∧ sample_tbo.pin_count ≠ 0 ∧ 12 ≤ 14) ∧
    (∀ descp ∈ lsdc_descs, descp.mc_bits = 40) ∧
    ∃ ldev' fb_addr a_lo lo a_hi hi rest,
      lsdc_primary_update_impl lsdc_regs_sample 14 sample_ldev sample_fb 15424 0 = some ldev' ∧
      ldev'.wlog = sample_ldev.wlog ++ (a_lo, lo) :: (a_hi, hi) :: rest ∧
      fb_addr = (sample_ldev.vram_base + lsdc_bo_gpu_offset 14 sample_tbo + 15424) % 2 ^ 64 ∧
      lo = fb_addr % 2 ^ 32 ∧
      hi = (fb_addr >>> 32) &&& 0xFF ∧
      hi < 256 ∧
      (fb_addr < 2 ^ 40 → hi * 2 ^ 32 + lo = fb_addr) :=
  ⟨⟨rfl, by decide, by decide⟩,
    lsdc_primary_update_impl_addr_split lsdc_regs_sample 14 sample_ldev sample_fb sample_tbo
      15424 0 rfl (by decide) (by decide)⟩

/-- C7 at a concrete input: the 1920x1080 mode on pipe 1 of the LS7A2000 sample
device; 7680 bytes a line is a multiple of 256. -/
theorem lsdc_crtc_enable_dma_step_largest_witness :
    (lsdc_crtc_enable_timing lsdc_regs_sample sample_ldev 1 sample_mode =
        lsdc_crtc_enable_timing lsdc_regs_sample sample_ldev 1 sample_mode ∧
      ((lsdc_crtc_enable_timing lsdc_regs_sample sample_ldev 1 sample_mode).descp.chip =
          CHIP_LS7A2000 ∨
        (lsdc_crtc_enable_timing lsdc_regs_sample sample_ldev 1 sample_mode).descp.chip =
          CHIP_LS2K2000) ∧
      32 ∣ sample_mode.crtc_hdisplay * 4 ∧
      lsdc_regs_sample.CFG_DMA_STEP_MASK < 2 ^ 32 ∧
      (∀ bytes ∈ [256, 128, 64, 32],
        dma_step_code lsdc_regs_sample bytes &&& lsdc_regs_sample.CFG_DMA_STEP_MASK =
          dma_step_code lsdc_regs_sample bytes)) ∧
    (lsdc_crtc_enable lsdc_regs_sample sample_enable_env sample_ldev 1 sample_mode =
        lsdc_crtc_ureg32_set lsdc_regs_sample
          (sample_enable_env.drm_crtc_vblank_on (sample_enable_env.pixpll_update
            (lsdc_crtc_enable_dma_step lsdc_regs_sample
              (lsdc_crtc_enable_timing lsdc_regs_sample sample_ldev 1 sample_mode) 1
              sample_mode)))
          lsdc_regs_sample.LSDC_CRTC0_CFG_REG 1 lsdc_regs_sample.CFG_OUTPUT_EN ∧
    ∃ step val,
      (lsdc_crtc_enable_dma_step lsdc_regs_sample
          (lsdc_crtc_enable_timing lsdc_regs_sample sample_ldev 1 sample_mode) 1
          sample_mode).wlog =
        (lsdc_crtc_enable_timing lsdc_regs_sample sample_ldev 1 sample_mode).wlog ++
          [((lsdc_crtc_enable_timing lsdc_regs_sample sample_ldev 1 sample_mode).reg_base +
              lsdc_regs_sample.LSDC_CRTC0_CFG_REG +
              u32 (1 * lsdc_regs_sample.CRTC_PIPE_OFFSET),
            val)] ∧
      step ∈ [256, 128, 64, 32] ∧ step ∣ sample_mode.crtc_hdisplay * 4 ∧
      (∀ bytes ∈ [256, 128, 64, 32], bytes ∣ sample_mode.crtc_hdisplay * 4 → bytes ≤ step) ∧
      val &&& lsdc_regs_sample.CFG_DMA_STEP_MASK = dma_step_code lsdc_regs_sample step ∧
      ∀ i, lsdc_regs_sample.CFG_DMA_STEP_MASK.testBit i = false →
        val.testBit i =
          (lsdc_crtc_rreg32 lsdc_regs_sample
            (lsdc_crtc_enable_timing lsdc_regs_sample sample_ldev 1 sample_mode)
            lsdc_regs_sample.LSDC_CRTC0_CFG_REG 1).testBit i) :=
  ⟨⟨rfl, Or.inl rfl, by decide, by decide, by decide⟩,
    lsdc_crtc_enable_dma_step_largest lsdc_regs_sample sample_enable_env sample_ldev
      (lsdc_crtc_enable_timing lsdc_regs_sample sample_ldev 1 sample_mode) 1 sample_mode
      rfl (Or.inl rfl) (by decide) (by decide) (by decide)⟩

/-- C8 at a concrete input: the configuration register of pipe 1 of the sample
device and the mask `CFG_OUTPUT_EN`. -/
theorem lsdc_crtc_accessors_pipe_offset_witness :
    1 * lsdc_regs_sample.CRTC_PIPE_OFFSET < 2 ^ 32 ∧
    ((lsdc_crtc_rreg32 lsdc_regs_sample sample_ldev 0x1240 1 =
        readl sample_ldev (pipe_reg_addr lsdc_regs_sample sample_ldev 0x1240 1) ∧
      lsdc_crtc_wreg32 lsdc_regs_sample sample_ldev 0x1240 1 0x104 =
        writel 0x104 (pipe_reg_addr lsdc_regs_sample sample_ldev 0x1240 1) sample_ldev ∧
      lsdc_crtc_ureg32_set lsdc_regs_sample sample_ldev 0x1240 1 0x100 =
        writel (readl sample_ldev (pipe_reg_addr lsdc_regs_sample sample_ldev 0x1240 1)
            ||| 0x100)
          (pipe_reg_addr lsdc_regs_sample sample_ldev 0x1240 1) sample_ldev ∧
      lsdc_crtc_ureg32_clr lsdc_regs_sample sample_ldev 0x1240 1 0x100 =
        writel (readl sample_ldev (pipe_reg_addr lsdc_regs_sample sample_ldev 0x1240 1)
            &&& u32_not 0x100)
          (pipe_reg_addr lsdc_regs_sample sample_ldev 0x1240 1) sample_ldev) ∧
    (lsdc_crtc_rreg32 lsdc_regs_sample sample_ldev 0x1240 0 = lsdc_rreg32 sample_ldev 0x1240 ∧
      lsdc_crtc_wreg32 lsdc_regs_sample sample_ldev 0x1240 0 0x104 =
        lsdc_wreg32 sample_ldev 0x1240 0x104 ∧
      lsdc_crtc_ureg32_set lsdc_regs_sample sample_ldev 0x1240 0 0x100 =
        lsdc_ureg32_set sample_ldev 0x1240 0x100 ∧
      lsdc_crtc_ureg32_clr lsdc_regs_sample sample_ldev 0x1240 0 0x100 =
        lsdc_ureg32_clr sample_ldev 0x1240 0x100) ∧
    (∀ i, (0x100 : Nat).testBit i = false →
      (readl (lsdc_crtc_ureg32_set lsdc_regs_sample sample_ldev 0x1240 1 0x100)
          (pipe_reg_addr lsdc_regs_sample sample_ldev 0x1240 1)).testBit i =
        (lsdc_crtc_rreg32 lsdc_regs_sample sample_ldev 0x1240 1).testBit i ∧
      (readl (lsdc_crtc_ureg32_clr lsdc_regs_sample sample_ldev 0x1240 1 0x100)
          (pipe_reg_addr lsdc_regs_sample sample_ldev 0x1240 1)).testBit i =
        (lsdc_crtc_rreg32 lsdc_regs_sample sample_ldev 0x1240 1).testBit i)) :=
  ⟨by decide,
    lsdc_crtc_accessors_pipe_offset lsdc_regs_sample sample_ldev 0x1240 1 0x104 0x100
      (by decide)⟩

/-- C10 as stated fails: for 2^30 + 1 pixels of 32 bits on an LS7A1000
(`pitch_align` 256, 16 KiB pages) width * ceil(bpp / 8) is 2^32 + 4, which
rounded up to a multiple of 256 is 4294967552, and one line of that rounded up
to a page is 4294983680; `lsdc_dumb_create` computes the pitch 256 from the
32-bit product 4, the size 16384, and returns 0 with these written to `args`. -/
theorem lsdc_dumb_create_pitch_wraps :
    round_up_to_multiple (wide_dumb_args.width * ((wide_dumb_args.bpp + 7) / 8))
        dc_in_ls7a1000.pitch_align = 4294967552 ∧
    round_up_to_multiple (4294967552 * wide_dumb_args.height) (2 ^ 14) = 4294983680 ∧
    lsdc_dumb_pitch dc_in_ls7a1000 wide_dumb_args = 256 ∧
    lsdc_dumb_size 14 dc_in_ls7a1000 wide_dumb_args = 16384 ∧
    (lsdc_dumb_create 14 dumb_create_env_ok dc_in_ls7a1000 wide_dumb_args).ret = 0 ∧
    (lsdc_dumb_create 14 dumb_create_env_ok dc_in_ls7a1000 wide_dumb_args).args.pitch = 256 ∧
    (lsdc_dumb_create 14 dumb_create_env_ok dc_in_ls7a1000 wide_dumb_args).args.size =
      16384 := by
  refine ⟨by decide, by decide, by decide, by decide, by decide, by decide, by decide⟩

/-- C10 (as amended) at a concrete input: a 1920x1080 buffer of 32 bits a pixel
on an LS7A2000 (`pitch_align` 64 = 2^6) with 16 KiB pages. -/
theorem lsdc_dumb_create_contract_witness :
    (6 ≤ 32 ∧ dc_in_ls7a2000.pitch_align = 2 ^ 6 ∧ 14 ≤ 32 ∧ sample_dumb_args.height < 2 ^ 32) ∧
    (lsdc_dumb_pitch dc_in_ls7a2000 sample_dumb_args =
        round_up_to_multiple
          ((sample_dumb_args.width * ((sample_dumb_args.bpp + 7) % 2 ^ 32 / 8)) % 2 ^ 32)
          dc_in_ls7a2000.pitch_align ∧
    (sample_dumb_args.bpp + 7 < 2 ^ 32 →
      sample_dumb_args.width * ((sample_dumb_args.bpp + 7) / 8) < 2 ^ 32 →
      lsdc_dumb_pitch dc_in_ls7a2000 sample_dumb_args =
        round_up_to_multiple (sample_dumb_args.width * ((sample_dumb_args.bpp + 7) / 8))
          dc_in_ls7a2000.pitch_align) ∧
    lsdc_dumb_size 14 dc_in_ls7a2000 sample_dumb_args =
        round_up_to_multiple
          (lsdc_dumb_pitch dc_in_ls7a2000 sample_dumb_args * sample_dumb_args.height)
          (2 ^ 14) ∧
    (lsdc_dumb_size 14 dc_in_ls7a2000 sample_dumb_args = 0 →
      (lsdc_dumb_create 14 dumb_create_env_ok dc_in_ls7a2000 sample_dumb_args).ret =
        -(EINVAL : Int) ∧
      (lsdc_dumb_create 14 dumb_create_env_ok dc_in_ls7a2000 sample_dumb_args).created = none ∧
      (lsdc_dumb_create 14 dumb_create_env_ok dc_in_ls7a2000 sample_dumb_args).args =
        sample_dumb_args) ∧
    ((lsdc_dumb_create 14 dumb_create_env_ok dc_in_ls7a2000 sample_dumb_args).ret = 0 →
      (lsdc_dumb_create 14 dumb_create_env_ok dc_in_ls7a2000 sample_dumb_args).args.pitch =
        lsdc_dumb_pitch dc_in_ls7a2000 sample_dumb_args % 2 ^ 32 ∧
      (lsdc_dumb_create 14 dumb_create_env_ok dc_in_ls7a2000 sample_dumb_args).args.size =
        lsdc_dumb_size 14 dc_in_ls7a2000 sample_dumb_args ∧
      dc_in_ls7a2000.pitch_align ∣
        (lsdc_dumb_create 14 dumb_create_env_ok dc_in_ls7a2000 sample_dumb_args).args.pitch ∧
      (lsdc_dumb_create 14 dumb_create_env_ok dc_in_ls7a2000 sample_dumb_args).args.size ≠ 0 ∧
      2 ^ 14 ∣
        (lsdc_dumb_create 14 dumb_create_env_ok dc_in_ls7a2000 sample_dumb_args).args.size)) :=
  ⟨⟨by decide, by decide, by decide, by decide⟩,
    lsdc_dumb_create_contract 14 dumb_create_env_ok dc_in_ls7a2000 sample_dumb_args 6
      (by decide) (by decide) (by decide) (by decide)⟩

/-- C14: for every entry of `lsdc_pciid_list` a device can match,
`lsdc_detect_chip` returns a descriptor: for device 0x7a06 (driver_data
`CHIP_LS7A1000`) the LS2K1000 descriptor if `lsdc_is_ls2k1000` and the
LS7A1000 descriptor otherwise, for device 0x7a36 (driver_data `CHIP_LS7A2000`)
the LS2K2000 descriptor if `lsdc_is_ls2k2000` and the LS7A2000 descriptor
otherwise; for any other driver_data it returns NULL. -/
theorem lsdc_detect_chip_by_pciid (env : probe_env) :
    (∀ ent ∈ pci_id_entries lsdc_pciid_list, env.driver_data = ent.driver_data →
      (ent.device = 0x7a06 ∨ ent.device = 0x7a36) ∧
      (ent.device = 0x7a06 → ent.driver_data = CHIP_LS7A1000.val ∧
        lsdc_detect_chip env =
          some (if lsdc_is_ls2k1000 env then dc_in_ls2k1000 else dc_in_ls7a1000)) ∧
      (ent.device = 0x7a36 → ent.driver_data = CHIP_LS7A2000.val ∧
        lsdc_detect_chip env =
          some (if lsdc_is_ls2k2000 env then dc_in_ls2k2000 else dc_in_ls7a2000)) ∧
      lsdc_detect_chip env ≠ none) ∧
    (env.driver_data ≠ CHIP_LS7A1000.val → env.driver_data ≠ CHIP_LS7A2000.val →
      lsdc_detect_chip env = none) := by
  have hlist : pci_id_entries lsdc_pciid_list =
      [ { vendor := PCI_VENDOR_ID_LOONGSON, device := 0x7a06, subvendor := PCI_ANY_ID,
          subdevice := PCI_ANY_ID, class_ := 0, class_mask := 0,
          driver_data := CHIP_LS7A1000.val },
        { vendor := PCI_VENDOR_ID_LOONGSON, device := 0x7a36, subvendor := PCI_ANY_ID,
          subdevice := PCI_ANY_ID, class_ := 0, class_mask := 0,
          driver_data := CHIP_LS7A2000.val } ] := by decide
  constructor
  · intro ent hent hdd
    rw [hlist] at hent
    simp only [List.mem_cons, List.mem_singleton, List.not_mem_nil, or_false] at hent
    rcases hent with rfl | rfl
    · simp only [loongson_chip_family.val] at hdd
      refine ⟨Or.inl rfl, ?_, ?_, ?_⟩
      · intro _
        refine ⟨rfl, ?_⟩
        simp only [lsdc_detect_chip, hdd, loongson_chip_family.val]
        cases lsdc_is_ls2k1000 env <;> simp
      · intro h; exact absurd h (by decide)
      · simp only [lsdc_detect_chip, hdd, loongson_chip_family.val]
        cases lsdc_is_ls2k1000 env <;> simp
    · simp only [loongson_chip_family.val] at hdd
      refine ⟨Or.inr rfl, ?_, ?_, ?_⟩
      · intro h; exact absurd h (by decide)
      · intro _
        refine ⟨rfl, ?_⟩
        simp only [lsdc_detect_chip, hdd, loongson_chip_family.val]
        cases lsdc_is_ls2k2000 env <;> simp
      · simp only [lsdc_detect_chip, hdd, loongson_chip_family.val]
        cases lsdc_is_ls2k2000 env <;> simp
  · intro h1 h2
    simp only [lsdc_detect_chip, h1, h2, if_false]

/-- C17: for a buffer object whose pin count is 0, `lsdc_bo_gpu_offset` returns
-ENODEV as a `u64`, an error value, and `lsdc_primary_update_impl` on a
framebuffer whose object 0 it is returns with the device as it was: no
register is written. -/
theorem lsdc_primary_update_impl_unpinned (R : lsdc_regs_h) (PAGE_SHIFT : Nat)
    (ldev : lsdc_device) (fb : drm_framebuffer) (tbo : ttm_buffer_object)
    (fb_offset pipe : Nat)
    (hobj : fb.obj ⟨0, by decide⟩ = some tbo) (hpin : tbo.pin_count = 0) :
    lsdc_bo_gpu_offset PAGE_SHIFT tbo = int_to_u64 (-(ENODEV : Int)) ∧
    lsdc_bo_gpu_offset PAGE_SHIFT tbo = 2 ^ 64 - 19 ∧
    IS_ERR (lsdc_bo_gpu_offset PAGE_SHIFT tbo) = true ∧
    lsdc_primary_update_impl R PAGE_SHIFT ldev fb fb_offset pipe = some ldev ∧
    ∀ ldev', lsdc_primary_update_impl R PAGE_SHIFT ldev fb fb_offset pipe = some ldev' →
      ldev'.wlog = ldev.wlog := by
  have hoff : lsdc_bo_gpu_offset PAGE_SHIFT tbo = int_to_u64 (-(ENODEV : Int)) := by
    simp only [lsdc_bo_gpu_offset, hpin, if_true]
  have hval : int_to_u64 (-(ENODEV : Int)) = 2 ^ 64 - 19 := by decide
  have herr : IS_ERR (lsdc_bo_gpu_offset PAGE_SHIFT tbo) = true := by
    rw [hoff, hval]; decide
  have himpl : lsdc_primary_update_impl R PAGE_SHIFT ldev fb fb_offset pipe = some ldev := by
    simp only [lsdc_primary_update_impl, hobj, herr, if_true]
  refine ⟨hoff, hoff.trans hval, herr, himpl, ?_⟩
  intro ldev' h
  rw [himpl] at h
  cases h
  rfl

/-- C17 at a concrete input: the unpinned sample framebuffer on pipe 1 of the
sample device. -/
theorem lsdc_primary_update_impl_unpinned_witness :
    (sample_fb_unpinned.obj ⟨0, by decide⟩ = some sample_tbo_unpinned ∧
      sample_tbo_unpinned.pin_count = 0) ∧
    (lsdc_bo_gpu_offset 14 sample_tbo_unpinned = int_to_u64 (-(ENODEV : Int)) ∧
    lsdc_bo_gpu_offset 14 sample_tbo_unpinned = 2 ^ 64 - 19 ∧
    IS_ERR (lsdc_bo_gpu_offset 14 sample_tbo_unpinned) = true ∧
    lsdc_primary_update_impl lsdc_regs_sample 14 sample_ldev sample_fb_unpinned 0 1 =
      some sample_ldev ∧
    ∀ ldev', lsdc_primary_update_impl lsdc_regs_sample 14 sample_ldev sample_fb_unpinned 0 1 =
        some ldev' →
      ldev'.wlog = sample_ldev.wlog) :=
  ⟨⟨rfl, rfl⟩,
    lsdc_primary_update_impl_unpinned lsdc_regs_sample 14 sample_ldev sample_fb_unpinned
      sample_tbo_unpinned 0 1 rfl rfl⟩

/-- C19: for each of the four chip descriptors `lsdc_cursor_plane_preinit`
gives the cursor of pipe 0 the CURSOR0 functions, and the cursor of pipe 1 the
CURSOR1 functions exactly when `num_of_hw_cursor` is 2 and the CURSOR0
functions with the quirk configuration exactly when `num_of_hw_cursor` is 1. -/
theorem lsdc_cursor_plane_preinit_by_hw_cursors :
    ∀ descp ∈ lsdc_descs,
      lsdc_cursor_plane_preinit descp 0 = cursor_lowing_funcs_pipe0 ∧
      (lsdc_cursor_plane_preinit descp 0).update_position =
        cursor_position_fn.cursor0_position ∧
      (lsdc_cursor_plane_preinit descp 0).update_config = cursor_config_fn.cursor0_config ∧
      (lsdc_cursor_plane_preinit descp 0).update_offset = cursor_offset_fn.cursor0_offset ∧
      (lsdc_cursor_plane_preinit descp 1 = cursor_lowing_funcs_pipe1 ↔
        descp.num_of_hw_cursor = 2) ∧
      (lsdc_cursor_plane_preinit descp 1 = cursor_lowing_funcs_pipe1_quirk ↔
        descp.num_of_hw_cursor = 1) ∧
      (descp.num_of_hw_cursor = 2 →
        (lsdc_cursor_plane_preinit descp 1).update_position =
          cursor_position_fn.cursor1_position ∧
        (lsdc_cursor_plane_preinit descp 1).update_config = cursor_config_fn.cursor1_config ∧
        (lsdc_cursor_plane_preinit descp 1).update_offset =
          cursor_offset_fn.cursor1_offset) ∧
      (descp.num_of_hw_cursor = 1 →
        (lsdc_cursor_plane_preinit descp 1).update_position =
          cursor_position_fn.cursor0_position ∧
        (lsdc_cursor_plane_preinit descp 1).update_config =
          cursor_config_fn.cursor0_config_quirk ∧
        (lsdc_cursor_plane_preinit descp 1).update_offset =
          cursor_offset_fn.cursor0_offset) ∧
      (descp.num_of_hw_cursor = 1 ∨ descp.num_of_hw_cursor = 2) := by
  decide

/-- C18 (the code at the failing input): on an LS7A1000, which has one hardware
cursor, with the tables `lsdc_cursor_plane_preinit` chose, the calls
`update_config` for pipe 0, for pipe 1 and for pipe 0 again, each with the
configuration `lsdc_cursor_atomic_update` passes, leave `CURSOR_LOCATION` set
in `LSDC_CURSOR0_CFG_REG` although the last call was made for pipe 0: the third
call finds its `cfg` cached and writes nothing. -/
theorem cursor_location_stale_after_pipe0_call :
    sample_cursor_state.ldev.descp.num_of_hw_cursor = 1 ∧
    sample_cursor_state.cursor0.funcs = some cursor_lowing_funcs_pipe0 ∧
    sample_cursor_state.cursor1.funcs = some cursor_lowing_funcs_pipe1_quirk ∧
    (cursor_update_configs lsdc_cursor_regs_sample sample_cursor_state
        [(0, 0x6), (1, 0x6), (0, 0x6)]).map (fun st => st.ldev.wlog) =
      some [(0x10011520, 0x6), (0x10011520, 0x16)] ∧
    (cursor_update_configs lsdc_cursor_regs_sample sample_cursor_state
        [(0, 0x6), (1, 0x6), (0, 0x6)]).map
      (fun st => lsdc_rreg32 st.ldev lsdc_cursor_regs_sample.LSDC_CURSOR0_CFG_REG
        &&& lsdc_cursor_regs_sample.CURSOR_LOCATION) = some 0x10 ∧
    (cursor_update_configs lsdc_cursor_regs_sample sample_cursor_state
        [(0, 0x6), (1, 0x6)]).map
      (fun st => lsdc_rreg32 st.ldev lsdc_cursor_regs_sample.LSDC_CURSOR0_CFG_REG
        &&& lsdc_cursor_regs_sample.CURSOR_LOCATION) = some 0x10 ∧
    (cursor_update_configs lsdc_cursor_regs_sample sample_cursor_state
        [(0, 0x6)]).map
      (fun st => lsdc_rreg32 st.ldev lsdc_cursor_regs_sample.LSDC_CURSOR0_CFG_REG
        &&& lsdc_cursor_regs_sample.CURSOR_LOCATION) = some 0 := by
  refine ⟨by decide, by decide, by decide, by decide, by decide, by decide, by decide⟩

/-- C13: `lsdc_bo_reserve_io_mem` returns 0 and leaves the resource unchanged
for `TTM_PL_SYSTEM`; for `TTM_PL_VRAM` it returns 0, sets `bus.offset` to
`(start << PAGE_SHIFT) + vram_base` on 64 bits (the plain sum whenever that
fits in 64 bits), `bus.is_iomem` to true and `bus.caching` to `ttm_cached` on a
SoC and `ttm_write_combined` otherwise, and changes nothing else; for every
other memory type it returns `-EINVAL` and leaves the resource unchanged. -/
theorem lsdc_bo_reserve_io_mem_by_mem_type (PAGE_SHIFT : Nat) (ldev : lsdc_device)
    (mem : ttm_io_resource) :
    (mem.mem_type = TTM_PL_SYSTEM →
      lsdc_bo_reserve_io_mem PAGE_SHIFT ldev mem = (0, mem)) ∧
    (mem.mem_type = TTM_PL_VRAM →
      (lsdc_bo_reserve_io_mem PAGE_SHIFT ldev mem).1 = 0 ∧
      (lsdc_bo_reserve_io_mem PAGE_SHIFT ldev mem).2.bus.offset =
        ((mem.start <<< PAGE_SHIFT) + ldev.vram_base) % 2 ^ 64 ∧
      ((mem.start <<< PAGE_SHIFT) + ldev.vram_base < 2 ^ 64 →
        (lsdc_bo_reserve_io_mem PAGE_SHIFT ldev mem).2.bus.offset =
          (mem.start <<< PAGE_SHIFT) + ldev.vram_base) ∧
      (lsdc_bo_reserve_io_mem PAGE_SHIFT ldev mem).2.bus.is_iomem = true ∧
      (lsdc_bo_reserve_io_mem PAGE_SHIFT ldev mem).2.bus.caching =
        (if ldev.descp.is_soc = true then ttm_caching.ttm_cached
         else ttm_caching.ttm_write_combined) ∧
      (lsdc_bo_reserve_io_mem PAGE_SHIFT ldev mem).2.mem_type = mem.mem_type ∧
      (lsdc_bo_reserve_io_mem PAGE_SHIFT ldev mem).2.start = mem.start) ∧
    (mem.mem_type ≠ TTM_PL_SYSTEM → mem.mem_type ≠ TTM_PL_VRAM →
      lsdc_bo_reserve_io_mem PAGE_SHIFT ldev mem = (-(EINVAL : Int), mem) ∧
      (lsdc_bo_reserve_io_mem PAGE_SHIFT ldev mem).1 = -22) := by
  refine ⟨?_, ?_, ?_⟩
  · intro h
    simp [lsdc_bo_reserve_io_mem, h]
  · intro h
    have hne : ¬ (TTM_PL_VRAM = TTM_PL_SYSTEM) := by decide
    have hoff : u64 (u64 (mem.start <<< PAGE_SHIFT) + ldev.vram_base) =
        ((mem.start <<< PAGE_SHIFT) + ldev.vram_base) % 2 ^ 64 := by
      unfold u64
      omega
    have hr : lsdc_bo_reserve_io_mem PAGE_SHIFT ldev mem =
        (0, { mem with bus :=
          { offset := u64 (u64 (mem.start <<< PAGE_SHIFT) + ldev.vram_base)
            is_iomem := true
            caching := if ldev.descp.is_soc = true then ttm_caching.ttm_cached
              else ttm_caching.ttm_write_combined } }) := by
      unfold lsdc_bo_reserve_io_mem
      simp only [h, hne, if_false, if_true]
      cases ldev.descp.is_soc <;> simp
    rw [hr]
    refine ⟨rfl, hoff, ?_, rfl, rfl, rfl, rfl⟩
    intro hfit
    show u64 (u64 (mem.start <<< PAGE_SHIFT) + ldev.vram_base) = _
    rw [hoff, Nat.mod_eq_of_lt hfit]
  · intro h1 h2
    have hr : lsdc_bo_reserve_io_mem PAGE_SHIFT ldev mem = (-(EINVAL : Int), mem) := by
      simp [lsdc_bo_reserve_io_mem, h1, h2]
    rw [hr]
    exact ⟨rfl, by simp [EINVAL]⟩

/-- The page size is the power of two of the page shift when that fits 64 bits. -/
theorem PAGE_SIZE_eq (PAGE_SHIFT : Nat) (hps : PAGE_SHIFT < 64) :
    PAGE_SIZE PAGE_SHIFT = 2 ^ PAGE_SHIFT := by
  simp only [PAGE_SIZE, u64, Nat.shiftLeft_eq, Nat.one_mul]
  exact Nat.mod_eq_of_lt (Nat.pow_lt_pow_right (by norm_num) hps)

/-- `DIV_ROUND_UP` on `unsigned long`s is the rounded-up quotient when the sum
does not carry out of 64 bits. -/
theorem DIV_ROUND_UP_ulong_eq (n d : Nat) (hd : 0 < d) (hfit : n + d ≤ 2 ^ 64) :
    DIV_ROUND_UP_ulong n d = (n + d - 1) / d := by
  have h : u64 (u64 (n + d) + (2 ^ 64 - 1)) = n + d - 1 := by
    unfold u64
    omega
  rw [DIV_ROUND_UP_ulong, h]

/-- The local `fbsize` of `lsdc_bo_size_valid` when the `int` product fits. -/
theorem fbsize_of_small (p : Nat) (hp : p < 2 ^ 31) :
    u64 (int_to_u64 (int_wrap (p : Int)) * 4) = p * 4 := by
  unfold u64 int_to_u64 int_wrap
  omega

/-- The local `fbsize` of `lsdc_bo_size_valid` when the `int` product wraps. -/
theorem fbsize_of_large (p : Nat) (hp : 2 ^ 31 ≤ p) (hp32 : p < 2 ^ 32) :
    u64 (int_to_u64 (int_wrap (p : Int)) * 4) = 2 ^ 64 + p * 4 - 2 ^ 34 := by
  unfold u64 int_to_u64 int_wrap
  omega

/-- A number is at most its rounded-up quotient times the divisor. -/
theorem le_div_round_up_mul (x d : Nat) (hd : 0 < d) : x ≤ (x + d - 1) / d * d := by
  have h1 := Nat.div_add_mod (x + d - 1) d
  have h2 := Nat.mod_lt (x + d - 1) hd
  have h3 : d * ((x + d - 1) / d) = (x + d - 1) / d * d := Nat.mul_comm _ _
  generalize (x + d - 1) / d * d = t at *
  generalize d * ((x + d - 1) / d) = s at *
  omega

/-- C16 (counterexample): for a 65535x65535 mode on a device with 1 TiB of
video memory and 16 KiB pages, `lsdc_bo_size_valid` returns `MODE_MEM` although
the 1048545 pages of the framebuffer do not exceed the 33554432 pages of half
the video memory: the `int` product of the two sizes wraps. -/
theorem lsdc_bo_size_valid_product_wraps :
    lsdc_bo_size_valid 14 huge_vram_ldev huge_mode = drm_mode_status.MODE_MEM ∧
    (huge_mode.hdisplay * huge_mode.vdisplay * 4 + 2 ^ 14 - 1) / 2 ^ 14 = 1048545 ∧
    (huge_vram_ldev.vram_size / 2) >>> 14 = 33554432 ∧
    ¬ ((huge_mode.hdisplay * huge_mode.vdisplay * 4 + 2 ^ 14 - 1) / 2 ^ 14 >
      (huge_vram_ldev.vram_size / 2) >>> 14) := by
  refine ⟨?_, by decide, by decide, by decide⟩
  have hp : ((huge_mode.hdisplay : Int) * (huge_mode.vdisplay : Int)) = ((4294836225 : Nat) : Int) := by
    simp [huge_mode]
  have hsz := fbsize_of_large 4294836225 (by norm_num) (by norm_num)
  have hdiv := DIV_ROUND_UP_ulong_eq (2 ^ 64 + 4294836225 * 4 - 2 ^ 34) (2 ^ 14)
    (by norm_num) (by norm_num)
  unfold lsdc_bo_size_valid
  simp only [hp, hsz, PAGE_SIZE_eq 14 (by norm_num), hdiv]
  decide

/-- C16 (amended): for a mode with 16-bit sizes, a 64-bit video memory size and
pages of at most 256 KiB, when `hdisplay * vdisplay` is below 2^31
`lsdc_bo_size_valid` returns `MODE_MEM` if and only if
`ceil(hdisplay * vdisplay * 4 / PAGE_SIZE)` exceeds
`(vram_size / 2) >> PAGE_SHIFT`, and `MODE_OK` otherwise; for a larger product
it returns `MODE_MEM`; and every mode it accepts has
`hdisplay * vdisplay * 4 <= vram_size / 2`. -/
theorem lsdc_bo_size_valid_pages (PAGE_SHIFT : Nat) (ldev : lsdc_device)
    (mode : drm_display_mode)
    (hh : mode.hdisplay < 2 ^ 16) (hv : mode.vdisplay < 2 ^ 16)
    (hvram : ldev.vram_size < 2 ^ 64) (hps : PAGE_SHIFT ≤ 18) :
    (mode.hdisplay * mode.vdisplay < 2 ^ 31 →
      (lsdc_bo_size_valid PAGE_SHIFT ldev mode = drm_mode_status.MODE_MEM ↔
        (mode.hdisplay * mode.vdisplay * 4 + 2 ^ PAGE_SHIFT - 1) / 2 ^ PAGE_SHIFT >
          (ldev.vram_size / 2) >>> PAGE_SHIFT) ∧
      (lsdc_bo_size_valid PAGE_SHIFT ldev mode = drm_mode_status.MODE_OK ↔
        (mode.hdisplay * mode.vdisplay * 4 + 2 ^ PAGE_SHIFT - 1) / 2 ^ PAGE_SHIFT ≤
          (ldev.vram_size / 2) >>> PAGE_SHIFT)) ∧
    (2 ^ 31 ≤ mode.hdisplay * mode.vdisplay →
      lsdc_bo_size_valid PAGE_SHIFT ldev mode = drm_mode_status.MODE_MEM) ∧
    (lsdc_bo_size_valid PAGE_SHIFT ldev mode = drm_mode_status.MODE_OK →
      mode.hdisplay * mode.vdisplay * 4 ≤ ldev.vram_size / 2) := by
  have hP : 0 < 2 ^ PAGE_SHIFT := Nat.two_pow_pos _
  have hP18 : 2 ^ PAGE_SHIFT ≤ 2 ^ 18 := Nat.pow_le_pow_right (by norm_num) hps
  have hY := PAGE_SIZE_eq PAGE_SHIFT (by omega)
  have hp32 : mode.hdisplay * mode.vdisplay ≤ 65535 * 65535 :=
    Nat.mul_le_mul (by omega) (by omega)
  have hcast : ((mode.hdisplay : Int) * (mode.vdisplay : Int)) =
      ((mode.hdisplay * mode.vdisplay : Nat) : Int) := by push_cast; rfl
  have hmax : ldev.vram_size / 2 / 2 ^ PAGE_SHIFT * 2 ^ PAGE_SHIFT ≤ ldev.vram_size / 2 :=
    Nat.div_mul_le_self _ _
  -- the result when the product fits an `int`
  have hsmall : mode.hdisplay * mode.vdisplay < 2 ^ 31 →
      lsdc_bo_size_valid PAGE_SHIFT ldev mode =
        if (mode.hdisplay * mode.vdisplay * 4 + 2 ^ PAGE_SHIFT - 1) / 2 ^ PAGE_SHIFT >
            (ldev.vram_size / 2) >>> PAGE_SHIFT
        then drm_mode_status.MODE_MEM else drm_mode_status.MODE_OK := by
    intro hlt
    have hsz := fbsize_of_small _ hlt
    have hdiv := DIV_ROUND_UP_ulong_eq (mode.hdisplay * mode.vdisplay * 4) (2 ^ PAGE_SHIFT)
      hP (by omega)
    unfold lsdc_bo_size_valid
    simp only [hcast, hsz, hY, hdiv]
  -- the result when the product wraps
  have hlarge : 2 ^ 31 ≤ mode.hdisplay * mode.vdisplay →
      lsdc_bo_size_valid PAGE_SHIFT ldev mode = drm_mode_status.MODE_MEM := by
    intro hge
    have hsz := fbsize_of_large _ hge (by omega)
    have hdiv := DIV_ROUND_UP_ulong_eq (2 ^ 64 + mode.hdisplay * mode.vdisplay * 4 - 2 ^ 34)
      (2 ^ PAGE_SHIFT) hP (by omega)
    have hgt : (ldev.vram_size / 2) >>> PAGE_SHIFT <
        (2 ^ 64 + mode.hdisplay * mode.vdisplay * 4 - 2 ^ 34 + 2 ^ PAGE_SHIFT - 1) /
          2 ^ PAGE_SHIFT := by
      rw [Nat.shiftRight_eq_div_pow]
      apply (Nat.le_div_iff_mul_le hP).2
      rw [Nat.succ_mul]
      generalize ldev.vram_size / 2 / 2 ^ PAGE_SHIFT * 2 ^ PAGE_SHIFT = t at hmax ⊢
      omega
    unfold lsdc_bo_size_valid
    simp only [hcast, hsz, hY, hdiv]
    rw [if_pos hgt]
  refine ⟨?_, hlarge, ?_⟩
  · intro hlt
    rw [hsmall hlt]
    constructor
    · by_cases hc : (mode.hdisplay * mode.vdisplay * 4 + 2 ^ PAGE_SHIFT - 1) / 2 ^ PAGE_SHIFT >
          (ldev.vram_size / 2) >>> PAGE_SHIFT
      · simp [hc]
      · simp [hc]
    · by_cases hc : (mode.hdisplay * mode.vdisplay * 4 + 2 ^ PAGE_SHIFT - 1) / 2 ^ PAGE_SHIFT >
          (ldev.vram_size / 2) >>> PAGE_SHIFT
      · rw [if_pos hc]
        exact ⟨fun h => (by cases h), fun h => absurd h (by omega)⟩
      · rw [if_neg hc]
        exact ⟨fun _ => by omega, fun _ => rfl⟩
  · intro hok
    by_cases hlt : mode.hdisplay * mode.vdisplay < 2 ^ 31
    · rw [hsmall hlt] at hok
      by_cases hc : (mode.hdisplay * mode.vdisplay * 4 + 2 ^ PAGE_SHIFT - 1) / 2 ^ PAGE_SHIFT >
          (ldev.vram_size / 2) >>> PAGE_SHIFT
      · rw [if_pos hc] at hok
        cases hok
      · rw [Nat.shiftRight_eq_div_pow] at hc
        have h1 := le_div_round_up_mul (mode.hdisplay * mode.vdisplay * 4) (2 ^ PAGE_SHIFT) hP
        have h2 : (mode.hdisplay * mode.vdisplay * 4 + 2 ^ PAGE_SHIFT - 1) / 2 ^ PAGE_SHIFT *
            2 ^ PAGE_SHIFT ≤ ldev.vram_size / 2 / 2 ^ PAGE_SHIFT * 2 ^ PAGE_SHIFT :=
          Nat.mul_le_mul_right _ (by omega)
        exact le_trans h1 (le_trans h2 hmax)
    · rw [hlarge (by omega)] at hok
      cases hok

/-- C16 (amended), at the 1920x1080 sample mode with 16 KiB pages and 256 MiB
of video memory: the 507 pages of the framebuffer fit, the mode is accepted. -/
theorem lsdc_bo_size_valid_pages_witness :
    sample_mode.hdisplay * sample_mode.vdisplay < 2 ^ 31 ∧
    lsdc_bo_size_valid 14 sample_ldev sample_mode = drm_mode_status.MODE_OK ∧
    sample_mode.hdisplay * sample_mode.vdisplay * 4 ≤ sample_ldev.vram_size / 2 := by
  have h := lsdc_bo_size_valid_pages 14 sample_ldev sample_mode (by decide) (by decide)
    (by decide) (by decide)
  have hlt : sample_mode.hdisplay * sample_mode.vdisplay < 2 ^ 31 := by decide
  have hok := ((h.1 hlt).2).2 (by decide)
  exact ⟨hlt, hok, h.2.2 hok⟩

/-- C15 (the code at the failing input): when mapping BAR 0 fails, `pcim_iomap`
returning NULL, and the other calls return 0, `etnaviv_pci_probe` does not stop:
`IS_ERR(NULL)` is false, so it goes on to `etnaviv_gpu_driver_create` with the
NULL pointer and to `etnaviv_drm_bind`, and returns 0. -/
theorem etnaviv_pci_probe_null_mapping :
    etnaviv_env_iomap_fails.pcim_iomap = 0 ∧
    IS_ERR etnaviv_env_iomap_fails.pcim_iomap = false ∧
    (etnaviv_pci_probe etnaviv_env_iomap_fails).ret = 0 ∧
    (etnaviv_pci_probe etnaviv_env_iomap_fails).calls =
      [etnaviv_probe_call.pcim_enable_device, etnaviv_probe_call.pci_set_master,
        etnaviv_probe_call.dma_set_mask_and_coherent, etnaviv_probe_call.pcim_iomap,
        etnaviv_probe_call.etnaviv_gpu_driver_create 0,
        etnaviv_probe_call.etnaviv_drm_bind] := by
  refine ⟨rfl, by decide, by decide, by decide⟩

/-- C11: with `ttm_bo_reserve` and `ttm_bo_validate` returning 0 or a negative
errno, `lsdc_bo_pin` returns that negative errno and leaves `pin_count`
unchanged when reserving fails or, for an object that was not pinned,
validating fails; otherwise it returns 0 with the 32-bit `pin_count` increased
by one.  It calls `ttm_bo_validate` exactly when the reservation was taken and
`pin_count` was 0 on entry, and when the reservation was taken its last call is
the one `ttm_bo_unreserve`, while a failed reservation is followed by no call. -/
theorem lsdc_bo_pin_contract (env : bo_pin_env) (tbo : ttm_buffer_object)
    (hres : is_errno_return env.ttm_bo_reserve)
    (hval : is_errno_return env.ttm_bo_validate) :
    (env.ttm_bo_reserve ≠ 0 →
      (lsdc_bo_pin env tbo).ret = env.ttm_bo_reserve ∧
      (lsdc_bo_pin env tbo).ret < 0 ∧
      (lsdc_bo_pin env tbo).tbo = tbo ∧
      (lsdc_bo_pin env tbo).calls = [ttm_call.ttm_bo_reserve]) ∧
    (env.ttm_bo_reserve = 0 → tbo.pin_count = 0 → env.ttm_bo_validate ≠ 0 →
      (lsdc_bo_pin env tbo).ret = env.ttm_bo_validate ∧
      (lsdc_bo_pin env tbo).ret < 0 ∧
      (lsdc_bo_pin env tbo).tbo.pin_count = tbo.pin_count) ∧
    (env.ttm_bo_reserve = 0 → (tbo.pin_count = 0 → env.ttm_bo_validate = 0) →
      (lsdc_bo_pin env tbo).ret = 0 ∧
      (lsdc_bo_pin env tbo).tbo.pin_count = (tbo.pin_count + 1) % 2 ^ 32 ∧
      (tbo.pin_count + 1 < 2 ^ 32 →
        (lsdc_bo_pin env tbo).tbo.pin_count = tbo.pin_count + 1)) ∧
    (ttm_call.ttm_bo_validate ∈ (lsdc_bo_pin env tbo).calls ↔
      env.ttm_bo_reserve = 0 ∧ tbo.pin_count = 0) ∧
    (env.ttm_bo_reserve = 0 →
      (lsdc_bo_pin env tbo).calls.head? = some ttm_call.ttm_bo_reserve ∧
      (lsdc_bo_pin env tbo).calls.getLast? = some ttm_call.ttm_bo_unreserve ∧
      (lsdc_bo_pin env tbo).calls.count ttm_call.ttm_bo_reserve = 1 ∧
      (lsdc_bo_pin env tbo).calls.count ttm_call.ttm_bo_unreserve = 1) := by
  obtain ⟨_, hres0⟩ := hres
  obtain ⟨_, hval0⟩ := hval
  refine ⟨?_, ?_, ?_, ?_, ?_⟩
  · intro h
    have hr : lsdc_bo_pin env tbo =
        { ret := env.ttm_bo_reserve, tbo := tbo, calls := [ttm_call.ttm_bo_reserve] } := by
      simp [lsdc_bo_pin, h]
    rw [hr]
    exact ⟨rfl, by show env.ttm_bo_reserve < 0; omega, rfl, rfl⟩
  · intro h0 hp hv
    have hneg : env.ttm_bo_validate < 0 := by omega
    have hr : lsdc_bo_pin env tbo =
        { ret := env.ttm_bo_validate, tbo := tbo,
          calls := [ttm_call.ttm_bo_reserve, ttm_call.ttm_bo_validate,
            ttm_call.ttm_bo_unreserve] } := by
      simp [lsdc_bo_pin, h0, hp, hneg]
    rw [hr]
    exact ⟨rfl, hneg, rfl⟩
  · intro h0 hv
    by_cases hp : tbo.pin_count = 0
    · have hv0 := hv hp
      have hr : lsdc_bo_pin env tbo =
          { ret := 0, tbo := ttm_bo_pin { tbo with resource := env.validated_resource },
            calls := [ttm_call.ttm_bo_reserve, ttm_call.ttm_bo_validate, ttm_call.ttm_bo_pin,
              ttm_call.ttm_bo_unreserve] } := by
        simp [lsdc_bo_pin, h0, hp, hv0]
      rw [hr]
      refine ⟨rfl, ?_, ?_⟩
      · simp [ttm_bo_pin, u32, hp]
      · intro _
        simp [ttm_bo_pin, u32, hp]
    · have hr : lsdc_bo_pin env tbo =
          { ret := 0, tbo := ttm_bo_pin tbo,
            calls := [ttm_call.ttm_bo_reserve, ttm_call.ttm_bo_pin,
              ttm_call.ttm_bo_unreserve] } := by
        simp [lsdc_bo_pin, h0, hp]
      rw [hr]
      refine ⟨rfl, rfl, ?_⟩
      intro hlt
      show u32 (tbo.pin_count + 1) = _
      exact Nat.mod_eq_of_lt hlt
  · unfold lsdc_bo_pin
    by_cases h0 : env.ttm_bo_reserve = 0
    · by_cases hp : tbo.pin_count = 0
      · by_cases hneg : env.ttm_bo_validate < 0 <;> simp [h0, hp, hneg]
      · simp [h0, hp]
    · simp [h0]
  · intro h0
    unfold lsdc_bo_pin
    by_cases hp : tbo.pin_count = 0
    · by_cases hneg : env.ttm_bo_validate < 0 <;> simp [h0, hp, hneg]
    · simp [h0, hp]

/-- C11 at an unpinned object with both calls succeeding: the object is
validated and pinned once. -/
theorem lsdc_bo_pin_contract_witness :
    is_errno_return bo_pin_env_ok.ttm_bo_reserve ∧
    is_errno_return bo_pin_env_ok.ttm_bo_validate ∧
    (lsdc_bo_pin bo_pin_env_ok sample_tbo_unpinned).ret = 0 ∧
    (lsdc_bo_pin bo_pin_env_ok sample_tbo_unpinned).tbo.pin_count = 1 ∧
    ttm_call.ttm_bo_validate ∈ (lsdc_bo_pin bo_pin_env_ok sample_tbo_unpinned).calls := by
  have hres : is_errno_return bo_pin_env_ok.ttm_bo_reserve := by
    unfold is_errno_return; decide
  have hval : is_errno_return bo_pin_env_ok.ttm_bo_validate := by
    unfold is_errno_return; decide
  have h := lsdc_bo_pin_contract bo_pin_env_ok sample_tbo_unpinned hres hval
  obtain ⟨_, _, h3, h4, _⟩ := h
  have h3 := h3 rfl (fun _ => rfl)
  exact ⟨hres, hval, h3.1, h3.2.2 (by decide), h4.2 ⟨rfl, rfl⟩⟩

/-- C20: `lsdc_bo_vunmap` neither calls `ttm_bo_vunmap` or `iosys_map_clear`
nor changes `lbo->map`; `lsdc_bo_move` and `lsdc_bo_delete_mem_notify` call
both and leave `lbo->map` cleared exactly when `vmap_use_count` is 0, and leave
it as it was otherwise; `lsdc_bo_vmap` calls `ttm_bo_vmap` only when `lbo->map`
is null (and the mapping is not in use), and keeps a mapping that is present. -/
theorem lsdc_bo_map_kept_until_moved (env : bo_vmap_env) (lbo : lsdc_bo) (map : Option Nat)
    (move_memcpy : Int) (new_mem : ttm_resource) :
    ((lsdc_bo_vunmap lbo map).lbo.map = lbo.map ∧
      ttm_call.ttm_bo_vunmap ∉ (lsdc_bo_vunmap lbo map).calls ∧
      ttm_call.iosys_map_clear ∉ (lsdc_bo_vunmap lbo map).calls) ∧
    ((ttm_call.ttm_bo_vunmap ∈ (lsdc_bo_move move_memcpy lbo new_mem).calls ↔
        lbo.vmap_use_count = 0) ∧
      (ttm_call.iosys_map_clear ∈ (lsdc_bo_move move_memcpy lbo new_mem).calls ↔
        lbo.vmap_use_count = 0) ∧
      (lbo.vmap_use_count = 0 → (lsdc_bo_move move_memcpy lbo new_mem).lbo.map = none) ∧
      (lbo.vmap_use_count ≠ 0 → (lsdc_bo_move move_memcpy lbo new_mem).lbo.map = lbo.map)) ∧
    ((ttm_call.ttm_bo_vunmap ∈ (lsdc_bo_delete_mem_notify lbo).calls ↔
        lbo.vmap_use_count = 0) ∧
      (ttm_call.iosys_map_clear ∈ (lsdc_bo_delete_mem_notify lbo).calls ↔
        lbo.vmap_use_count = 0) ∧
      (lbo.vmap_use_count = 0 → (lsdc_bo_delete_mem_notify lbo).lbo.map = none) ∧
      (lbo.vmap_use_count ≠ 0 → (lsdc_bo_delete_mem_notify lbo).lbo = lbo)) ∧
    ((ttm_call.ttm_bo_vmap ∈ (lsdc_bo_vmap env lbo).calls →
        lbo.map = none ∧ lbo.vmap_use_count = 0) ∧
      (lbo.map ≠ none → (lsdc_bo_vmap env lbo).lbo.map = lbo.map)) := by
  refine ⟨?_, ?_, ?_, ?_⟩
  · unfold lsdc_bo_vunmap
    by_cases h1 : lbo.vmap_use_count = 0 <;> by_cases h2 : lbo.map = map <;>
      by_cases h3 : lbo.vmap_use_count - 1 > 0 <;> simp [h1, h2, h3]
  · unfold lsdc_bo_move
    by_cases hc : lbo.vmap_use_count = 0
    · by_cases hm : move_memcpy = 0 <;> simp [hc, hm]
    · by_cases hm : move_memcpy = 0 <;> simp [hc, hm]
  · unfold lsdc_bo_delete_mem_notify
    by_cases hc : lbo.vmap_use_count = 0 <;> simp [hc]
  · unfold lsdc_bo_vmap lsdc_bo_vmap_pinned lsdc_bo_vmap_finish
    by_cases hp : lbo.bo.pin_count = 0 <;> by_cases hneg : env.ttm_bo_validate < 0 <;>
      by_cases hu : lbo.vmap_use_count > 0 <;> by_cases hmap : lbo.map = none <;>
      by_cases hret : env.ttm_bo_vmap = 0 <;>
      simp [hp, hneg, hu, hmap, hret] <;> omega

/-- At most `k` planes below `k` refer to one object. -/
theorem plane_refs_le (fb : drm_framebuffer_objs) (k a : Nat) : plane_refs fb k a ≤ k := by
  induction k with
  | zero => simp [plane_refs]
  | succ k ih =>
    simp only [plane_refs]
    split_ifs <;> omega

/-- The two outcomes of `lsdc_bo_pin` under the errno convention: pinned once
with 0 returned, or not pinned with the negative errno of the failed call. -/
theorem lsdc_bo_pin_outcome (env : bo_pin_env) (tbo : ttm_buffer_object)
    (hres : is_errno_return env.ttm_bo_reserve)
    (hval : is_errno_return env.ttm_bo_validate)
    (hlt : tbo.pin_count + 1 < 2 ^ 32) :
    ((lsdc_bo_pin env tbo).ret = 0 ∧
      (lsdc_bo_pin env tbo).tbo.pin_count = tbo.pin_count + 1) ∨
    ((lsdc_bo_pin env tbo).ret < 0 ∧
      (lsdc_bo_pin env tbo).tbo.pin_count = tbo.pin_count ∧
      ((lsdc_bo_pin env tbo).ret = env.ttm_bo_reserve ∨
        (lsdc_bo_pin env tbo).ret = env.ttm_bo_validate)) := by
  obtain ⟨_, hres0⟩ := hres
  obtain ⟨_, hval0⟩ := hval
  unfold lsdc_bo_pin
  by_cases h0 : env.ttm_bo_reserve = 0
  · by_cases hp : tbo.pin_count = 0
    · by_cases hneg : env.ttm_bo_validate < 0
      · right
        simp [h0, hp, hneg]
      · left
        have hv0 : env.ttm_bo_validate = 0 := by omega
        simp [h0, hp, hv0, ttm_bo_pin, u32]
    · left
      simp only [h0, hp, ne_eq, not_true_eq_false, if_false, ttm_bo_pin, u32]
      exact ⟨trivial, Nat.mod_eq_of_lt hlt⟩
  · right
    have hneg : env.ttm_bo_reserve < 0 := by omega
    simp [h0, hneg]

/-- The pinning loop of `lsdc_plane_prepare_fb` keeps the pin count of every
object at its base plus the number of planes pinned so far that refer to it. -/
theorem lsdc_plane_prepare_fb_loop_spec (env : prepare_fb_env) (fb : drm_framebuffer_objs)
    (base : Nat → Nat)
    (hpin : ∀ i, is_errno_return (env.pin i).ttm_bo_reserve ∧
      is_errno_return (env.pin i).ttm_bo_validate) :
    ∀ (n i : Nat) (heap : Nat → ttm_buffer_object),
      (∀ a, (heap a).pin_count = base a + plane_refs fb i a) →
      (∀ a, base a + (i + n) < 2 ^ 32) →
      (∀ a, ((lsdc_plane_prepare_fb_loop env fb n i heap).heap a).pin_count =
        base a + plane_refs fb (lsdc_plane_prepare_fb_loop env fb n i heap).i a) ∧
      ((lsdc_plane_prepare_fb_loop env fb n i heap).ret = none →
        (lsdc_plane_prepare_fb_loop env fb n i heap).i = i + n ∧
        ∀ j, i ≤ j → j < i + n → fb.obj j ≠ none) ∧
      (∀ e, (lsdc_plane_prepare_fb_loop env fb n i heap).ret = some e →
        e < 0 ∧ (lsdc_plane_prepare_fb_loop env fb n i heap).i < i + n ∧
        i ≤ (lsdc_plane_prepare_fb_loop env fb n i heap).i ∧
        (∀ j, i ≤ j → j < (lsdc_plane_prepare_fb_loop env fb n i heap).i → fb.obj j ≠ none) ∧
        ((fb.obj (lsdc_plane_prepare_fb_loop env fb n i heap).i = none ∧
            e = -(EINVAL : Int)) ∨
          (fb.obj (lsdc_plane_prepare_fb_loop env fb n i heap).i ≠ none ∧
            (e = (env.pin (lsdc_plane_prepare_fb_loop env fb n i heap).i).ttm_bo_reserve ∨
              e = (env.pin (lsdc_plane_prepare_fb_loop env fb n i heap).i).ttm_bo_validate)))) := by
  intro n
  induction n with
  | zero =>
    intro i heap hinv _
    simp only [lsdc_plane_prepare_fb_loop]
    refine ⟨hinv, fun _ => ⟨rfl, fun j h1 h2 => absurd h2 (by omega)⟩, ?_⟩
    intro e he
    cases he
  | succ n ih =>
    intro i heap hinv hbound
    cases hobj : fb.obj i with
    | none =>
      have hl : lsdc_plane_prepare_fb_loop env fb (n + 1) i heap =
          { ret := some (-(EINVAL : Int)), i := i, heap := heap } := by
        simp only [lsdc_plane_prepare_fb_loop, hobj]
      rw [hl]
      refine ⟨hinv, fun h => (by cases h), ?_⟩
      intro e he
      have he2 : e = -(EINVAL : Int) := by
        simp only [Option.some.injEq] at he
        exact he.symm
      refine ⟨?_, by show i < i + (n + 1); omega, le_refl _,
        fun j h1 h2 => absurd h2 (by show ¬ j < i; omega), Or.inl ⟨hobj, he2⟩⟩
      rw [he2]
      simp [EINVAL]
    | some a0 =>
      have hrefs := plane_refs_le fb i a0
      have hb := hbound a0
      have hlt : (heap a0).pin_count + 1 < 2 ^ 32 := by
        rw [hinv a0]
        omega
      have hout := lsdc_bo_pin_outcome (env.pin i) (heap a0) (hpin i).1 (hpin i).2 hlt
      by_cases hret : (lsdc_bo_pin (env.pin i) (heap a0)).ret = 0
      · -- pinned: the loop goes on
        have hl : lsdc_plane_prepare_fb_loop env fb (n + 1) i heap =
            lsdc_plane_prepare_fb_loop env fb n (i + 1)
              (Function.update heap a0 (lsdc_bo_pin (env.pin i) (heap a0)).tbo) := by
          simp only [lsdc_plane_prepare_fb_loop, hobj, hret, ne_eq, not_true_eq_false, if_false]
        have hcnt : (lsdc_bo_pin (env.pin i) (heap a0)).tbo.pin_count =
            (heap a0).pin_count + 1 := by
          rcases hout with h | h
          · exact h.2
          · omega
        have hinv2 : ∀ a, ((Function.update heap a0
            (lsdc_bo_pin (env.pin i) (heap a0)).tbo) a).pin_count =
            base a + plane_refs fb (i + 1) a := by
          intro a
          by_cases ha : a = a0
          · subst ha
            simp only [Function.update_same, plane_refs, hobj, if_true, hcnt, hinv a]
            omega
          · have hne : ¬ (some a0 = some a) := by
              intro h
              exact ha (Option.some.inj h).symm
            simp only [Function.update_noteq ha, plane_refs, hobj, hne, if_false, hinv a]
            omega
        have hbound2 : ∀ a, base a + (i + 1 + n) < 2 ^ 32 := by
          intro a
          have := hbound a
          omega
        obtain ⟨h1, h2, h3⟩ := ih (i + 1) _ hinv2 hbound2
        rw [hl]
        refine ⟨h1, ?_, ?_⟩
        · intro hnone
          obtain ⟨hi, hall⟩ := h2 hnone
          refine ⟨by omega, ?_⟩
          intro j hj1 hj2
          by_cases hji : j = i
          · rw [hji, hobj]
            exact Option.some_ne_none _
          · exact hall j (by omega) (by omega)
        · intro e he
          obtain ⟨g1, g2, g3, g4, g5⟩ := h3 e he
          refine ⟨g1, by omega, by omega, ?_, g5⟩
          intro j hj1 hj2
          by_cases hji : j = i
          · rw [hji, hobj]
            exact Option.some_ne_none _
          · exact g4 j (by omega) hj2
      · -- not pinned: the loop stops at plane i
        have hl : lsdc_plane_prepare_fb_loop env fb (n + 1) i heap =
            { ret := some (lsdc_bo_pin (env.pin i) (heap a0)).ret, i := i,
              heap := Function.update heap a0 (lsdc_bo_pin (env.pin i) (heap a0)).tbo } := by
          simp only [lsdc_plane_prepare_fb_loop, hobj, hret, ne_eq, not_false_eq_true, if_true]
        have hfail : (lsdc_bo_pin (env.pin i) (heap a0)).ret < 0 ∧
            (lsdc_bo_pin (env.pin i) (heap a0)).tbo.pin_count = (heap a0).pin_count ∧
            ((lsdc_bo_pin (env.pin i) (heap a0)).ret = (env.pin i).ttm_bo_reserve ∨
              (lsdc_bo_pin (env.pin i) (heap a0)).ret = (env.pin i).ttm_bo_validate) := by
          rcases hout with h | h
          · exact absurd h.1 hret
          · exact h
        rw [hl]
        refine ⟨?_, fun h => (by cases h), ?_⟩
        · intro a
          by_cases ha : a = a0
          · subst ha
            simp only [Function.update_same, hfail.2.1, hinv a]
          · simp only [Function.update_noteq ha, hinv a]
        · intro e he
          have he2 : e = (lsdc_bo_pin (env.pin i) (heap a0)).ret := by
            simp only [Option.some.injEq] at he
            exact he.symm
          refine ⟨by rw [he2]; exact hfail.1, by show i < i + (n + 1); omega, le_refl _,
            fun j h1 h2 => absurd h2 (by show ¬ j < i; omega), Or.inr ⟨?_, ?_⟩⟩
          · show fb.obj i ≠ none
            rw [hobj]
            exact Option.some_ne_none _
          · rw [he2]
            exact hfail.2.2

/-- When every reservation of the clean-up succeeds, `lsdc_ttm_cleanup_fb`
takes back one pin for every plane below `np`. -/
theorem lsdc_ttm_cleanup_fb_spec (env : prepare_fb_env) (fb : drm_framebuffer_objs)
    (base : Nat → Nat) (hunpin : ∀ np, env.unpin_reserve np = 0) :
    ∀ (np : Nat) (heap : Nat → ttm_buffer_object),
      (∀ a, (heap a).pin_count = base a + plane_refs fb np a) →
      ∀ a, ((lsdc_ttm_cleanup_fb env fb np heap) a).pin_count = base a := by
  intro np
  induction np with
  | zero =>
    intro heap hinv a
    simpa [lsdc_ttm_cleanup_fb, plane_refs] using hinv a
  | succ np ih =>
    intro heap hinv a
    cases hobj : fb.obj np with
    | none =>
      have hl : lsdc_ttm_cleanup_fb env fb (np + 1) heap = lsdc_ttm_cleanup_fb env fb np heap := by
        simp only [lsdc_ttm_cleanup_fb, hobj]
      rw [hl]
      apply ih
      intro b
      have := hinv b
      simp only [plane_refs, hobj] at this
      simpa using this
    | some a0 =>
      have hl : lsdc_ttm_cleanup_fb env fb (np + 1) heap =
          lsdc_ttm_cleanup_fb env fb np
            (Function.update heap a0 (lsdc_bo_unpin (env.unpin_reserve np) (heap a0))) := by
        simp only [lsdc_ttm_cleanup_fb, hobj]
      rw [hl]
      apply ih
      intro b
      have hb := hinv b
      by_cases hba : b = a0
      · subst hba
        simp only [plane_refs, hobj, if_true] at hb
        have hne : (heap b).pin_count ≠ 0 := by omega
        simp only [Function.update_same, lsdc_bo_unpin, hunpin np, ne_eq, not_true_eq_false,
          if_false, ttm_bo_unpin, hne]
        omega
      · have hne : ¬ (some a0 = some b) := by
          intro h
          exact hba (Option.some.inj h).symm
        simp only [plane_refs, hobj, hne, if_false] at hb
        simp only [Function.update_noteq hba]
        omega

/-- C12 (the code at the failing input): a framebuffer of two planes with
unpinned objects at addresses 1 and 2.  Plane 0 is pinned, then a signal makes
the interruptible `ttm_bo_reserve` of the pin of plane 1 fail with
`-ERESTARTSYS`.  The clean-up calls `lsdc_bo_unpin` on the object of plane 0,
whose own interruptible `ttm_bo_reserve` fails the same way, and
`lsdc_bo_unpin` returns without unpinning: `lsdc_plane_prepare_fb` returns
-512 with the object of plane 0 still pinned once.  With the same failed pin
and a clean-up that can reserve, the pin count is back at 0. -/
theorem lsdc_plane_prepare_fb_pin_leak :
    (unpinned_heap 1).pin_count = 0 ∧
    (unpinned_heap 2).pin_count = 0 ∧
    (lsdc_plane_prepare_fb prepare_fb_env_signal (some two_plane_fb) unpinned_heap).ret =
      -512 ∧
    ((lsdc_plane_prepare_fb prepare_fb_env_signal (some two_plane_fb) unpinned_heap).heap
      1).pin_count = 1 ∧
    ((lsdc_plane_prepare_fb prepare_fb_env_signal (some two_plane_fb) unpinned_heap).heap
      2).pin_count = 0 ∧
    lsdc_bo_unpin (prepare_fb_env_signal.unpin_reserve 0)
      { pin_count := 1, resource := none } = { pin_count := 1, resource := none } ∧
    (lsdc_plane_prepare_fb prepare_fb_env_pin_interrupted (some two_plane_fb)
      unpinned_heap).ret = -512 ∧
    ((lsdc_plane_prepare_fb prepare_fb_env_pin_interrupted (some two_plane_fb)
      unpinned_heap).heap 1).pin_count = 0 := by
  refine ⟨by decide, by decide, by decide, by decide, by decide, by decide, by decide,
    by decide⟩

/-- The roll-back of `lsdc_plane_prepare_fb` when it works.  Without a
framebuffer the function returns 0 and changes nothing.  With the TTM calls and
`drm_gem_plane_helper_prepare_fb` returning 0 or a negative errno and no pin
count near the end of its 32 bits, a failing call returns a negative errno:
`-EINVAL` for the first plane without object, or what the failed
`ttm_bo_reserve` or `ttm_bo_validate` of the pin of a plane returned, or what
`drm_gem_plane_helper_prepare_fb` returned after all planes were pinned.  If in
addition every `ttm_bo_reserve` of the clean-up succeeds, the pin count of
every object is back at its value on entry. -/
theorem lsdc_plane_prepare_fb_rollback (env : prepare_fb_env) (fb : drm_framebuffer_objs)
    (heap : Nat → ttm_buffer_object)
    (hpin : ∀ i, is_errno_return (env.pin i).ttm_bo_reserve ∧
      is_errno_return (env.pin i).ttm_bo_validate)
    (hhelper : is_errno_return env.drm_gem_plane_helper_prepare_fb)
    (hcount : ∀ a, (heap a).pin_count + fb.num_planes < 2 ^ 32) :
    (lsdc_plane_prepare_fb env none heap).ret = 0 ∧
    (lsdc_plane_prepare_fb env none heap).heap = heap ∧
    ((lsdc_plane_prepare_fb env (some fb) heap).ret ≠ 0 →
      (lsdc_plane_prepare_fb env (some fb) heap).ret < 0 ∧
      ((∀ np, env.unpin_reserve np = 0) →
        ∀ a, ((lsdc_plane_prepare_fb env (some fb) heap).heap a).pin_count =
          (heap a).pin_count) ∧
      ((∃ i, i < fb.num_planes ∧ (∀ j, j < i → fb.obj j ≠ none) ∧ fb.obj i = none ∧
          (lsdc_plane_prepare_fb env (some fb) heap).ret = -(EINVAL : Int)) ∨
        (∃ i, i < fb.num_planes ∧ (∀ j, j ≤ i → fb.obj j ≠ none) ∧
          ((lsdc_plane_prepare_fb env (some fb) heap).ret = (env.pin i).ttm_bo_reserve ∨
            (lsdc_plane_prepare_fb env (some fb) heap).ret = (env.pin i).ttm_bo_validate)) ∨
        ((∀ j, j < fb.num_planes → fb.obj j ≠ none) ∧
          (lsdc_plane_prepare_fb env (some fb) heap).ret =
            env.drm_gem_plane_helper_prepare_fb))) := by
  refine ⟨rfl, rfl, ?_⟩
  have hinv0 : ∀ a, (heap a).pin_count = (heap a).pin_count + plane_refs fb 0 a := by
    intro a
    simp [plane_refs]
  have hbound : ∀ a, (heap a).pin_count + (0 + fb.num_planes) < 2 ^ 32 := by
    intro a
    have := hcount a
    omega
  obtain ⟨h1, h2, h3⟩ := lsdc_plane_prepare_fb_loop_spec env fb (fun a => (heap a).pin_count)
    hpin fb.num_planes 0 heap hinv0 hbound
  have hclean := fun hunpin : ∀ np, env.unpin_reserve np = 0 =>
    lsdc_ttm_cleanup_fb_spec env fb (fun a => (heap a).pin_count) hunpin
      (lsdc_plane_prepare_fb_loop env fb fb.num_planes 0 heap).i
      (lsdc_plane_prepare_fb_loop env fb fb.num_planes 0 heap).heap h1
  cases hl : (lsdc_plane_prepare_fb_loop env fb fb.num_planes 0 heap).ret with
  | some e =>
    have hr : lsdc_plane_prepare_fb env (some fb) heap =
        { ret := e
          heap := lsdc_ttm_cleanup_fb env fb
            (lsdc_plane_prepare_fb_loop env fb fb.num_planes 0 heap).i
            (lsdc_plane_prepare_fb_loop env fb fb.num_planes 0 heap).heap } := by
      simp only [lsdc_plane_prepare_fb, hl]
    obtain ⟨g1, g2, _, g4, g5⟩ := h3 e hl
    rw [hr]
    intro _
    refine ⟨g1, hclean, ?_⟩
    rcases g5 with ⟨hnone, he⟩ | ⟨hsome, he⟩
    · exact Or.inl ⟨_, by omega, fun j hj => g4 j (Nat.zero_le _) hj, hnone, he⟩
    · refine Or.inr (Or.inl ⟨_, by omega, ?_, he⟩)
      intro j hj
      rcases Nat.lt_or_eq_of_le hj with hlt | heq
      · exact g4 j (Nat.zero_le _) hlt
      · rw [heq]
        exact hsome
  | none =>
    obtain ⟨_, hall⟩ := h2 hl
    by_cases hret : env.drm_gem_plane_helper_prepare_fb = 0
    · have hr : lsdc_plane_prepare_fb env (some fb) heap =
          { ret := 0, heap := (lsdc_plane_prepare_fb_loop env fb fb.num_planes 0 heap).heap } := by
        simp only [lsdc_plane_prepare_fb, hl, hret, ne_eq, not_true_eq_false, if_false]
      rw [hr]
      intro h
      exact absurd rfl h
    · have hr : lsdc_plane_prepare_fb env (some fb) heap =
          { ret := env.drm_gem_plane_helper_prepare_fb
            heap := lsdc_ttm_cleanup_fb env fb
              (lsdc_plane_prepare_fb_loop env fb fb.num_planes 0 heap).i
              (lsdc_plane_prepare_fb_loop env fb fb.num_planes 0 heap).heap } := by
        simp only [lsdc_plane_prepare_fb, hl, hret, ne_eq, not_false_eq_true, if_true]
      rw [hr]
      intro _
      obtain ⟨_, hle⟩ := hhelper
      refine ⟨by show env.drm_gem_plane_helper_prepare_fb < 0; omega, hclean, ?_⟩
      exact Or.inr (Or.inr ⟨fun j hj => hall j (Nat.zero_le _) (by omega), rfl⟩)

/-- The roll-back at a framebuffer of two planes whose second pin fails with
`-ENOMEM` in `ttm_bo_validate` while the clean-up can reserve: -12 is returned
and no object is left pinned. -/
theorem lsdc_plane_prepare_fb_rollback_example :
    (∀ np, prepare_fb_env_nomem.unpin_reserve np = 0) ∧
    (lsdc_plane_prepare_fb prepare_fb_env_nomem (some two_plane_fb) unpinned_heap).ret = -12 ∧
    (∀ a, ((lsdc_plane_prepare_fb prepare_fb_env_nomem (some two_plane_fb)
      unpinned_heap).heap a).pin_count = (unpinned_heap a).pin_count) := by
  have hpin : ∀ i, is_errno_return (prepare_fb_env_nomem.pin i).ttm_bo_reserve ∧
      is_errno_return (prepare_fb_env_nomem.pin i).ttm_bo_validate := by
    intro i
    by_cases hi : i = 0
    · subst hi
      exact ⟨by unfold is_errno_return; decide, by unfold is_errno_return; decide⟩
    · simp only [prepare_fb_env_nomem, hi, if_false]
      exact ⟨by unfold is_errno_return; decide, by unfold is_errno_return; decide⟩
  have hhelper : is_errno_return prepare_fb_env_nomem.drm_gem_plane_helper_prepare_fb := by
    unfold is_errno_return; decide
  have hunpin : ∀ np, prepare_fb_env_nomem.unpin_reserve np = 0 := fun _ => rfl
  have hcount : ∀ a, (unpinned_heap a).pin_count + two_plane_fb.num_planes < 2 ^ 32 := by
    intro a
    show 0 + 2 < 2 ^ 32
    norm_num
  have hret : (lsdc_plane_prepare_fb prepare_fb_env_nomem (some two_plane_fb)
      unpinned_heap).ret = -12 := by decide
  have h := lsdc_plane_prepare_fb_rollback prepare_fb_env_nomem two_plane_fb unpinned_heap
    hpin hhelper hcount
  exact ⟨hunpin, hret, (h.2.2 (by rw [hret]; decide)).2.1 hunpin⟩

/-- C19 at the LS7A1000, which has one hardware cursor: the cursor of pipe 0
gets the CURSOR0 table and the cursor of pipe 1 the quirk table. -/
theorem lsdc_cursor_plane_preinit_by_hw_cursors_witness :
    dc_in_ls7a1000 ∈ lsdc_descs ∧
    dc_in_ls7a1000.num_of_hw_cursor = 1 ∧
    lsdc_cursor_plane_preinit dc_in_ls7a1000 0 = cursor_lowing_funcs_pipe0 ∧
    lsdc_cursor_plane_preinit dc_in_ls7a1000 1 = cursor_lowing_funcs_pipe1_quirk :=
  ⟨by decide, by decide,
    (lsdc_cursor_plane_preinit_by_hw_cursors dc_in_ls7a1000 (by decide)).1,
    (lsdc_cursor_plane_preinit_by_hw_cursors dc_in_ls7a1000
      (by decide)).2.2.2.2.2.1.2 (by decide)⟩

/-- C21: for each of the four chip descriptors and every pipe `i` below
`num_of_crtc`, the index `i` of `dispipe` is below `LSDC_NUM_CRTC`, the lookup
`lsdc_crtc_funcs_array[has_vblank_counter][i]` of `lsdc_crtc_init` is inside
the array, the table found has a `get_vblank_counter` callback exactly when
`has_vblank_counter` is true, and its `enable_vblank` and `disable_vblank` are
the functions of pipe `i`, which set and clear the vsync enable bit of that
pipe in `LSDC_INT_REG`. -/
theorem lsdc_crtc_init_funcs_in_bounds (V : lsdc_vblank_regs_h) (ldev : lsdc_device)
    (ret : Int) (descp : lsdc_desc) (hmem : descp ∈ lsdc_descs) (i : Nat)
    (hi : i < descp.num_of_crtc) :
    i < LSDC_NUM_CRTC ∧
    (∀ j ∈ lsdc_modeset_init_dispipe descp, j < LSDC_NUM_CRTC) ∧
    (if descp.has_vblank_counter = true then 1 else 0) < lsdc_crtc_funcs_array.length ∧
    ∃ funcs,
      lsdc_crtc_init descp i ret = some { ret := ret, funcs := funcs } ∧
      (funcs.get_vblank_counter = some crtc_callback.lsdc_crtc_get_vblank_counter ↔
        descp.has_vblank_counter = true) ∧
      (funcs.get_vblank_counter = none ↔ descp.has_vblank_counter = false) ∧
      funcs.enable_vblank =
        some (if i = 0 then crtc_callback.lsdc_enable_vblank_pipe_0
          else crtc_callback.lsdc_enable_vblank_pipe_1) ∧
      funcs.disable_vblank =
        some (if i = 0 then crtc_callback.lsdc_disable_vblank_pipe_0
          else crtc_callback.lsdc_disable_vblank_pipe_1) ∧
      funcs.enable_vblank.bind (crtc_enable_vblank_call V ldev) =
        some (0, lsdc_ureg32_set ldev V.LSDC_INT_REG
          (if i = 0 then V.INT_CRTC0_VSYNC_EN else V.INT_CRTC1_VSYNC_EN)) ∧
      funcs.disable_vblank.bind (crtc_disable_vblank_call V ldev) =
        some (lsdc_ureg32_clr ldev V.LSDC_INT_REG
          (if i = 0 then V.INT_CRTC0_VSYNC_EN else V.INT_CRTC1_VSYNC_EN)) := by
  have hinit : lsdc_crtc_init descp i ret =
      ((lsdc_crtc_funcs_array[if descp.has_vblank_counter = true then 1 else 0]?).bind
        (fun row => row[i]?)).map (fun funcs => { ret := ret, funcs := funcs }) := by
    simp only [lsdc_crtc_init]
    rcases hr : lsdc_crtc_funcs_array[if descp.has_vblank_counter = true then 1 else 0]? with
      _ | row
    · rfl
    · rcases hrow : row[i]? with _ | funcs
      · simp [hrow]
      · by_cases hz : ret = 0
        · simp [hrow, hz]
        · simp [hrow, hz]
  have hd : descp = dc_in_ls7a1000 ∨ descp = dc_in_ls7a2000 ∨ descp = dc_in_ls2k1000 ∨
      descp = dc_in_ls2k2000 := by
    simpa [lsdc_descs] using hmem
  rw [hinit]
  rcases hd with rfl | rfl | rfl | rfl
  all_goals
    have hi2 : i < 2 := hi
    interval_cases i
    all_goals
      exact ⟨by decide, by decide, by decide, _, rfl, by decide, by decide, rfl, rfl, rfl, rfl⟩

/-- C21 at pipe 1 of the LS7A2000, which has a vsync counter: the table found
has the counter callback and the vblank callbacks of pipe 1. -/
theorem lsdc_crtc_init_funcs_in_bounds_witness :
    dc_in_ls7a2000 ∈ lsdc_descs ∧ 1 < dc_in_ls7a2000.num_of_crtc ∧
    dc_in_ls7a2000.has_vblank_counter = true ∧
    ∃ funcs,
      lsdc_crtc_init dc_in_ls7a2000 1 0 = some { ret := 0, funcs := funcs } ∧
      funcs.get_vblank_counter = some crtc_callback.lsdc_crtc_get_vblank_counter ∧
      funcs.enable_vblank = some crtc_callback.lsdc_enable_vblank_pipe_1 ∧
      funcs.disable_vblank = some crtc_callback.lsdc_disable_vblank_pipe_1 := by
  obtain ⟨_, _, _, funcs, h1, h2, _, h4, h5, _, _⟩ :=
    lsdc_crtc_init_funcs_in_bounds lsdc_vblank_regs_sample sample_ldev 0 dc_in_ls7a2000
      (by decide) 1 (by decide)
  exact ⟨by decide, by decide, by decide, funcs, h1, h2.2 (by decide), h4, h5⟩

/-- C22: with the steps of `mwv207_fb_create` returning 0 or a negative errno,
it returns 0 exactly when every step succeeded, and then the buffer object was
pinned and mapped, the last call is the one `mwv207_bo_unreserve`, and nothing
was unpinned, freed or unreferenced.  When a step after `mwv207_bo_create`
fails it returns the negative errno of that step, calls `mwv207_bo_unpin`
(once) exactly when the object had been pinned, `mwv207_bo_unreserve` (once)
exactly when it had been reserved, and `mwv207_bo_unref` exactly once. -/
theorem mwv207_fb_create_cleanup (PAGE_SHIFT : Nat) (env : mwv207_fb_env)
    (sizes : drm_fb_helper_surface_size)
    (hinfo : env.drm_fb_helper_alloc_fbi < 2 ^ 64)
    (hcreate : is_errno_return env.mwv207_bo_create)
    (hinit : is_errno_return env.mwv207_framebuffer_init)
    (hres : is_errno_return env.mwv207_bo_reserve)
    (hpin : is_errno_return env.mwv207_bo_pin_reserved)
    (hkmap : is_errno_return env.mwv207_bo_kmap_reserved) :
    ((mwv207_fb_create PAGE_SHIFT env sizes).ret = 0 ↔ env.all_succeed) ∧
    (env.all_succeed →
      (mwv207_fb_create PAGE_SHIFT env sizes).calls.getLast? =
        some mwv207_call.mwv207_bo_unreserve ∧
      mwv207_call.mwv207_bo_pin_reserved ∈ (mwv207_fb_create PAGE_SHIFT env sizes).calls ∧
      mwv207_call.mwv207_bo_kmap_reserved ∈ (mwv207_fb_create PAGE_SHIFT env sizes).calls ∧
      mwv207_call.mwv207_bo_unpin ∉ (mwv207_fb_create PAGE_SHIFT env sizes).calls ∧
      mwv207_call.kfree ∉ (mwv207_fb_create PAGE_SHIFT env sizes).calls ∧
      mwv207_call.mwv207_bo_unref ∉ (mwv207_fb_create PAGE_SHIFT env sizes).calls ∧
      (mwv207_fb_create PAGE_SHIFT env sizes).calls.count mwv207_call.mwv207_bo_reserve = 1 ∧
      (mwv207_fb_create PAGE_SHIFT env sizes).calls.count
        mwv207_call.mwv207_bo_unreserve = 1) ∧
    (IS_ERR env.drm_fb_helper_alloc_fbi = false → env.mwv207_bo_create = 0 →
      (mwv207_fb_create PAGE_SHIFT env sizes).ret ≠ 0 →
      (mwv207_fb_create PAGE_SHIFT env sizes).ret = env.failing_errno ∧
      (mwv207_fb_create PAGE_SHIFT env sizes).ret < 0 ∧
      (mwv207_call.mwv207_bo_unpin ∈ (mwv207_fb_create PAGE_SHIFT env sizes).calls ↔
        env.pinned) ∧
      (mwv207_fb_create PAGE_SHIFT env sizes).calls.count mwv207_call.mwv207_bo_unpin ≤ 1 ∧
      (mwv207_call.mwv207_bo_unreserve ∈ (mwv207_fb_create PAGE_SHIFT env sizes).calls ↔
        env.reserved) ∧
      (mwv207_fb_create PAGE_SHIFT env sizes).calls.count
        mwv207_call.mwv207_bo_unreserve ≤ 1 ∧
      (mwv207_fb_create PAGE_SHIFT env sizes).calls.count mwv207_call.mwv207_bo_unref = 1) := by
  obtain ⟨_, hc0⟩ := hcreate
  obtain ⟨_, hf0⟩ := hinit
  obtain ⟨_, hr0⟩ := hres
  obtain ⟨_, hp0⟩ := hpin
  obtain ⟨_, hm0⟩ := hkmap
  unfold mwv207_fb_create mwv207_fb_env.all_succeed mwv207_fb_env.failing_errno
    mwv207_fb_env.pinned mwv207_fb_env.reserved mwv207_fb_create_unpin_bo
    mwv207_fb_create_unreserve_bo mwv207_fb_create_free_fb mwv207_fb_create_free_bo
  by_cases hI : IS_ERR env.drm_fb_helper_alloc_fbi = true
  · have hne := PTR_ERR_ne_zero _ hinfo hI
    simp [hI, hne]
  · have hI2 : IS_ERR env.drm_fb_helper_alloc_fbi = false := by simpa using hI
    by_cases hc : env.mwv207_bo_create = 0
    · by_cases hk : env.kzalloc = true
      · by_cases hf : env.mwv207_framebuffer_init = 0
        · by_cases hr : env.mwv207_bo_reserve = 0
          · by_cases hp : env.mwv207_bo_pin_reserved = 0
            · by_cases hm : env.mwv207_bo_kmap_reserved = 0
              · simp [hI2, hc, hk, hf, hr, hp, hm]
              · simp [hI2, hc, hk, hf, hr, hp, hm]
                omega
            · simp [hI2, hc, hk, hf, hr, hp]
              omega
          · simp [hI2, hc, hk, hf, hr]
            omega
        · simp [hI2, hc, hk, hf]
          omega
      · simp [hI2, hc, hk, ENOMEM]
    · simp [hI2, hc]

/-- C22 at a 1920x1080 surface when mapping the pinned buffer object fails
with `-ENOMEM`: -12 is returned and the object is unpinned, unreserved and
unreferenced once. -/
theorem mwv207_fb_create_cleanup_witness :
    mwv207_fb_env_kmap_fails.pinned ∧
    (mwv207_fb_create 14 mwv207_fb_env_kmap_fails sample_surface).ret = -12 ∧
    mwv207_call.mwv207_bo_unpin ∈
      (mwv207_fb_create 14 mwv207_fb_env_kmap_fails sample_surface).calls ∧
    mwv207_call.mwv207_bo_unreserve ∈
      (mwv207_fb_create 14 mwv207_fb_env_kmap_fails sample_surface).calls ∧
    (mwv207_fb_create 14 mwv207_fb_env_kmap_fails sample_surface).calls.count
      mwv207_call.mwv207_bo_unref = 1 := by
  have hpinned : mwv207_fb_env_kmap_fails.pinned := by
    unfold mwv207_fb_env.pinned mwv207_fb_env.reserved
    decide
  have h := mwv207_fb_create_cleanup 14 mwv207_fb_env_kmap_fails sample_surface
    (by decide) (by unfold is_errno_return; decide) (by unfold is_errno_return; decide)
    (by unfold is_errno_return; decide) (by unfold is_errno_return; decide)
    (by unfold is_errno_return; decide)
  obtain ⟨h1, _, h3, _, h5, _, h7⟩ := h.2.2 (by decide) rfl (by decide)
  exact ⟨hpinned, by rw [h1]; decide, h3.2 hpinned, h5.2 hpinned.1, h7⟩

end Lsdc
